import Mathlib

/-!
# Parking-lot barrier controller (`Core/main.c`, `Led_RGB/rgb.c`)

A shallow embedding of the vehicle registry (`vehicles_inside_db`, `vehicle_count`,
`find_vehicle_index`, `add_vehicle`, `remove_vehicle`), of the authorisation table
(`VALID_UIDS`, `is_card_authorized`), of one iteration of the `while (1)` loop of `main`
(the barrier state machine) and of the two arithmetic helpers of the RGB LED driver
(`compute_psc`, `scale8_to_arr`), followed by the properties proved about them.

Conventions of the embedding:

* a `uint8_t[4]` identifier is a function `Fin 4 → Nat` (one byte per index);
* `vehicles_inside_db[MAX_VEHICLES_INSIDE][4]` is a function `Fin 4 → UID`; an access to a
  slot outside `0..3` is undefined behaviour in C and makes the embedded function return
  `none`;
* `vehicle_count` (`uint8_t`) is a `Nat`, incremented and decremented modulo `256`;
* `int` indices are `Int`;
* `uint32_t` tick values are `Nat` reduced modulo `2^32`;
* every call of a peripheral (`MFRC522_Request`, `MFRC522_Anticoll`, `Entry_IR_IsBlocked`,
  `Exit_IR_IsBlocked`, `Get_Ms_Ticks`) is an input of the cycle, one field per call site;
  every command sent to a peripheral (`LCD_Write`, `Servo_SetAngle`, `delay_ms`, ...) is
  an event of the cycle's output trace;
* the reader driver stores its reply through a pointer to the 4-byte `current_uid` without
  a length check (up to 16 bytes, five for every card that answers the anti-collision).
  What the bytes beyond `current_uid[3]` overwrite is not fixed by the source: their
  effect on the other globals is an input of the cycle too (`request_overrun`,
  `anticoll_overrun`), `none` when the store leaves the globals of the embedding. Facts
  that hold only while the reader leaves the other globals alone carry the hypothesis
  `NoClobber`.
-/

namespace ParkingLot

/-! ## Constants -/

/-- Maximum number of vehicles allowed in the parking lot (`MAX_VEHICLES_INSIDE`). -/
def MAX_VEHICLES_INSIDE : Nat := 4

/-- Servo angle when the barrier is closed (`BARRIER_CLOSED_ANGLE`, `0.0f`), in degrees. -/
def BARRIER_CLOSED_ANGLE : Nat := 0

/-- Servo angle when the barrier is open (`BARRIER_OPEN_ANGLE`, `75.0f`), in degrees. -/
def BARRIER_OPEN_ANGLE : Nat := 75

/-- Timeout in ms to wait for a vehicle after card authorization. -/
def AUTHORIZED_TIMEOUT : Nat := 10000

/-- Timeout in ms for a vehicle to pass through the gate. -/
def PASSAGE_TIMEOUT : Nat := 15000

/-- Delay in ms after a vehicle has passed before closing the barrier. -/
def DELAY_BEFORE_CLOSING : Nat := 2000

/-! ## Identifiers and `memcmp` -/

/-- A card identifier, `uint8_t[4]`. -/
abbrev UID := Fin 4 → Nat

/-- Build an identifier from its four bytes. -/
def mkUID (a b c d : Nat) : UID := ![a, b, c, d]

/-- The C library's `memcmp(a, b, 4)`: the difference of the first pair of bytes that
differ, `0` when the four bytes agree. -/
def memcmp4 (a b : UID) : Int :=
  if a 0 ≠ b 0 then (a 0 : Int) - (b 0 : Int)
  else if a 1 ≠ b 1 then (a 1 : Int) - (b 1 : Int)
  else if a 2 ≠ b 2 then (a 2 : Int) - (b 2 : Int)
  else if a 3 ≠ b 3 then (a 3 : Int) - (b 3 : Int)
  else 0

/-! ## Authorisation table -/

/-- The table `VALID_UIDS`, indexed by row. -/
def VALID_UIDS : Fin 4 → UID :=
  ![mkUID 0xD3 0xA7 0xB1 0x28,
    mkUID 0x23 0xB8 0x16 0x2D,
    mkUID 0x93 0x71 0x8D 0x0C,
    mkUID 0x23 0xA2 0x5C 0xFA]

/-- Number of rows of the table: `sizeof(VALID_UIDS) / sizeof(VALID_UIDS[0])`. -/
def NUM_VALID_UIDS : Nat := 16 / 4

/-- The loop of `is_card_authorized`, with `k` iterations left and loop variable `i`
(`k = NUM_VALID_UIDS - i`, so `i` stays below the four rows of the table and the last
branch is never taken). -/
def is_card_authorized_loop (uid : UID) : Nat → Nat → Bool
  | 0, _ => false
  | k + 1, i =>
    if h : i < 4 then
      if memcmp4 uid (VALID_UIDS ⟨i, h⟩) = 0 then true
      else is_card_authorized_loop uid k (i + 1)
    else false

/-- The function `is_card_authorized`: `for (i = 0; i < NUM_VALID_UIDS; i++)`. -/
def is_card_authorized (uid : UID) : Bool :=
  is_card_authorized_loop uid NUM_VALID_UIDS 0

/-! ## Vehicle registry -/

/-- The two globals of the registry: `vehicles_inside_db` and `vehicle_count`. -/
structure Registry where
  vehicles_inside_db : Fin 4 → UID
  vehicle_count : Nat

/-- The registry at program start: zero-initialised array, `vehicle_count = 0`. -/
def Registry.init : Registry :=
  { vehicles_inside_db := fun _ _ => 0, vehicle_count := 0 }

/-- Read `vehicles_inside_db[i]`; `none` when `i` is outside the array. -/
def readSlot (db : Fin 4 → UID) (i : Nat) : Option UID :=
  if h : i < 4 then some (db ⟨i, h⟩) else none

/-- The loop of `find_vehicle_index`, with `k` iterations left and loop variable `i`
(`k = vehicle_count - i`). -/
def find_vehicle_index_loop (db : Fin 4 → UID) (uid : UID) : Nat → Nat → Option Int
  | 0, _ => some (-1)
  | k + 1, i =>
    match readSlot db i with
    | none => none
    | some e =>
      if memcmp4 uid e = 0 then some (i : Int)
      else find_vehicle_index_loop db uid k (i + 1)

/-- The function `find_vehicle_index`: `for (int i = 0; i < vehicle_count; i++)`. -/
def find_vehicle_index (r : Registry) (uid : UID) : Option Int :=
  find_vehicle_index_loop r.vehicles_inside_db uid r.vehicle_count 0

/-- The function `add_vehicle`: the new registry and the returned flag. The write goes to
slot `vehicle_count < 4`, so it is always inside the array. -/
def add_vehicle (r : Registry) (uid : UID) : Registry × Bool :=
  if h : r.vehicle_count ≥ MAX_VEHICLES_INSIDE then (r, false)
  else
    ({ vehicles_inside_db :=
         Function.update r.vehicles_inside_db
           ⟨r.vehicle_count, by simp only [MAX_VEHICLES_INSIDE] at h; omega⟩ uid,
       vehicle_count := (r.vehicle_count + 1) % 256 }, true)

/-- One assignment `db[dst][i] = db[src][i]` of the copy loop of `remove_vehicle`. -/
def copyByte (dst src : Fin 4) (db : Fin 4 → UID) (i : Fin 4) : Fin 4 → UID :=
  Function.update db dst (Function.update (db dst) i (db src i))

/-- The copy loop of `remove_vehicle`: `for (int i = 0; i < 4; i++)`. -/
def copySlot (db : Fin 4 → UID) (dst src : Fin 4) : Fin 4 → UID :=
  (List.finRange 4).foldl (copyByte dst src) db

/-- The function `remove_vehicle`; `none` when a slot outside the array would be
accessed (only possible when `vehicle_count > 4`). -/
def remove_vehicle (r : Registry) (index : Int) : Option Registry :=
  if index < 0 ∨ index ≥ (r.vehicle_count : Int) then some r
  else
    if h : index.toNat < 4 ∧ r.vehicle_count - 1 < 4 then
      some { vehicles_inside_db :=
               copySlot r.vehicles_inside_db ⟨index.toNat, h.1⟩ ⟨r.vehicle_count - 1, h.2⟩,
             vehicle_count := (r.vehicle_count + 255) % 256 }
    else none

/-- The removal as the controller performs it: `remove_vehicle(find_vehicle_index(uid))`. -/
def remove_found (r : Registry) (uid : UID) : Option Registry :=
  match find_vehicle_index r uid with
  | none => none
  | some idx => remove_vehicle r idx

/-- The identifier `uid` is one of the first `vehicle_count` entries of the array
(equal on all four bytes). -/
def Member (r : Registry) (uid : UID) : Prop :=
  ∃ j : Fin 4, j.val < r.vehicle_count ∧ r.vehicles_inside_db j = uid

/-- The first `vehicle_count` entries of the array are pairwise distinct. -/
def NoDuplicate (r : Registry) : Prop :=
  ∀ j k : Fin 4, j.val < r.vehicle_count → k.val < r.vehicle_count →
    r.vehicles_inside_db j = r.vehicles_inside_db k → j = k

/-! ## Barrier state machine -/

/-- Direction of the vehicle being served (`VehicleDirection_t`). -/
inductive VehicleDirection_t
  | DIR_NONE
  | DIR_ENTRY
  | DIR_EXIT
  deriving DecidableEq, Repr

/-- States of the barrier state machine (`BarrierState_t`). -/
inductive BarrierState_t
  | STATE_CLOSED
  | STATE_AUTHORIZED_WAITING_VEHICLE
  | STATE_OPENING
  | STATE_OPEN_WAITING_PASSAGE
  | STATE_CLOSING
  | STATE_WAIT_BEFORE_CLOSING
  deriving DecidableEq, Repr

open VehicleDirection_t BarrierState_t

/-- The globals of `main.c` that the loop reads and writes. -/
structure Controller where
  reg : Registry
  current_direction : VehicleDirection_t
  currentState : BarrierState_t
  current_uid : UID
  state_change_timestamp : Nat
  vehicle_is_passing : Bool

/-- The globals at program start: `STATE_CLOSED`, `DIR_NONE`, empty registry,
zero-initialised `current_uid` and `state_change_timestamp`, flag cleared. -/
def Controller.init : Controller :=
  { reg := Registry.init,
    current_direction := DIR_NONE,
    currentState := STATE_CLOSED,
    current_uid := fun _ => 0,
    state_change_timestamp := 0,
    vehicle_is_passing := false }

/-- What the peripherals return during one iteration of the loop, one field per call
site.

The card reader (`RFID/rc522.c`) is called with a pointer to `uint8_t current_uid[4]`.
`MFRC522_ToCard` copies the whole reply through that pointer, up to `MAX_LEN = 16` bytes
(rc522.c:285-287), and `MFRC522_Anticoll`, documented as needing a buffer for "the 4-byte
serial number (UID) and 1-byte BCC", reads `serNum[4]` whenever the transfer succeeded
(rc522.c:328-337). Bytes `0..3` are `current_uid`; what is stored beyond them lands in
whatever the linker placed behind `current_uid`, which the source does not fix.

* `request_ok`, `anticoll_ok`: the call returned `MI_OK`;
* `request_buf`, `anticoll_buf`: the contents of `current_uid[0..3]` after the call;
* `request_overrun`, `anticoll_overrun`: the effect on the other globals of the bytes the
  call stores beyond `current_uid[3]`, as a map from the globals before the call to the
  globals after it; `none` when the store leaves the globals of the embedding (the C
  behaviour is undefined). The map is `some` when the call stores at most four bytes
  (no reply) or when the bytes beyond land in storage the program never reads
  (`card_uid`, `card_type`). `MFRC522_Request` returns `MI_OK` only for a reply of
  exactly 16 bits (`backBits != 0x10` gives `MI_ERR`, rc522.c:308), which fits the
  buffer: `request_overrun` applies to a failing request only. `MFRC522_Anticoll`
  goes beyond the buffer whenever its transfer succeeds (it reads `serNum[4]`; a card
  replies with five bytes), so `anticoll_overrun` applies to every anti-collision call.

In each `case` the sensor call sites are numbered in textual order: `entry1`/`exit1` the
first test of the case, `entry2`/`exit2` the confirmation test of
`STATE_OPEN_WAITING_PASSAGE` (line 320), `entry3`/`exit3` its timeout test (line 334).
`tick1` is the first call of `Get_Ms_Ticks` of the case, `tick2` the timeout test of
`STATE_OPEN_WAITING_PASSAGE` (line 333). -/
structure Inputs where
  request_ok : Bool
  request_buf : UID
  request_overrun : Controller → Option Controller
  anticoll_ok : Bool
  anticoll_buf : UID
  anticoll_overrun : Controller → Option Controller
  entry1 : Bool
  exit1 : Bool
  entry2 : Bool
  exit2 : Bool
  entry3 : Bool
  exit3 : Bool
  tick1 : Nat
  tick2 : Nat

/-- Commands sent to the peripherals. `LCD_FreeSlot n` is the line
`"Free slot: %d"` printed with argument `n`. -/
inductive Event
  | LCD_FreeSlot (n : Int)
  | HC595_DisplayNumber (n : Nat)
  | RGB_SetColor (r g b : Nat)
  | LCD_Write (text : String)
  | Servo_SetAngle (deg : Nat)
  | delay_ms (ms : Nat)
  deriving DecidableEq, Repr

/-- A `uint32_t` value. -/
def u32 (n : Nat) : Nat := n % 4294967296

/-- Unsigned 32-bit subtraction `a - b`. -/
def u32sub (a b : Nat) : Nat := (u32 a + 4294967296 - u32 b) % 4294967296

/-- The display update at the top of the loop body (lines 223-239). -/
def displayEvents (vehicle_count : Nat) : List Event :=
  [Event.LCD_FreeSlot ((MAX_VEHICLES_INSIDE : Int) - (vehicle_count : Int)),
   Event.HC595_DisplayNumber vehicle_count,
   if vehicle_count = MAX_VEHICLES_INSIDE then Event.RGB_SetColor 255 0 0
   else if vehicle_count = 0 then Event.RGB_SetColor 0 255 0
   else Event.RGB_SetColor 0 0 255]

/-- The sensor test `(current_direction == DIR_ENTRY && Entry_IR_IsBlocked()) ||
(current_direction == DIR_EXIT && Exit_IR_IsBlocked())`. -/
def matchingSensorBlocked (d : VehicleDirection_t) (entry exit : Bool) : Bool :=
  (decide (d = DIR_ENTRY) && entry) || (decide (d = DIR_EXIT) && exit)

/-- The `case STATE_CLOSED` of the switch (lines 243-279). Each reader call first acts
on the globals beyond `current_uid` (`request_overrun`, `anticoll_overrun`), then leaves
its first four bytes in `current_uid`; a call whose store leaves the globals of the
embedding ends the cycle with `none`. -/
def caseClosed (s : Controller) (i : Inputs) : Option (Controller × List Event) :=
  let ev := [Event.LCD_Write "Gate Closed     "]
  if i.request_ok then
    let s1 := { s with current_uid := i.request_buf }
    match i.anticoll_overrun s1 with
    | none => none
    | some t =>
      let s2 := { t with current_uid := i.anticoll_buf }
      if i.anticoll_ok then
        if is_card_authorized s2.current_uid then
          match find_vehicle_index s2.reg s2.current_uid with
          | none => none
          | some vehicle_idx =>
            if vehicle_idx = -1 then
              if s2.reg.vehicle_count < MAX_VEHICLES_INSIDE then
                some ({ s2 with current_direction := DIR_ENTRY,
                                currentState := STATE_AUTHORIZED_WAITING_VEHICLE,
                                state_change_timestamp := u32 i.tick1 },
                      ev ++ [Event.LCD_Write "Gate Opened     "])
              else
                some (s2, ev ++ [Event.LCD_Write "Parking is full!", Event.delay_ms 1500])
            else
              some ({ s2 with current_direction := DIR_EXIT,
                              currentState := STATE_AUTHORIZED_WAITING_VEHICLE,
                              state_change_timestamp := u32 i.tick1 },
                    ev ++ [Event.LCD_Write "Gate Opened     "])
        else
          some (s2, ev ++ [Event.LCD_Write "Access Denied!  ", Event.delay_ms 1500])
      else some (s2, ev)
  else
    match i.request_overrun s with
    | none => none
    | some t => some ({ t with current_uid := i.request_buf }, ev)

/-- The reader calls of the cycle leave every global other than `current_uid` as it was:
they store at most four bytes, or the bytes beyond land in storage the program never
reads. -/
def NoClobber (i : Inputs) : Prop :=
  (∀ s : Controller, i.request_overrun s = some s) ∧
  (∀ s : Controller, i.anticoll_overrun s = some s)

/-- The `case STATE_AUTHORIZED_WAITING_VEHICLE` of the switch (lines 281-293). -/
def caseAuthorized (s : Controller) (i : Inputs) : Controller × List Event :=
  let s1 :=
    if matchingSensorBlocked s.current_direction i.entry1 i.exit1 then
      { s with currentState := STATE_OPENING }
    else s
  let s2 :=
    if u32sub i.tick1 s1.state_change_timestamp > AUTHORIZED_TIMEOUT then
      { s1 with currentState := STATE_CLOSED, current_direction := DIR_NONE }
    else s1
  (s2, [])

/-- The `case STATE_OPENING` of the switch (lines 295-303). -/
def caseOpening (s : Controller) (i : Inputs) : Controller × List Event :=
  ({ s with currentState := STATE_OPEN_WAITING_PASSAGE,
            state_change_timestamp := u32 i.tick1,
            vehicle_is_passing := false },
   [Event.LCD_Write "Gate Opening... ", Event.Servo_SetAngle BARRIER_OPEN_ANGLE,
    Event.delay_ms 500])

/-- The registry update of the passage confirmation (lines 322-326); the value returned
by `add_vehicle` is discarded, as in the source. -/
def updateDatabase (s : Controller) : Option Registry :=
  if s.current_direction = DIR_ENTRY then
    some (add_vehicle s.reg s.current_uid).1
  else if s.current_direction = DIR_EXIT then
    remove_found s.reg s.current_uid
  else some s.reg

/-- Stage 1 of `case STATE_OPEN_WAITING_PASSAGE` (lines 309-315): wait for the vehicle
to start passing. -/
def passageStage1 (s : Controller) (i : Inputs) : Controller :=
  if !s.vehicle_is_passing then
    if matchingSensorBlocked s.current_direction i.entry1 i.exit1 then
      { s with vehicle_is_passing := true }
    else s
  else s

/-- Stage 2 of `case STATE_OPEN_WAITING_PASSAGE` (lines 317-330): once the vehicle has
started, both sensors clear confirm the passage. -/
def passageStage2 (s : Controller) (i : Inputs) : Option Controller :=
  if s.vehicle_is_passing then
    if !i.entry2 && !i.exit2 then
      match updateDatabase s with
      | none => none
      | some reg =>
        some { s with reg := reg,
                      currentState := STATE_WAIT_BEFORE_CLOSING,
                      state_change_timestamp := u32 i.tick1 }
    else some s
  else some s

/-- The timeout check of `case STATE_OPEN_WAITING_PASSAGE` (lines 332-337). -/
def passageTimeout (s : Controller) (i : Inputs) : Controller :=
  if u32sub i.tick2 s.state_change_timestamp > PASSAGE_TIMEOUT then
    if !i.entry3 && !i.exit3 then { s with currentState := STATE_CLOSING }
    else s
  else s

/-- The `case STATE_OPEN_WAITING_PASSAGE` of the switch (lines 305-338): stage 1, stage 2
and the timeout check, in this order. -/
def caseOpenWaiting (s : Controller) (i : Inputs) : Option (Controller × List Event) :=
  match passageStage2 (passageStage1 s i) i with
  | none => none
  | some s2 => some (passageTimeout s2 i, [Event.LCD_Write "Please pass...  "])

/-- The `case STATE_WAIT_BEFORE_CLOSING` of the switch (lines 339-347). -/
def caseWaitBeforeClosing (s : Controller) (i : Inputs) : Controller × List Event :=
  (if u32sub i.tick1 s.state_change_timestamp > DELAY_BEFORE_CLOSING then
     { s with currentState := STATE_CLOSING }
   else s,
   [Event.LCD_Write "Vehicle passed! "])

/-- The `case STATE_CLOSING` of the switch (lines 348-358). -/
def caseClosing (s : Controller) (i : Inputs) : Controller × List Event :=
  if !i.entry1 && !i.exit1 then
    ({ s with current_direction := DIR_NONE, currentState := STATE_CLOSED },
     [Event.LCD_Write "Gate Closing... ", Event.Servo_SetAngle BARRIER_CLOSED_ANGLE,
      Event.delay_ms 500])
  else (s, [])

/-- The `switch (currentState)` of the loop body (lines 242-359). -/
def switchState (s : Controller) (i : Inputs) : Option (Controller × List Event) :=
  match s.currentState with
  | STATE_CLOSED => caseClosed s i
  | STATE_AUTHORIZED_WAITING_VEHICLE => some (caseAuthorized s i)
  | STATE_OPENING => some (caseOpening s i)
  | STATE_OPEN_WAITING_PASSAGE => caseOpenWaiting s i
  | STATE_WAIT_BEFORE_CLOSING => some (caseWaitBeforeClosing s i)
  | STATE_CLOSING => some (caseClosing s i)

/-- One iteration of the `while (1)` loop of `main` (lines 222-361): the display update,
the switch, and the closing `delay_ms(50)`. `none` when the iteration would access the
registry array out of bounds. -/
def poll (s : Controller) (i : Inputs) : Option (Controller × List Event) :=
  match switchState s i with
  | none => none
  | some (s', ev) => some (s', displayEvents s.reg.vehicle_count ++ ev ++ [Event.delay_ms 50])

/-- Run the loop for one iteration per element of `inputs`. -/
def run (s : Controller) : List Inputs → Option Controller
  | [] => some s
  | i :: rest =>
    match poll s i with
    | none => none
    | some (s', _) => run s' rest

/-- A state is reachable when some finite run of the loop from the initial globals
ends in it. -/
def Reachable (s : Controller) : Prop :=
  ∃ inputs : List Inputs, run Controller.init inputs = some s

/-- A state is reachable without clobber when some finite run of the loop from the initial
globals, in which no reader call changes a global other than `current_uid`, ends in
it. -/
def ReachableNoClobber (s : Controller) : Prop :=
  ∃ inputs : List Inputs, (∀ i ∈ inputs, NoClobber i) ∧ run Controller.init inputs = some s

/-! ## Sequences of registry calls -/

/-- A call of one of the two mutators of the registry. -/
inductive RegistryCall
  | add (uid : UID)
  | remove (index : Int)

/-- Perform one call on the registry. -/
def applyCall (r : Registry) : RegistryCall → Option Registry
  | RegistryCall.add uid => some (add_vehicle r uid).1
  | RegistryCall.remove index => remove_vehicle r index

/-- Perform a sequence of calls, first to last. -/
def applyCalls (r : Registry) : List RegistryCall → Option Registry
  | [] => some r
  | c :: rest =>
    match applyCall r c with
    | none => none
    | some r' => applyCalls r' rest

/-! ## Invariant of the loop -/

/-- The invariant the loop keeps: the count is within the array, the stored entries are
pairwise distinct, and while a request is being served (card accepted, barrier not yet
through the passage test) the scanned identifier is absent with a free slot left for an
entry, present for an exit. -/
def Inv (s : Controller) : Prop :=
  s.reg.vehicle_count ≤ 4 ∧ NoDuplicate s.reg ∧
  ((s.currentState = STATE_AUTHORIZED_WAITING_VEHICLE ∨ s.currentState = STATE_OPENING ∨
      s.currentState = STATE_OPEN_WAITING_PASSAGE) →
    (s.current_direction = DIR_ENTRY →
      s.reg.vehicle_count < 4 ∧ ¬ Member s.reg s.current_uid) ∧
    (s.current_direction = DIR_EXIT → Member s.reg s.current_uid))

/-! ## Concrete data used to instantiate the theorems -/

/-- First row of `VALID_UIDS`. -/
def cardA : UID := mkUID 0xD3 0xA7 0xB1 0x28

/-- Second row of `VALID_UIDS`. -/
def cardB : UID := mkUID 0x23 0xB8 0x16 0x2D

/-- Third row of `VALID_UIDS`. -/
def cardC : UID := mkUID 0x93 0x71 0x8D 0x0C

/-- Fourth row of `VALID_UIDS`. -/
def cardD : UID := mkUID 0x23 0xA2 0x5C 0xFA

/-- An identifier that is not in `VALID_UIDS`. -/
def cardX : UID := mkUID 0x01 0x02 0x03 0x04

/-- The zero-initialised buffer. -/
def zeroUID : UID := fun _ => 0

/-- A cycle in which no card answers (the reader stores nothing beyond `current_uid`),
both sensors are clear and the clock reads `tick`. -/
def quiet (tick : Nat) : Inputs :=
  { request_ok := false, request_buf := zeroUID, request_overrun := some,
    anticoll_ok := false, anticoll_buf := zeroUID, anticoll_overrun := some,
    entry1 := false, exit1 := false, entry2 := false, exit2 := false,
    entry3 := false, exit3 := false, tick1 := tick, tick2 := tick }

/-- A cycle in which the reader returns the card `uid`, both sensors are clear and the
clock reads `tick`. The fifth byte of the anti-collision reply (the BCC) is stored
behind `current_uid`, in storage the program never reads: `anticoll_overrun` is the
`some` of `quiet`. -/
def scan (uid : UID) (tick : Nat) : Inputs :=
  { quiet tick with request_ok := true, request_buf := uid, anticoll_ok := true,
                    anticoll_buf := uid }

/-- A cycle without a card in which every call of the entry sensor returns `e`, every
call of the exit sensor returns `x`, and the clock reads `tick`. -/
def sense (e x : Bool) (tick : Nat) : Inputs :=
  { quiet tick with entry1 := e, exit1 := x, entry2 := e, exit2 := x,
                    entry3 := e, exit3 := x }

/-- A registry holding `cardA` and `cardB`. -/
def regAB : Registry :=
  { vehicles_inside_db := ![cardA, cardB, zeroUID, zeroUID], vehicle_count := 2 }

/-- A full registry that does not hold `cardD`. -/
def regFull : Registry :=
  { vehicles_inside_db := ![cardA, cardB, cardC, cardX], vehicle_count := 4 }

/-- The globals with the barrier closed and the registry `r`. -/
def closedWith (r : Registry) : Controller :=
  { Controller.init with reg := r }

/-- The globals in `STATE_CLOSING` after an entry of `cardA` into the empty lot. -/
def closingAfterEntry : Controller :=
  { reg := { vehicles_inside_db := Function.update Registry.init.vehicles_inside_db 0 cardA,
             vehicle_count := 1 },
    current_direction := DIR_ENTRY,
    currentState := STATE_CLOSING,
    current_uid := cardA,
    state_change_timestamp := 700,
    vehicle_is_passing := true }

/-- The inputs of a run that lets `cardA` enter the empty lot and reaches
`STATE_CLOSING`. -/
def entryRun : List Inputs :=
  [scan cardA 100, sense true false 200, quiet 300, sense true false 400,
   sense false false 700, quiet 2800]

/-- The inputs of a run that brings `cardA` to the open barrier of the empty lot, with
the passage flag armed. -/
def armEntryRun : List Inputs :=
  [scan cardA 100, sense true false 200, quiet 300, sense true false 400]

/-- The globals after `armEntryRun`: `STATE_OPEN_WAITING_PASSAGE`, intent entry, flag
armed, registry still empty. -/
def openArmedEntry : Controller :=
  { reg := Registry.init,
    current_direction := DIR_ENTRY,
    currentState := STATE_OPEN_WAITING_PASSAGE,
    current_uid := cardA,
    state_change_timestamp := 300,
    vehicle_is_passing := true }

/-- The inputs of a run that lets `cardA` in, closes the barrier, and brings `cardA` back
to the open barrier for its exit, with the passage flag armed. -/
def armExitRun : List Inputs :=
  entryRun ++
    [quiet 2900, scan cardA 3000, sense false true 3100, quiet 3200, sense false true 3300]

/-- The globals after `armExitRun`: `STATE_OPEN_WAITING_PASSAGE`, intent exit, flag armed,
`cardA` in the registry. -/
def openArmedExit : Controller :=
  { reg := closingAfterEntry.reg,
    current_direction := DIR_EXIT,
    currentState := STATE_OPEN_WAITING_PASSAGE,
    current_uid := cardA,
    state_change_timestamp := 3200,
    vehicle_is_passing := true }

/-- The globals after `cardA` was scanned at tick 0 at the empty lot:
`STATE_AUTHORIZED_WAITING_VEHICLE` with intent entry. -/
def awaitingEntry : Controller :=
  { reg := Registry.init,
    current_direction := DIR_ENTRY,
    currentState := STATE_AUTHORIZED_WAITING_VEHICLE,
    current_uid := cardA,
    state_change_timestamp := 0,
    vehicle_is_passing := false }

/-- Globals in `STATE_WAIT_BEFORE_CLOSING` entered at tick 700, with `regAB`. -/
def settling : Controller :=
  { reg := regAB,
    current_direction := DIR_EXIT,
    currentState := STATE_WAIT_BEFORE_CLOSING,
    current_uid := cardC,
    state_change_timestamp := 700,
    vehicle_is_passing := true }

/-- The state is `STATE_CLOSED` exactly when the intent is `DIR_NONE`. -/
def ClosedIffNoIntent (s : Controller) : Prop :=
  s.currentState = STATE_CLOSED ↔ s.current_direction = DIR_NONE

/-- The globals after `cardA` was scanned, the entry sensor tripped and the barrier
opened at tick 300: `STATE_OPEN_WAITING_PASSAGE`, intent entry, passage flag not armed. -/
def openUnarmedEntry : Controller :=
  { reg := Registry.init,
    current_direction := DIR_ENTRY,
    currentState := STATE_OPEN_WAITING_PASSAGE,
    current_uid := cardA,
    state_change_timestamp := 300,
    vehicle_is_passing := false }

/-- The globals after `cardA`, inside the lot, was scanned again, the exit sensor tripped
and the barrier opened at tick 3200: `STATE_OPEN_WAITING_PASSAGE`, intent exit, passage
flag not armed, `cardA` in the registry. -/
def openUnarmedExit : Controller :=
  { openArmedExit with vehicle_is_passing := false }

/-- A cycle at tick 400 in which the entry sensor reads occluded at the arming test
(line 311) and clear at the confirmation test (line 320); the exit sensor reads clear at
every call. It agrees with `sense true false 400` on the first reading of each sensor. -/
def tornEntry : Inputs :=
  { sense true false 400 with entry2 := false }

/-- The sensor readings of a cycle have at least one sensor occluded at the confirmation
test and at the timeout test of `STATE_OPEN_WAITING_PASSAGE`. -/
def Occluded (i : Inputs) : Prop :=
  (i.entry2 = true ∨ i.exit2 = true) ∧ (i.entry3 = true ∨ i.exit3 = true)

/-- Modelled from the spec: `Get_Ms_Ticks` is declared in `delay.h`, which is not among
the sources; it is the clock `now_ms()` of the spec, a millisecond counter. Its result is
taken as `uint32_t`, the type of `state_change_timestamp` that it is assigned to: a clock
reading `n` enters the loop as `n mod 2^32`. -/
def Get_Ms_Ticks (reading : Nat) : Nat := u32 reading

/-! ## RGB LED driver (`Led_RGB/rgb.c`) -/

/-- Target PWM frequency (`PWM_TARGET_HZ`, `1000U`). -/
def PWM_TARGET_HZ : Nat := 1000

/-- Auto-reload register value (`PWM_ARR`, `999U`). -/
def PWM_ARR : Nat := 999

/-- The function `compute_psc` on `uint32_t` arguments, returning `uint16_t`: the product,
the sum of the ceiling division and the final decrement are taken modulo `2^32`, the
result modulo `2^16`. -/
def compute_psc (timclk_hz fpwm_hz arr : Nat) : Nat :=
  let denom0 := u32 (u32 fpwm_hz * u32 (u32 arr + 1))
  let denom := if denom0 = 0 then 1 else denom0
  let psc0 := u32 (u32 timclk_hz + denom + 4294967295) / denom
  let psc := if psc0 = 0 then 1 else psc0
  u32 (psc + 4294967295) % 65536

/-- The formula written in the comment of `compute_psc`,
`PSC = (timclk_hz / (fpwm_hz * (arr + 1))) - 1`, read with integer division. -/
def compute_psc_comment_formula (timclk_hz fpwm_hz arr : Nat) : Int :=
  ((timclk_hz / (fpwm_hz * (arr + 1)) : Nat) : Int) - 1

/-- The function `scale8_to_arr` on a `uint8_t` argument, returning `uint16_t`. -/
def scale8_to_arr (v : Nat) : Nat :=
  (u32 (u32 (v % 256) * u32 PWM_ARR + 127) / 255) % 65536

/-- The value `RGB_Init` writes to `TIM1->PSC` (lines 75-76). -/
def RGB_Init_PSC : Nat := compute_psc 168000000 PWM_TARGET_HZ PWM_ARR

/-- The values `RGB_SetColor` writes to `TIM1->CCR1`, `CCR2`, `CCR3`. -/
def RGB_SetColor (r g b : Nat) : Nat × Nat × Nat :=
  (scale8_to_arr r, scale8_to_arr g, scale8_to_arr b)

/-! ## Basic facts about the embedding -/

theorem memcmp4_eq_zero_iff (a b : UID) : memcmp4 a b = 0 ↔ a = b := by
  constructor
  · intro h
    unfold memcmp4 at h
    split_ifs at h with h0 h1 h2 h3
    · omega
    · omega
    · omega
    · omega
    · funext k
      fin_cases k
      · simpa using h0
      · simpa using h1
      · simpa using h2
      · simpa using h3
  · rintro rfl
    simp [memcmp4]

theorem finRange_four : List.finRange 4 = [0, 1, 2, 3] := by
  decide

theorem copySlot_eq (db : Fin 4 → UID) (dst src : Fin 4) :
    copySlot db dst src = Function.update db dst (db src) := by
  funext j b
  simp only [copySlot, finRange_four, List.foldl, copyByte]
  by_cases hj : j = dst
  · subst hj
    by_cases hs : src = j
    · subst hs
      fin_cases b <;> simp [Function.update]
    · fin_cases b <;> simp [Function.update, hs]
  · simp [Function.update, hj]

theorem find_loop_no_match (db : Fin 4 → UID) (uid : UID) :
    ∀ (k i : Nat), i + k ≤ 4 →
      (∀ j : Fin 4, i ≤ j.val → j.val < i + k → db j ≠ uid) →
      find_vehicle_index_loop db uid k i = some (-1) := by
  intro k
  induction k with
  | zero => intro i _ _; rfl
  | succ k ih =>
    intro i hik hno
    have hi : i < 4 := by omega
    have hne : db ⟨i, hi⟩ ≠ uid := hno ⟨i, hi⟩ (le_refl i) (by simp)
    have hcmp : ¬ memcmp4 uid (db ⟨i, hi⟩) = 0 := by
      rw [memcmp4_eq_zero_iff]
      exact fun h => hne h.symm
    simp only [find_vehicle_index_loop, readSlot, hi, dite_true, hcmp, if_false]
    apply ih (i + 1) (by omega)
    intro j h1 h2
    exact hno j (by omega) (by omega)

theorem find_loop_match (db : Fin 4 → UID) (uid : UID) :
    ∀ (k i : Nat) (j : Fin 4), i ≤ j.val → j.val < i + k → db j = uid →
      (∀ m : Fin 4, i ≤ m.val → m.val < j.val → db m ≠ uid) →
      find_vehicle_index_loop db uid k i = some (j.val : Int) := by
  intro k
  induction k with
  | zero => intro i j h1 h2; omega
  | succ k ih =>
    intro i j h1 h2 hj hmin
    have hi : i < 4 := by have := j.isLt; omega
    by_cases hij : i = j.val
    · subst hij
      have hcmp : memcmp4 uid (db j) = 0 := by
        rw [memcmp4_eq_zero_iff, hj]
      simp [find_vehicle_index_loop, readSlot, hcmp]
    · have hne : db ⟨i, hi⟩ ≠ uid := hmin ⟨i, hi⟩ (le_refl i) (by simp; omega)
      have hcmp : ¬ memcmp4 uid (db ⟨i, hi⟩) = 0 := by
        rw [memcmp4_eq_zero_iff]
        exact fun h => hne h.symm
      simp only [find_vehicle_index_loop, readSlot, hi, dite_true, hcmp, if_false]
      apply ih (i + 1) j (by omega) (by omega) hj
      intro m hm1 hm2
      exact hmin m (by omega) hm2

/-- A member has a first position in the array. -/
theorem member_first (r : Registry) (uid : UID) (h : Member r uid) :
    ∃ j : Fin 4, j.val < r.vehicle_count ∧ r.vehicles_inside_db j = uid ∧
      ∀ m : Fin 4, m.val < j.val → r.vehicles_inside_db m ≠ uid := by
  classical
  let P : Nat → Prop := fun n =>
    ∃ hn : n < 4, n < r.vehicle_count ∧ r.vehicles_inside_db ⟨n, hn⟩ = uid
  have hex : ∃ n, P n := by
    obtain ⟨j, hj1, hj2⟩ := h
    exact ⟨j.val, j.isLt, hj1, hj2⟩
  obtain ⟨hn, hlt, heq⟩ := Nat.find_spec hex
  refine ⟨⟨Nat.find hex, hn⟩, hlt, heq, ?_⟩
  intro m hm hmeq
  have hmlt : m.val < Nat.find hex := hm
  exact Nat.find_min hex hmlt ⟨m.isLt, by omega, hmeq⟩

/-- On a member, `find_vehicle_index` returns its first position (for any
`vehicle_count`: the search stops before leaving the array). -/
theorem find_of_member (r : Registry) (uid : UID) (h : Member r uid) :
    ∃ j : Fin 4, j.val < r.vehicle_count ∧ r.vehicles_inside_db j = uid ∧
      (∀ m : Fin 4, m.val < j.val → r.vehicles_inside_db m ≠ uid) ∧
      find_vehicle_index r uid = some (j.val : Int) := by
  obtain ⟨j, hj1, hj2, hj3⟩ := member_first r uid h
  refine ⟨j, hj1, hj2, hj3, ?_⟩
  unfold find_vehicle_index
  exact find_loop_match _ uid _ 0 j (Nat.zero_le _) (by omega) hj2 (fun m _ hm => hj3 m hm)

/-- On a non-member, `find_vehicle_index` returns `-1`. -/
theorem find_of_not_member (r : Registry) (uid : UID) (hwf : r.vehicle_count ≤ 4)
    (h : ¬ Member r uid) : find_vehicle_index r uid = some (-1) := by
  unfold find_vehicle_index
  apply find_loop_no_match _ uid _ 0 (by omega)
  intro j _ hj heq
  exact h ⟨j, by omega, heq⟩

theorem find_eq_neg_one_iff (r : Registry) (uid : UID) (hwf : r.vehicle_count ≤ 4) :
    find_vehicle_index r uid = some (-1) ↔ ¬ Member r uid := by
  constructor
  · intro hfind hmem
    obtain ⟨j, _, _, _, hj⟩ := find_of_member r uid hmem
    rw [hj] at hfind
    have := Option.some.inj hfind
    omega
  · exact find_of_not_member r uid hwf

/-- With `vehicle_count ≤ 4` the search always returns. -/
theorem find_total (r : Registry) (uid : UID) (hwf : r.vehicle_count ≤ 4) :
    ∃ idx : Int, find_vehicle_index r uid = some idx := by
  by_cases h : Member r uid
  · obtain ⟨j, _, _, _, hj⟩ := find_of_member r uid h
    exact ⟨_, hj⟩
  · exact ⟨_, find_of_not_member r uid hwf h⟩

theorem remove_vehicle_out_of_range (r : Registry) (index : Int)
    (h : index < 0 ∨ index ≥ (r.vehicle_count : Int)) : remove_vehicle r index = some r := by
  simp [remove_vehicle, h]

/-- The effect of `remove_vehicle` on a valid index: the last entry overwrites slot `j`
and the count drops by one. -/
theorem remove_vehicle_in_range (r : Registry) (j : Fin 4) (hj : j.val < r.vehicle_count)
    (hwf : r.vehicle_count ≤ 4) :
    ∃ hl : r.vehicle_count - 1 < 4,
      remove_vehicle r (j.val : Int) =
        some { vehicles_inside_db :=
                 Function.update r.vehicles_inside_db j
                   (r.vehicles_inside_db ⟨r.vehicle_count - 1, hl⟩),
               vehicle_count := r.vehicle_count - 1 } := by
  have hl : r.vehicle_count - 1 < 4 := by omega
  refine ⟨hl, ?_⟩
  have h1 : ¬ (((j.val : Nat) : Int) < 0 ∨ ((j.val : Nat) : Int) ≥ (r.vehicle_count : Int)) := by
    omega
  have h3 : (r.vehicle_count + 255) % 256 = r.vehicle_count - 1 := by omega
  rw [remove_vehicle, if_neg h1, dif_pos ⟨by simp, hl⟩]
  simp [copySlot_eq, h3]

theorem add_vehicle_full (r : Registry) (uid : UID) (h : MAX_VEHICLES_INSIDE ≤ r.vehicle_count) :
    add_vehicle r uid = (r, false) := by
  simp [add_vehicle, h]

theorem add_vehicle_room (r : Registry) (uid : UID) (h : r.vehicle_count < 4) :
    add_vehicle r uid =
      ({ vehicles_inside_db := Function.update r.vehicles_inside_db ⟨r.vehicle_count, h⟩ uid,
         vehicle_count := r.vehicle_count + 1 }, true) := by
  have h1 : ¬ r.vehicle_count ≥ MAX_VEHICLES_INSIDE := by
    simp only [MAX_VEHICLES_INSIDE]; omega
  have h2 : (r.vehicle_count + 1) % 256 = r.vehicle_count + 1 := by omega
  simp only [add_vehicle, h1, dite_false, h2]

theorem applyCall_bounded (r : Registry) (c : RegistryCall) (h : r.vehicle_count ≤ 4) :
    ∃ r', applyCall r c = some r' ∧ r'.vehicle_count ≤ 4 := by
  cases c with
  | add uid =>
    refine ⟨_, rfl, ?_⟩
    by_cases hfull : r.vehicle_count < 4
    · rw [add_vehicle_room r uid hfull]
      show r.vehicle_count + 1 ≤ 4
      omega
    · rw [add_vehicle_full r uid (by simp only [MAX_VEHICLES_INSIDE]; omega)]
      exact h
  | remove index =>
    by_cases hr : index < 0 ∨ index ≥ (r.vehicle_count : Int)
    · exact ⟨r, remove_vehicle_out_of_range r index hr, h⟩
    · have h0 : 0 ≤ index := by omega
      have hlt : index.toNat < 4 := by omega
      have hidx : ((⟨index.toNat, hlt⟩ : Fin 4).val : Int) = index := by
        simp only [Int.toNat_of_nonneg h0]
      obtain ⟨hl, heq⟩ := remove_vehicle_in_range r ⟨index.toNat, hlt⟩
        (by show index.toNat < r.vehicle_count; omega) h
      rw [hidx] at heq
      refine ⟨_, heq, ?_⟩
      show r.vehicle_count - 1 ≤ 4
      omega

theorem applyCalls_bounded (calls : List RegistryCall) :
    ∀ r : Registry, r.vehicle_count ≤ 4 →
      ∃ r', applyCalls r calls = some r' ∧ r'.vehicle_count ≤ 4 := by
  induction calls with
  | nil => intro r h; exact ⟨r, rfl, h⟩
  | cons c rest ih =>
    intro r h
    obtain ⟨r1, h1, hb1⟩ := applyCall_bounded r c h
    obtain ⟨r2, h2, hb2⟩ := ih r1 hb1
    refine ⟨r2, ?_, hb2⟩
    simp only [applyCalls, h1, h2]

/-- The removal the controller performs on a member: the last entry overwrites the first
slot holding the identifier and the count drops by one. -/
theorem remove_found_member (r : Registry) (a : UID) (hwf : r.vehicle_count ≤ 4)
    (hmem : Member r a) :
    ∃ (j : Fin 4) (hl : r.vehicle_count - 1 < 4),
      j.val < r.vehicle_count ∧ r.vehicles_inside_db j = a ∧
      remove_found r a =
        some { vehicles_inside_db :=
                 Function.update r.vehicles_inside_db j
                   (r.vehicles_inside_db ⟨r.vehicle_count - 1, hl⟩),
               vehicle_count := r.vehicle_count - 1 } := by
  obtain ⟨j, hj1, hj2, _, hj4⟩ := find_of_member r a hmem
  obtain ⟨hl, hrem⟩ := remove_vehicle_in_range r j hj1 hwf
  exact ⟨j, hl, hj1, hj2, by simp only [remove_found, hj4, hrem]⟩

theorem noDuplicate_swap_remove (r : Registry) (j : Fin 4) (hl : r.vehicle_count - 1 < 4)
    (hj : j.val < r.vehicle_count) (hnd : NoDuplicate r) :
    NoDuplicate
      { vehicles_inside_db :=
          Function.update r.vehicles_inside_db j
            (r.vehicles_inside_db ⟨r.vehicle_count - 1, hl⟩),
        vehicle_count := r.vehicle_count - 1 } := by
  intro k m hk hm hkm
  simp only at hk hm hkm
  by_cases hkj : k = j
  · by_cases hmj : m = j
    · rw [hkj, hmj]
    · rw [hkj, Function.update_same, Function.update_noteq hmj] at hkm
      have := hnd ⟨r.vehicle_count - 1, hl⟩ m (by simp; omega) (by omega) hkm
      have hv := congrArg Fin.val this
      simp only at hv
      omega
  · by_cases hmj : m = j
    · rw [hmj, Function.update_same, Function.update_noteq hkj] at hkm
      have := hnd k ⟨r.vehicle_count - 1, hl⟩ (by omega) (by simp; omega) hkm
      have hv := congrArg Fin.val this
      simp only at hv
      omega
    · rw [Function.update_noteq hkj, Function.update_noteq hmj] at hkm
      exact hnd k m (by omega) (by omega) hkm

theorem not_member_swap_remove (r : Registry) (j : Fin 4) (hl : r.vehicle_count - 1 < 4)
    (hj : j.val < r.vehicle_count) (hnd : NoDuplicate r) :
    ¬ Member
      { vehicles_inside_db :=
          Function.update r.vehicles_inside_db j
            (r.vehicles_inside_db ⟨r.vehicle_count - 1, hl⟩),
        vehicle_count := r.vehicle_count - 1 } (r.vehicles_inside_db j) := by
  rintro ⟨k, hk, hkeq⟩
  simp only at hk hkeq
  by_cases hkj : k = j
  · rw [hkj, Function.update_same] at hkeq
    have := hnd ⟨r.vehicle_count - 1, hl⟩ j (by simp; omega) hj hkeq
    have hv := congrArg Fin.val this
    simp only at hv
    rw [hkj] at hk
    omega
  · rw [Function.update_noteq hkj] at hkeq
    exact hkj (hnd k j (by omega) hj hkeq)

theorem member_swap_remove_iff (r : Registry) (j : Fin 4) (hl : r.vehicle_count - 1 < 4)
    (hj : j.val < r.vehicle_count) (b : UID) (hb : b ≠ r.vehicles_inside_db j) :
    Member
      { vehicles_inside_db :=
          Function.update r.vehicles_inside_db j
            (r.vehicles_inside_db ⟨r.vehicle_count - 1, hl⟩),
        vehicle_count := r.vehicle_count - 1 } b ↔ Member r b := by
  constructor
  · rintro ⟨k, hk, hkeq⟩
    simp only at hk hkeq
    by_cases hkj : k = j
    · rw [hkj, Function.update_same] at hkeq
      exact ⟨⟨r.vehicle_count - 1, hl⟩, by simp; omega, hkeq⟩
    · rw [Function.update_noteq hkj] at hkeq
      exact ⟨k, by omega, hkeq⟩
  · rintro ⟨k, hk, hkeq⟩
    have hkj : k ≠ j := by
      intro h
      rw [h] at hkeq
      exact hb hkeq.symm
    by_cases hlast : k.val = r.vehicle_count - 1
    · refine ⟨j, ?_, ?_⟩
      · show j.val < r.vehicle_count - 1
        have : j.val ≠ k.val := fun h => hkj (Fin.ext h.symm)
        omega
      · show Function.update r.vehicles_inside_db j _ j = b
        rw [Function.update_same, ← hkeq]
        have hk' : (⟨r.vehicle_count - 1, hl⟩ : Fin 4) = k := Fin.ext (by simp only; omega)
        rw [hk']
    · refine ⟨k, ?_, ?_⟩
      · show k.val < r.vehicle_count - 1
        omega
      · show Function.update r.vehicles_inside_db j _ k = b
        rw [Function.update_noteq hkj, hkeq]

theorem noDuplicate_add (r : Registry) (uid : UID) (hroom : r.vehicle_count < 4)
    (hnd : NoDuplicate r) (hnm : ¬ Member r uid) : NoDuplicate (add_vehicle r uid).1 := by
  rw [add_vehicle_room r uid hroom]
  intro k m hk hm hkm
  simp only at hk hm hkm
  by_cases hkn : k = ⟨r.vehicle_count, hroom⟩
  · by_cases hmn : m = ⟨r.vehicle_count, hroom⟩
    · rw [hkn, hmn]
    · rw [hkn, Function.update_same, Function.update_noteq hmn] at hkm
      have hmv : m.val ≠ r.vehicle_count := fun h => hmn (Fin.ext h)
      exact absurd ⟨m, by omega, hkm.symm⟩ hnm
  · have hkv : k.val ≠ r.vehicle_count := fun h => hkn (Fin.ext h)
    by_cases hmn : m = ⟨r.vehicle_count, hroom⟩
    · rw [hmn, Function.update_same, Function.update_noteq hkn] at hkm
      exact absurd ⟨k, by omega, hkm⟩ hnm
    · have hmv : m.val ≠ r.vehicle_count := fun h => hmn (Fin.ext h)
      rw [Function.update_noteq hkn, Function.update_noteq hmn] at hkm
      exact hnd k m (by omega) (by omega) hkm

/-! ### The `case STATE_CLOSED` branch by branch -/

theorem caseClosed_request_failed (s : Controller) (i : Inputs) (hb : NoClobber i)
    (hreq : i.request_ok = false) :
    caseClosed s i =
      some ({ s with current_uid := i.request_buf }, [Event.LCD_Write "Gate Closed     "]) := by
  simp [caseClosed, hreq, hb.1]

theorem caseClosed_anticoll_failed (s : Controller) (i : Inputs) (hb : NoClobber i)
    (hreq : i.request_ok = true)
    (hac : i.anticoll_ok = false) :
    caseClosed s i =
      some ({ s with current_uid := i.anticoll_buf }, [Event.LCD_Write "Gate Closed     "]) := by
  simp [caseClosed, hreq, hb.2, hac]

theorem caseClosed_denied (s : Controller) (i : Inputs) (hb : NoClobber i)
    (hreq : i.request_ok = true)
    (hac : i.anticoll_ok = true) (hauth : is_card_authorized i.anticoll_buf = false) :
    caseClosed s i =
      some ({ s with current_uid := i.anticoll_buf },
            [Event.LCD_Write "Gate Closed     ", Event.LCD_Write "Access Denied!  ",
             Event.delay_ms 1500]) := by
  simp [caseClosed, hreq, hb.2, hac, hauth]

theorem caseClosed_entry (s : Controller) (i : Inputs) (hb : NoClobber i)
    (hreq : i.request_ok = true)
    (hac : i.anticoll_ok = true) (hauth : is_card_authorized i.anticoll_buf = true)
    (hnm : ¬ Member s.reg i.anticoll_buf) (hroom : s.reg.vehicle_count < 4) :
    caseClosed s i =
      some ({ s with current_uid := i.anticoll_buf,
                     current_direction := DIR_ENTRY,
                     currentState := STATE_AUTHORIZED_WAITING_VEHICLE,
                     state_change_timestamp := u32 i.tick1 },
            [Event.LCD_Write "Gate Closed     ", Event.LCD_Write "Gate Opened     "]) := by
  have hfind := find_of_not_member s.reg i.anticoll_buf (by omega) hnm
  simp [caseClosed, hreq, hb.2, hac, hauth, hfind, MAX_VEHICLES_INSIDE, hroom]

theorem caseClosed_full (s : Controller) (i : Inputs) (hb : NoClobber i)
    (hreq : i.request_ok = true)
    (hac : i.anticoll_ok = true) (hauth : is_card_authorized i.anticoll_buf = true)
    (hnm : ¬ Member s.reg i.anticoll_buf) (hfull : s.reg.vehicle_count = 4) :
    caseClosed s i =
      some ({ s with current_uid := i.anticoll_buf },
            [Event.LCD_Write "Gate Closed     ", Event.LCD_Write "Parking is full!",
             Event.delay_ms 1500]) := by
  have hfind := find_of_not_member s.reg i.anticoll_buf (by omega) hnm
  simp [caseClosed, hreq, hb.2, hac, hauth, hfind, MAX_VEHICLES_INSIDE, hfull]

theorem caseClosed_exit (s : Controller) (i : Inputs) (hb : NoClobber i)
    (hreq : i.request_ok = true)
    (hac : i.anticoll_ok = true) (hauth : is_card_authorized i.anticoll_buf = true)
    (hm : Member s.reg i.anticoll_buf) :
    caseClosed s i =
      some ({ s with current_uid := i.anticoll_buf,
                     current_direction := DIR_EXIT,
                     currentState := STATE_AUTHORIZED_WAITING_VEHICLE,
                     state_change_timestamp := u32 i.tick1 },
            [Event.LCD_Write "Gate Closed     ", Event.LCD_Write "Gate Opened     "]) := by
  obtain ⟨j, _, _, _, hfind⟩ := find_of_member s.reg i.anticoll_buf hm
  have hne : ¬ ((j.val : Nat) : Int) = -1 := by omega
  simp [caseClosed, hreq, hb.2, hac, hauth, hfind, hne]

theorem poll_of_switch (s : Controller) (i : Inputs) (s' : Controller) (ev : List Event)
    (h : switchState s i = some (s', ev)) :
    poll s i = some (s', displayEvents s.reg.vehicle_count ++ ev ++ [Event.delay_ms 50]) := by
  simp [poll, h]

/-! ### The switch state by state -/

theorem switchState_closed (s : Controller) (i : Inputs) (h : s.currentState = STATE_CLOSED) :
    switchState s i = caseClosed s i := by
  unfold switchState
  rw [h]

theorem switchState_authorized (s : Controller) (i : Inputs)
    (h : s.currentState = STATE_AUTHORIZED_WAITING_VEHICLE) :
    switchState s i = some (caseAuthorized s i) := by
  unfold switchState
  rw [h]

theorem switchState_opening (s : Controller) (i : Inputs) (h : s.currentState = STATE_OPENING) :
    switchState s i = some (caseOpening s i) := by
  unfold switchState
  rw [h]

theorem switchState_openWaiting (s : Controller) (i : Inputs)
    (h : s.currentState = STATE_OPEN_WAITING_PASSAGE) :
    switchState s i = caseOpenWaiting s i := by
  unfold switchState
  rw [h]

theorem switchState_waitBeforeClosing (s : Controller) (i : Inputs)
    (h : s.currentState = STATE_WAIT_BEFORE_CLOSING) :
    switchState s i = some (caseWaitBeforeClosing s i) := by
  unfold switchState
  rw [h]

theorem switchState_closing (s : Controller) (i : Inputs) (h : s.currentState = STATE_CLOSING) :
    switchState s i = some (caseClosing s i) := by
  unfold switchState
  rw [h]

/-! ### Commands sent to the servo -/

theorem caseClosed_no_servo (s : Controller) (i : Inputs) (s' : Controller) (ev : List Event)
    (h : caseClosed s i = some (s', ev)) (d : Nat) : Event.Servo_SetAngle d ∉ ev := by
  unfold caseClosed at h
  simp only at h
  repeat' split at h
  all_goals
    cases h
    try simp

theorem caseOpenWaiting_events (s : Controller) (i : Inputs) (s' : Controller) (ev : List Event)
    (h : caseOpenWaiting s i = some (s', ev)) : ev = [Event.LCD_Write "Please pass...  "] := by
  unfold caseOpenWaiting at h
  split at h
  · cases h
  · cases h
    rfl

theorem displayEvents_no_servo (n d : Nat) : Event.Servo_SetAngle d ∉ displayEvents n := by
  unfold displayEvents
  split_ifs <;> simp

theorem caseClosing_blocked (s : Controller) (i : Inputs)
    (h : i.entry1 = true ∨ i.exit1 = true) : caseClosing s i = (s, []) := by
  rcases h with h | h <;> simp [caseClosing, h]

theorem caseClosing_clear (s : Controller) (i : Inputs)
    (he : i.entry1 = false) (hx : i.exit1 = false) :
    caseClosing s i =
      ({ s with current_direction := DIR_NONE, currentState := STATE_CLOSED },
       [Event.LCD_Write "Gate Closing... ", Event.Servo_SetAngle BARRIER_CLOSED_ANGLE,
        Event.delay_ms 500]) := by
  simp [caseClosing, he, hx]

/-- The switch commands the closed angle only in `STATE_CLOSING` with both sensors
clear. -/
theorem switch_close_command (s : Controller) (i : Inputs) (s' : Controller) (ev : List Event)
    (h : switchState s i = some (s', ev))
    (hmem : Event.Servo_SetAngle BARRIER_CLOSED_ANGLE ∈ ev) :
    s.currentState = STATE_CLOSING ∧ i.entry1 = false ∧ i.exit1 = false := by
  unfold switchState at h
  split at h
  · exact absurd hmem (caseClosed_no_servo s i s' ev h _)
  · obtain ⟨-, rfl⟩ := Prod.mk.inj (Option.some.inj h)
    simp [caseAuthorized] at hmem
  · obtain ⟨-, rfl⟩ := Prod.mk.inj (Option.some.inj h)
    simp [caseOpening, BARRIER_OPEN_ANGLE, BARRIER_CLOSED_ANGLE] at hmem
  · rw [caseOpenWaiting_events s i s' ev h] at hmem
    simp at hmem
  · obtain ⟨-, rfl⟩ := Prod.mk.inj (Option.some.inj h)
    simp [caseWaitBeforeClosing] at hmem
  · rename_i hst
    refine ⟨hst, ?_⟩
    by_cases hb : i.entry1 = true ∨ i.exit1 = true
    · rw [caseClosing_blocked s i hb] at h
      obtain ⟨-, rfl⟩ := Prod.mk.inj (Option.some.inj h)
      simp at hmem
    · simpa using hb

/-! ### The invariant is kept by every cycle -/

theorem inv_init : Inv Controller.init := by
  refine ⟨Nat.zero_le 4, ?_, ?_⟩
  · intro j k hj
    exact absurd hj (Nat.not_lt_zero _)
  · intro h
    rcases h with h | h | h <;> cases h

/-- A state outside the three serving states needs only the registry part. -/
theorem inv_of_idle (s : Controller) (hvc : s.reg.vehicle_count ≤ 4) (hnd : NoDuplicate s.reg)
    (hst : s.currentState = STATE_CLOSED ∨ s.currentState = STATE_CLOSING ∨
      s.currentState = STATE_WAIT_BEFORE_CLOSING) : Inv s := by
  refine ⟨hvc, hnd, ?_⟩
  intro h
  rcases hst with e | e | e <;> rw [e] at h <;> rcases h with h | h | h <;> cases h

/-- A serving state that keeps the registry, the intent and the scanned identifier keeps
the invariant. -/
theorem inv_of_frame (s s' : Controller) (h : Inv s)
    (hserv : s.currentState = STATE_AUTHORIZED_WAITING_VEHICLE ∨
      s.currentState = STATE_OPENING ∨ s.currentState = STATE_OPEN_WAITING_PASSAGE)
    (hreg : s'.reg = s.reg) (hdir : s'.current_direction = s.current_direction)
    (huid : s'.current_uid = s.current_uid) : Inv s' := by
  obtain ⟨hvc, hnd, hserve⟩ := h
  refine ⟨by rw [hreg]; exact hvc, by rw [hreg]; exact hnd, ?_⟩
  intro _
  rw [hreg, hdir, huid]
  exact hserve hserv

theorem caseClosed_inv (s : Controller) (i : Inputs) (hb : NoClobber i) (h : Inv s)
    (hst : s.currentState = STATE_CLOSED) :
    ∃ (s' : Controller) (ev : List Event), caseClosed s i = some (s', ev) ∧ Inv s' := by
  obtain ⟨hvc, hnd, -⟩ := h
  cases hreq : i.request_ok with
  | false =>
    exact ⟨_, _, caseClosed_request_failed s i hb hreq, inv_of_idle _ hvc hnd (Or.inl hst)⟩
  | true =>
    cases hac : i.anticoll_ok with
    | false =>
      exact ⟨_, _, caseClosed_anticoll_failed s i hb hreq hac, inv_of_idle _ hvc hnd (Or.inl hst)⟩
    | true =>
      cases hauth : is_card_authorized i.anticoll_buf with
      | false =>
        exact ⟨_, _, caseClosed_denied s i hb hreq hac hauth, inv_of_idle _ hvc hnd (Or.inl hst)⟩
      | true =>
        by_cases hm : Member s.reg i.anticoll_buf
        · refine ⟨_, _, caseClosed_exit s i hb hreq hac hauth hm, hvc, hnd, fun _ => ⟨?_, ?_⟩⟩
          · intro hd
            cases hd
          · intro _
            exact hm
        · by_cases hroom : s.reg.vehicle_count < 4
          · refine ⟨_, _, caseClosed_entry s i hb hreq hac hauth hm hroom, hvc, hnd,
              fun _ => ⟨?_, ?_⟩⟩
            · intro _
              exact ⟨hroom, hm⟩
            · intro hd
              cases hd
          · exact ⟨_, _, caseClosed_full s i hb hreq hac hauth hm (by omega),
              inv_of_idle _ hvc hnd (Or.inl hst)⟩

theorem caseAuthorized_inv (s : Controller) (i : Inputs) (h : Inv s)
    (hst : s.currentState = STATE_AUTHORIZED_WAITING_VEHICLE) : Inv (caseAuthorized s i).1 := by
  unfold caseAuthorized
  simp only
  split_ifs
  · exact inv_of_idle _ h.1 h.2.1 (Or.inl rfl)
  · exact inv_of_frame s _ h (Or.inl hst) rfl rfl rfl
  · exact inv_of_idle _ h.1 h.2.1 (Or.inl rfl)
  · exact h

theorem caseOpening_inv (s : Controller) (i : Inputs) (h : Inv s)
    (hst : s.currentState = STATE_OPENING) : Inv (caseOpening s i).1 :=
  inv_of_frame s _ h (Or.inr (Or.inl hst)) rfl rfl rfl

theorem updateDatabase_inv (s : Controller) (h : Inv s)
    (hst : s.currentState = STATE_OPEN_WAITING_PASSAGE) :
    ∃ reg : Registry, updateDatabase s = some reg ∧ reg.vehicle_count ≤ 4 ∧
      NoDuplicate reg := by
  obtain ⟨hvc, hnd, hserve⟩ := h
  obtain ⟨hentry, hexit⟩ := hserve (Or.inr (Or.inr hst))
  cases hd : s.current_direction with
  | DIR_NONE =>
    exact ⟨s.reg, by simp [updateDatabase, hd], hvc, hnd⟩
  | DIR_ENTRY =>
    obtain ⟨hroom, hnm⟩ := hentry hd
    refine ⟨(add_vehicle s.reg s.current_uid).1, by simp [updateDatabase, hd], ?_,
      noDuplicate_add s.reg s.current_uid hroom hnd hnm⟩
    rw [add_vehicle_room s.reg s.current_uid hroom]
    show s.reg.vehicle_count + 1 ≤ 4
    omega
  | DIR_EXIT =>
    obtain ⟨j, hl, hj1, _, hrem⟩ := remove_found_member s.reg s.current_uid hvc (hexit hd)
    refine ⟨_, by simp [updateDatabase, hd, hrem], ?_, noDuplicate_swap_remove s.reg j hl hj1 hnd⟩
    show s.reg.vehicle_count - 1 ≤ 4
    omega

theorem passageStage1_frame (s : Controller) (i : Inputs) :
    (passageStage1 s i).reg = s.reg ∧
    (passageStage1 s i).current_direction = s.current_direction ∧
    (passageStage1 s i).current_uid = s.current_uid ∧
    (passageStage1 s i).currentState = s.currentState ∧
    (passageStage1 s i).state_change_timestamp = s.state_change_timestamp := by
  unfold passageStage1
  split_ifs <;> exact ⟨rfl, rfl, rfl, rfl, rfl⟩

theorem passageTimeout_inv (s : Controller) (i : Inputs) (h : Inv s) :
    Inv (passageTimeout s i) := by
  unfold passageTimeout
  split_ifs
  · exact inv_of_idle _ h.1 h.2.1 (Or.inr (Or.inl rfl))
  · exact h
  · exact h

theorem caseOpenWaiting_inv (s : Controller) (i : Inputs) (h : Inv s)
    (hst : s.currentState = STATE_OPEN_WAITING_PASSAGE) :
    ∃ (s' : Controller) (ev : List Event), caseOpenWaiting s i = some (s', ev) ∧ Inv s' := by
  obtain ⟨hreg, hdir, huid, hst1, -⟩ := passageStage1_frame s i
  have h1 : Inv (passageStage1 s i) :=
    inv_of_frame s _ h (Or.inr (Or.inr hst)) hreg hdir huid
  obtain ⟨reg, hupd, hvc, hnd⟩ := updateDatabase_inv (passageStage1 s i) h1 (by rw [hst1, hst])
  have h2 : ∃ s2, passageStage2 (passageStage1 s i) i = some s2 ∧ Inv s2 := by
    unfold passageStage2
    split_ifs
    · rw [hupd]
      exact ⟨_, rfl, inv_of_idle _ hvc hnd (Or.inr (Or.inr rfl))⟩
    · exact ⟨_, rfl, h1⟩
    · exact ⟨_, rfl, h1⟩
  obtain ⟨s2, hs2, hinv2⟩ := h2
  refine ⟨passageTimeout s2 i, [Event.LCD_Write "Please pass...  "], ?_,
    passageTimeout_inv s2 i hinv2⟩
  unfold caseOpenWaiting
  rw [hs2]

theorem caseWaitBeforeClosing_inv (s : Controller) (i : Inputs) (h : Inv s) :
    Inv (caseWaitBeforeClosing s i).1 := by
  unfold caseWaitBeforeClosing
  simp only
  split_ifs
  · exact inv_of_idle _ h.1 h.2.1 (Or.inr (Or.inl rfl))
  · exact h

theorem caseClosing_inv (s : Controller) (i : Inputs) (h : Inv s) :
    Inv (caseClosing s i).1 := by
  unfold caseClosing
  split_ifs
  · exact inv_of_idle _ h.1 h.2.1 (Or.inl rfl)
  · exact h

/-- Every cycle whose reader calls leave the other globals alone, started in a state
that satisfies the invariant, returns, in a state that satisfies the invariant. -/
theorem poll_inv (s : Controller) (i : Inputs) (hb : NoClobber i) (h : Inv s) :
    ∃ (s' : Controller) (ev : List Event), poll s i = some (s', ev) ∧ Inv s' := by
  have hsw : ∃ (s' : Controller) (ev : List Event), switchState s i = some (s', ev) ∧ Inv s' := by
    cases hst : s.currentState with
    | STATE_CLOSED =>
      rw [switchState_closed s i hst]
      exact caseClosed_inv s i hb h hst
    | STATE_AUTHORIZED_WAITING_VEHICLE =>
      rw [switchState_authorized s i hst]
      exact ⟨_, _, rfl, caseAuthorized_inv s i h hst⟩
    | STATE_OPENING =>
      rw [switchState_opening s i hst]
      exact ⟨_, _, rfl, caseOpening_inv s i h hst⟩
    | STATE_OPEN_WAITING_PASSAGE =>
      rw [switchState_openWaiting s i hst]
      exact caseOpenWaiting_inv s i h hst
    | STATE_WAIT_BEFORE_CLOSING =>
      rw [switchState_waitBeforeClosing s i hst]
      exact ⟨_, _, rfl, caseWaitBeforeClosing_inv s i h⟩
    | STATE_CLOSING =>
      rw [switchState_closing s i hst]
      exact ⟨_, _, rfl, caseClosing_inv s i h⟩
  obtain ⟨s', ev, hs, hinv⟩ := hsw
  exact ⟨s', _, poll_of_switch s i s' ev hs, hinv⟩

theorem run_inv (inputs : List Inputs) :
    (∀ i ∈ inputs, NoClobber i) →
    ∀ s : Controller, Inv s → ∃ s' : Controller, run s inputs = some s' ∧ Inv s' := by
  induction inputs with
  | nil => intro _ s h; exact ⟨s, rfl, h⟩
  | cons i rest ih =>
    intro hb s h
    obtain ⟨s1, ev, hp, h1⟩ := poll_inv s i (hb i (List.mem_cons_self i rest)) h
    obtain ⟨s2, hr, h2⟩ := ih (fun j hj => hb j (List.mem_cons_of_mem i hj)) s1 h1
    refine ⟨s2, ?_, h2⟩
    simp only [run, hp, hr]

/-- A state reached from the initial globals by cycles whose reader calls leave the other
globals alone satisfies the invariant. -/
theorem reachable_inv (s : Controller) (h : ReachableNoClobber s) : Inv s := by
  obtain ⟨inputs, hb, hrun⟩ := h
  obtain ⟨s', hr, hinv⟩ := run_inv inputs hb Controller.init inv_init
  rw [hrun] at hr
  cases hr
  exact hinv

/-- The run `entryRun` lets `cardA` into the empty lot: scan, entry sensor tripped,
barrier opened, passage armed, both sensors clear (the add), settle delay over. -/
theorem entryRun_reaches_closing : run Controller.init entryRun = some closingAfterEntry :=
  rfl

/-! ### The registry is written only by the passage confirmation -/

theorem caseClosed_frame (s : Controller) (i : Inputs) (hb : NoClobber i) (s' : Controller)
    (ev : List Event) (h : caseClosed s i = some (s', ev)) :
    s'.reg = s.reg ∧ s'.vehicle_is_passing = s.vehicle_is_passing := by
  unfold caseClosed at h
  simp only [hb.1, hb.2] at h
  repeat' split at h
  all_goals
    cases h
    try exact ⟨rfl, rfl⟩

/-- The `case STATE_AUTHORIZED_WAITING_VEHICLE` in closed form: the timeout test comes
last and overrides the sensor test. -/
theorem caseAuthorized_eq (s : Controller) (i : Inputs) :
    caseAuthorized s i =
      (if u32sub i.tick1 s.state_change_timestamp > AUTHORIZED_TIMEOUT then
         { s with currentState := STATE_CLOSED, current_direction := DIR_NONE }
       else if matchingSensorBlocked s.current_direction i.entry1 i.exit1 then
         { s with currentState := STATE_OPENING }
       else s, []) := by
  by_cases hm : matchingSensorBlocked s.current_direction i.entry1 i.exit1 = true <;>
    by_cases ht : u32sub i.tick1 s.state_change_timestamp > AUTHORIZED_TIMEOUT <;>
    simp [caseAuthorized, hm, ht]

theorem caseAuthorized_frame (s : Controller) (i : Inputs) :
    (caseAuthorized s i).1.reg = s.reg ∧
    (caseAuthorized s i).1.current_uid = s.current_uid ∧
    (caseAuthorized s i).1.state_change_timestamp = s.state_change_timestamp ∧
    (caseAuthorized s i).1.vehicle_is_passing = s.vehicle_is_passing ∧
    (caseAuthorized s i).2 = [] := by
  rw [caseAuthorized_eq]
  split_ifs <;> exact ⟨rfl, rfl, rfl, rfl, rfl⟩

/-- The `case STATE_WAIT_BEFORE_CLOSING` in closed form. -/
theorem caseWaitBeforeClosing_eq (s : Controller) (i : Inputs) :
    caseWaitBeforeClosing s i =
      (if u32sub i.tick1 s.state_change_timestamp > DELAY_BEFORE_CLOSING then
         { s with currentState := STATE_CLOSING }
       else s, [Event.LCD_Write "Vehicle passed! "]) := rfl

theorem caseWaitBeforeClosing_frame (s : Controller) (i : Inputs) :
    (caseWaitBeforeClosing s i).1.reg = s.reg ∧
    (caseWaitBeforeClosing s i).1.current_direction = s.current_direction ∧
    (caseWaitBeforeClosing s i).1.current_uid = s.current_uid ∧
    (caseWaitBeforeClosing s i).1.state_change_timestamp = s.state_change_timestamp ∧
    (caseWaitBeforeClosing s i).1.vehicle_is_passing = s.vehicle_is_passing := by
  rw [caseWaitBeforeClosing_eq]
  split_ifs <;> exact ⟨rfl, rfl, rfl, rfl, rfl⟩

theorem caseClosing_frame (s : Controller) (i : Inputs) :
    (caseClosing s i).1.reg = s.reg := by
  unfold caseClosing
  split_ifs <;> rfl

/-- Stage 2 with the flag armed and both sensors clear performs the registry update. -/
theorem passageStage2_confirm (s : Controller) (i : Inputs) (reg : Registry)
    (hflag : s.vehicle_is_passing = true) (he : i.entry2 = false) (hx : i.exit2 = false)
    (hupd : updateDatabase s = some reg) :
    passageStage2 s i =
      some { s with reg := reg,
                    currentState := STATE_WAIT_BEFORE_CLOSING,
                    state_change_timestamp := u32 i.tick1 } := by
  simp [passageStage2, hflag, he, hx, hupd]

/-- Stage 2 does nothing when the flag is not armed or a sensor is occluded. -/
theorem passageStage2_skip (s : Controller) (i : Inputs)
    (h : s.vehicle_is_passing = false ∨ i.entry2 = true ∨ i.exit2 = true) :
    passageStage2 s i = some s := by
  unfold passageStage2
  rcases h with h | h | h <;> simp [h]

/-- A result of stage 2 that differs from its argument comes from the confirmation. -/
theorem passageStage2_changed (s : Controller) (i : Inputs) (s2 : Controller)
    (h : passageStage2 s i = some s2) (hne : s2 ≠ s) :
    s.vehicle_is_passing = true ∧ i.entry2 = false ∧ i.exit2 = false ∧
      s2.currentState = STATE_WAIT_BEFORE_CLOSING := by
  have hskip : ¬ (s.vehicle_is_passing = false ∨ i.entry2 = true ∨ i.exit2 = true) := by
    intro hs
    rw [passageStage2_skip s i hs] at h
    exact hne (Option.some.inj h).symm
  have hflag : s.vehicle_is_passing = true := by
    rcases Bool.eq_false_or_eq_true s.vehicle_is_passing with e | e
    · exact e
    · exact absurd (Or.inl e) hskip
  have he : i.entry2 = false := by
    rcases Bool.eq_false_or_eq_true i.entry2 with e | e
    · exact absurd (Or.inr (Or.inl e)) hskip
    · exact e
  have hx : i.exit2 = false := by
    rcases Bool.eq_false_or_eq_true i.exit2 with e | e
    · exact absurd (Or.inr (Or.inr e)) hskip
    · exact e
  refine ⟨hflag, he, hx, ?_⟩
  cases hupd : updateDatabase s with
  | none =>
    simp [passageStage2, hflag, he, hx, hupd] at h
  | some reg =>
    rw [passageStage2_confirm s i reg hflag he hx hupd] at h
    rw [← Option.some.inj h]

theorem passageTimeout_frame (s : Controller) (i : Inputs) :
    (passageTimeout s i).reg = s.reg ∧
    (passageTimeout s i).current_direction = s.current_direction ∧
    (passageTimeout s i).current_uid = s.current_uid ∧
    (passageTimeout s i).state_change_timestamp = s.state_change_timestamp ∧
    (passageTimeout s i).vehicle_is_passing = s.vehicle_is_passing ∧
    ((passageTimeout s i).currentState = s.currentState ∨
      (passageTimeout s i).currentState = STATE_CLOSING) := by
  unfold passageTimeout
  split_ifs
  · exact ⟨rfl, rfl, rfl, rfl, rfl, Or.inr rfl⟩
  · exact ⟨rfl, rfl, rfl, rfl, rfl, Or.inl rfl⟩
  · exact ⟨rfl, rfl, rfl, rfl, rfl, Or.inl rfl⟩

/-- The timeout check closes when the time is over and both sensors are clear. -/
theorem passageTimeout_fire (s : Controller) (i : Inputs)
    (ht : u32sub i.tick2 s.state_change_timestamp > PASSAGE_TIMEOUT)
    (he : i.entry3 = false) (hx : i.exit3 = false) :
    passageTimeout s i = { s with currentState := STATE_CLOSING } := by
  simp [passageTimeout, ht, he, hx]

/-- The timeout check does nothing within the time or with a sensor occluded. -/
theorem passageTimeout_hold (s : Controller) (i : Inputs)
    (h : u32sub i.tick2 s.state_change_timestamp ≤ PASSAGE_TIMEOUT ∨ i.entry3 = true ∨
      i.exit3 = true) :
    passageTimeout s i = s := by
  unfold passageTimeout
  rcases h with h | h | h
  · rw [if_neg (by omega)]
  · simp [h]
  · simp [h]

/-- Stage 1 leaves an armed flag armed. -/
theorem passageStage1_armed (s : Controller) (i : Inputs) (h : s.vehicle_is_passing = true) :
    passageStage1 s i = s := by
  simp [passageStage1, h]

theorem passageStage1_arms (s : Controller) (i : Inputs) (h : s.vehicle_is_passing = false)
    (hm : matchingSensorBlocked s.current_direction i.entry1 i.exit1 = true) :
    passageStage1 s i = { s with vehicle_is_passing := true } := by
  simp [passageStage1, h, hm]

theorem passageStage1_idle (s : Controller) (i : Inputs) (h : s.vehicle_is_passing = false)
    (hm : matchingSensorBlocked s.current_direction i.entry1 i.exit1 = false) :
    passageStage1 s i = s := by
  simp [passageStage1, h, hm]

theorem matchingSensorBlocked_clear (d : VehicleDirection_t) :
    matchingSensorBlocked d false false = false := by
  cases d <;> rfl

theorem u32sub_self (t : Nat) : u32sub t (u32 t) = 0 := by
  unfold u32sub u32
  omega

/-! ### One cycle, state by state -/

theorem poll_authorized (s : Controller) (i : Inputs)
    (hst : s.currentState = STATE_AUTHORIZED_WAITING_VEHICLE) :
    poll s i =
      some ((caseAuthorized s i).1,
            displayEvents s.reg.vehicle_count ++ [] ++ [Event.delay_ms 50]) := by
  apply poll_of_switch
  rw [switchState_authorized s i hst, caseAuthorized_eq]

theorem poll_opening (s : Controller) (i : Inputs) (hst : s.currentState = STATE_OPENING) :
    poll s i =
      some ((caseOpening s i).1,
            displayEvents s.reg.vehicle_count ++ (caseOpening s i).2 ++
              [Event.delay_ms 50]) := by
  apply poll_of_switch
  rw [switchState_opening s i hst]

theorem poll_waitBeforeClosing (s : Controller) (i : Inputs)
    (hst : s.currentState = STATE_WAIT_BEFORE_CLOSING) :
    poll s i =
      some ((caseWaitBeforeClosing s i).1,
            displayEvents s.reg.vehicle_count ++ [Event.LCD_Write "Vehicle passed! "] ++
              [Event.delay_ms 50]) := by
  apply poll_of_switch
  rw [switchState_waitBeforeClosing s i hst]
  rfl

theorem poll_closing (s : Controller) (i : Inputs) (hst : s.currentState = STATE_CLOSING) :
    poll s i =
      some ((caseClosing s i).1,
            displayEvents s.reg.vehicle_count ++ (caseClosing s i).2 ++
              [Event.delay_ms 50]) := by
  apply poll_of_switch
  rw [switchState_closing s i hst]

/-- In `STATE_OPEN_WAITING_PASSAGE` a cycle returns exactly when stage 2 does, and its
trace holds no servo command. -/
theorem poll_openWaiting (s : Controller) (i : Inputs) (s2 : Controller)
    (hst : s.currentState = STATE_OPEN_WAITING_PASSAGE)
    (h2 : passageStage2 (passageStage1 s i) i = some s2) :
    poll s i =
      some (passageTimeout s2 i,
            displayEvents s.reg.vehicle_count ++ [Event.LCD_Write "Please pass...  "] ++
              [Event.delay_ms 50]) := by
  apply poll_of_switch
  rw [switchState_openWaiting s i hst]
  unfold caseOpenWaiting
  rw [h2]

theorem poll_openWaiting_inv (s : Controller) (i : Inputs) (s' : Controller) (ev : List Event)
    (hst : s.currentState = STATE_OPEN_WAITING_PASSAGE) (hp : poll s i = some (s', ev)) :
    ∃ s2 : Controller, passageStage2 (passageStage1 s i) i = some s2 ∧
      s' = passageTimeout s2 i := by
  cases h2 : passageStage2 (passageStage1 s i) i with
  | none =>
    simp [poll, switchState_openWaiting s i hst, caseOpenWaiting, h2] at hp
  | some s2 =>
    rw [poll_openWaiting s i s2 hst h2] at hp
    exact ⟨s2, rfl, (Prod.mk.inj (Option.some.inj hp)).1.symm⟩

theorem plain_trace_no_servo (n d : Nat) (text : String) :
    Event.Servo_SetAngle d ∉
      displayEvents n ++ [Event.LCD_Write text] ++ [Event.delay_ms 50] := by
  intro hmem
  have hd : Event.Servo_SetAngle d ∈ displayEvents n := by
    simpa using hmem
  exact displayEvents_no_servo _ _ hd

theorem matchingSensorBlocked_of_clear (d : VehicleDirection_t) (e x : Bool)
    (he : d = DIR_ENTRY → e = false) (hx : d = DIR_EXIT → x = false) :
    matchingSensorBlocked d e x = false := by
  cases d
  · rfl
  · simp [matchingSensorBlocked, he rfl]
  · simp [matchingSensorBlocked, hx rfl]

/-- What `case STATE_AUTHORIZED_WAITING_VEHICLE` does on a sensor reading: with the
matching sensor occluded the cycle ends in `STATE_OPENING` when the elapsed time is at
most `AUTHORIZED_TIMEOUT`, and in `STATE_CLOSED` with the intent reset when it is greater;
with the matching sensor clear the cycle never ends in `STATE_OPENING`, whatever the
other sensor reads. -/
theorem authorized_sensor_trip (s : Controller) (i : Inputs)
    (hst : s.currentState = STATE_AUTHORIZED_WAITING_VEHICLE) :
    (matchingSensorBlocked s.current_direction i.entry1 i.exit1 = true →
      u32sub i.tick1 s.state_change_timestamp ≤ AUTHORIZED_TIMEOUT →
      poll s i = some ({ s with currentState := STATE_OPENING },
        displayEvents s.reg.vehicle_count ++ [] ++ [Event.delay_ms 50])) ∧
    (u32sub i.tick1 s.state_change_timestamp > AUTHORIZED_TIMEOUT →
      poll s i =
        some ({ s with currentState := STATE_CLOSED, current_direction := DIR_NONE },
          displayEvents s.reg.vehicle_count ++ [] ++ [Event.delay_ms 50])) ∧
    (matchingSensorBlocked s.current_direction i.entry1 i.exit1 = false →
      u32sub i.tick1 s.state_change_timestamp ≤ AUTHORIZED_TIMEOUT →
      poll s i = some (s, displayEvents s.reg.vehicle_count ++ [] ++ [Event.delay_ms 50])) := by
  rw [poll_authorized s i hst, caseAuthorized_eq]
  refine ⟨?_, ?_, ?_⟩
  · intro hm ht
    rw [if_neg (by omega), if_pos hm]
  · intro ht
    rw [if_pos ht]
  · intro hm ht
    rw [if_neg (by omega), if_neg (by simp [hm])]

theorem switch_of_poll (s : Controller) (i : Inputs) (s' : Controller) (ev : List Event)
    (hp : poll s i = some (s', ev)) :
    ∃ ev0 : List Event, switchState s i = some (s', ev0) ∧
      ev = displayEvents s.reg.vehicle_count ++ ev0 ++ [Event.delay_ms 50] := by
  unfold poll at hp
  split at hp
  · cases hp
  · rename_i s1 ev1 heq
    cases hp
    exact ⟨ev1, heq, rfl⟩

/-- A cycle that changes the registry is a passage confirmation: it starts in
`STATE_OPEN_WAITING_PASSAGE`, the flag is armed when stage 2 runs, both sensors read clear
in the confirmation test, and the cycle ends in `STATE_WAIT_BEFORE_CLOSING` or
`STATE_CLOSING`. -/
theorem poll_reg_changed (s : Controller) (i : Inputs) (hb : NoClobber i) (s' : Controller)
    (ev : List Event) (hp : poll s i = some (s', ev)) (hne : s'.reg ≠ s.reg) :
    s.currentState = STATE_OPEN_WAITING_PASSAGE ∧
    (passageStage1 s i).vehicle_is_passing = true ∧ i.entry2 = false ∧ i.exit2 = false ∧
    (s'.currentState = STATE_WAIT_BEFORE_CLOSING ∨ s'.currentState = STATE_CLOSING) := by
  cases hst : s.currentState with
  | STATE_CLOSED =>
    obtain ⟨ev0, hsw, -⟩ := switch_of_poll s i s' ev hp
    rw [switchState_closed s i hst] at hsw
    exact absurd (caseClosed_frame s i hb s' ev0 hsw).1 hne
  | STATE_AUTHORIZED_WAITING_VEHICLE =>
    rw [poll_authorized s i hst] at hp
    rw [← (Prod.mk.inj (Option.some.inj hp)).1] at hne
    exact absurd (caseAuthorized_frame s i).1 hne
  | STATE_OPENING =>
    rw [poll_opening s i hst] at hp
    rw [← (Prod.mk.inj (Option.some.inj hp)).1] at hne
    exact absurd rfl hne
  | STATE_OPEN_WAITING_PASSAGE =>
    obtain ⟨s2, h2, rfl⟩ := poll_openWaiting_inv s i s' ev hst hp
    obtain ⟨hreg, -, -, -, -, hstate⟩ := passageTimeout_frame s2 i
    have hne2 : s2 ≠ passageStage1 s i := by
      intro h
      apply hne
      rw [hreg, h, (passageStage1_frame s i).1]
    obtain ⟨hflag, he, hx, hst2⟩ := passageStage2_changed _ i s2 h2 hne2
    refine ⟨rfl, hflag, he, hx, ?_⟩
    rcases hstate with h | h
    · exact Or.inl (by rw [h, hst2])
    · exact Or.inr h
  | STATE_WAIT_BEFORE_CLOSING =>
    rw [poll_waitBeforeClosing s i hst] at hp
    rw [← (Prod.mk.inj (Option.some.inj hp)).1] at hne
    exact absurd (caseWaitBeforeClosing_frame s i).1 hne
  | STATE_CLOSING =>
    rw [poll_closing s i hst] at hp
    rw [← (Prod.mk.inj (Option.some.inj hp)).1] at hne
    exact absurd (caseClosing_frame s i) hne

/-- From the empty lot: an authorized scan, then the entry sensor tripped within
`AUTHORIZED_TIMEOUT`, then one more cycle (the opening), reach
`STATE_OPEN_WAITING_PASSAGE` with the registry still empty. -/
theorem scenario_scan_then_trip (i1 i2 i3 : Inputs) (hb : NoClobber i1)
    (hreq : i1.request_ok = true)
    (hac : i1.anticoll_ok = true) (hauth : is_card_authorized i1.anticoll_buf = true)
    (htrip : i2.entry1 = true) (ht : u32sub i2.tick1 (u32 i1.tick1) ≤ AUTHORIZED_TIMEOUT) :
    run Controller.init [i1, i2, i3] =
      some { reg := Registry.init,
             current_direction := DIR_ENTRY,
             currentState := STATE_OPEN_WAITING_PASSAGE,
             current_uid := i1.anticoll_buf,
             state_change_timestamp := u32 i3.tick1,
             vehicle_is_passing := false } := by
  have hnm : ¬ Member Controller.init.reg i1.anticoll_buf := by
    rintro ⟨j, hj, -⟩
    exact absurd hj (Nat.not_lt_zero _)
  have h1 := caseClosed_entry Controller.init i1 hb hreq hac hauth hnm (by decide)
  rw [← switchState_closed Controller.init i1 rfl] at h1
  have hp1 := poll_of_switch Controller.init i1 _ _ h1
  have hp2 := (authorized_sensor_trip
    { Controller.init with current_uid := i1.anticoll_buf,
                           current_direction := DIR_ENTRY,
                           currentState := STATE_AUTHORIZED_WAITING_VEHICLE,
                           state_change_timestamp := u32 i1.tick1 } i2 rfl).1
    (by simp [matchingSensorBlocked, htrip]) ht
  simp only [run, hp1, hp2]
  rfl

/-- After a successful `add_vehicle` the identifier is a member and the count is one
greater. -/
theorem member_add (r : Registry) (uid : UID) (hroom : r.vehicle_count < 4) :
    Member (add_vehicle r uid).1 uid ∧
    (add_vehicle r uid).1.vehicle_count = r.vehicle_count + 1 := by
  rw [add_vehicle_room r uid hroom]
  exact ⟨⟨⟨r.vehicle_count, hroom⟩, Nat.lt_succ_self _, Function.update_same _ _ _⟩, rfl⟩

/-! ### The state is closed exactly when there is no intent -/

theorem caseClosed_intent (s : Controller) (i : Inputs) (hb : NoClobber i) (s' : Controller)
    (ev : List Event) (h : caseClosed s i = some (s', ev)) :
    (s'.currentState = s.currentState ∧ s'.current_direction = s.current_direction ∧
      s'.state_change_timestamp = s.state_change_timestamp) ∨
    (s'.currentState = STATE_AUTHORIZED_WAITING_VEHICLE ∧
      (s'.current_direction = DIR_ENTRY ∨ s'.current_direction = DIR_EXIT) ∧
      s'.state_change_timestamp = u32 i.tick1) := by
  unfold caseClosed at h
  simp only [hb.1, hb.2] at h
  repeat' split at h
  all_goals
    cases h
    try first
      | exact Or.inl ⟨rfl, rfl, rfl⟩
      | exact Or.inr ⟨rfl, Or.inl rfl, rfl⟩
      | exact Or.inr ⟨rfl, Or.inr rfl, rfl⟩

theorem passageStage2_frame (s : Controller) (i : Inputs) (s2 : Controller)
    (h : passageStage2 s i = some s2) :
    s2.current_direction = s.current_direction ∧ s2.current_uid = s.current_uid ∧
    s2.vehicle_is_passing = s.vehicle_is_passing ∧
    (s2 = s ∨ (s2.currentState = STATE_WAIT_BEFORE_CLOSING ∧
      s2.state_change_timestamp = u32 i.tick1)) := by
  by_cases hskip : s.vehicle_is_passing = false ∨ i.entry2 = true ∨ i.exit2 = true
  · rw [passageStage2_skip s i hskip] at h
    cases h
    exact ⟨rfl, rfl, rfl, Or.inl rfl⟩
  · have hflag : s.vehicle_is_passing = true := by
      rcases Bool.eq_false_or_eq_true s.vehicle_is_passing with e | e
      · exact e
      · exact absurd (Or.inl e) hskip
    have he : i.entry2 = false := by
      rcases Bool.eq_false_or_eq_true i.entry2 with e | e
      · exact absurd (Or.inr (Or.inl e)) hskip
      · exact e
    have hx : i.exit2 = false := by
      rcases Bool.eq_false_or_eq_true i.exit2 with e | e
      · exact absurd (Or.inr (Or.inr e)) hskip
      · exact e
    cases hupd : updateDatabase s with
    | none =>
      simp [passageStage2, hflag, he, hx, hupd] at h
    | some reg =>
      rw [passageStage2_confirm s i reg hflag he hx hupd] at h
      cases h
      exact ⟨rfl, rfl, rfl, Or.inr ⟨rfl, rfl⟩⟩

/-- The effect of one cycle on state and intent: either both are kept, or the cycle
enters `STATE_CLOSED` with the intent reset, or it leaves `STATE_CLOSED` with an intent
set, or it moves between two states other than `STATE_CLOSED` with the intent kept. -/
theorem poll_intent (s : Controller) (i : Inputs) (hb : NoClobber i) (s' : Controller)
    (ev : List Event) (hp : poll s i = some (s', ev)) :
    (s'.currentState = s.currentState ∧ s'.current_direction = s.current_direction) ∨
    (s'.currentState = STATE_CLOSED ∧ s'.current_direction = DIR_NONE) ∨
    (s.currentState = STATE_CLOSED ∧ s'.currentState = STATE_AUTHORIZED_WAITING_VEHICLE ∧
      (s'.current_direction = DIR_ENTRY ∨ s'.current_direction = DIR_EXIT)) ∨
    (s.currentState ≠ STATE_CLOSED ∧ s'.currentState ≠ STATE_CLOSED ∧
      s'.current_direction = s.current_direction) := by
  cases hst : s.currentState with
  | STATE_CLOSED =>
    obtain ⟨ev0, hsw, -⟩ := switch_of_poll s i s' ev hp
    rw [switchState_closed s i hst] at hsw
    rcases caseClosed_intent s i hb s' ev0 hsw with ⟨h1, h2, -⟩ | ⟨h1, h2, -⟩
    · exact Or.inl ⟨by rw [h1, hst], h2⟩
    · exact Or.inr (Or.inr (Or.inl ⟨rfl, h1, h2⟩))
  | STATE_AUTHORIZED_WAITING_VEHICLE =>
    rw [poll_authorized s i hst, caseAuthorized_eq] at hp
    cases hp
    split_ifs
    · exact Or.inr (Or.inl ⟨rfl, rfl⟩)
    · exact Or.inr (Or.inr (Or.inr ⟨by simp, by simp, rfl⟩))
    · exact Or.inl ⟨hst, rfl⟩
  | STATE_OPENING =>
    rw [poll_opening s i hst] at hp
    cases hp
    exact Or.inr (Or.inr (Or.inr ⟨by simp, by simp [caseOpening], rfl⟩))
  | STATE_OPEN_WAITING_PASSAGE =>
    obtain ⟨s2, h2, rfl⟩ := poll_openWaiting_inv s i s' ev hst hp
    obtain ⟨-, hd1, -, hs1, -⟩ := passageStage1_frame s i
    obtain ⟨hd2, -, -, hs2⟩ := passageStage2_frame _ i s2 h2
    obtain ⟨-, hd3, -, -, -, hs3⟩ := passageTimeout_frame s2 i
    refine Or.inr (Or.inr (Or.inr ⟨by simp, ?_, by rw [hd3, hd2, hd1]⟩))
    rcases hs3 with h | h
    · rw [h]
      rcases hs2 with e | ⟨e, -⟩
      · rw [e, hs1, hst]
        simp
      · rw [e]
        simp
    · rw [h]
      simp
  | STATE_WAIT_BEFORE_CLOSING =>
    rw [poll_waitBeforeClosing s i hst, caseWaitBeforeClosing_eq] at hp
    cases hp
    split_ifs
    · exact Or.inr (Or.inr (Or.inr ⟨by simp, by simp, rfl⟩))
    · exact Or.inl ⟨hst, rfl⟩
  | STATE_CLOSING =>
    rw [poll_closing s i hst] at hp
    cases hp
    unfold caseClosing
    split_ifs
    · exact Or.inr (Or.inl ⟨rfl, rfl⟩)
    · exact Or.inl ⟨hst, rfl⟩

theorem poll_closedIffNoIntent (s : Controller) (i : Inputs) (hb : NoClobber i)
    (s' : Controller) (ev : List Event) (hp : poll s i = some (s', ev))
    (h : ClosedIffNoIntent s) : ClosedIffNoIntent s' := by
  unfold ClosedIffNoIntent at h ⊢
  rcases poll_intent s i hb s' ev hp with ⟨h1, h2⟩ | ⟨h1, h2⟩ | ⟨-, h1, h2⟩ | ⟨h0, h1, h2⟩
  · rw [h1, h2]
    exact h
  · exact ⟨fun _ => h2, fun _ => h1⟩
  · constructor
    · intro hc
      rw [h1] at hc
      cases hc
    · intro hd
      rcases h2 with e | e <;> rw [e] at hd <;> cases hd
  · constructor
    · intro hc
      exact absurd hc h1
    · intro hd
      rw [h2] at hd
      exact absurd (h.2 hd) h0

theorem run_closedIffNoIntent (inputs : List Inputs) :
    (∀ i ∈ inputs, NoClobber i) →
    ∀ s s' : Controller, run s inputs = some s' → ClosedIffNoIntent s →
      ClosedIffNoIntent s' := by
  induction inputs with
  | nil =>
    intro _ s s' hr h
    cases hr
    exact h
  | cons i rest ih =>
    intro hb s s' hr h
    unfold run at hr
    split at hr
    · cases hr
    · rename_i s1 ev1 hp
      exact ih (fun j hj => hb j (List.mem_cons_of_mem i hj)) s1 s' hr
        (poll_closedIffNoIntent s i (hb i (List.mem_cons_self i rest)) s1 ev1 hp h)

/-! ### Arming and confirmation of the passage -/

theorem remove_vehicle_total (r : Registry) (index : Int) (hvc : r.vehicle_count ≤ 4) :
    ∃ r' : Registry, remove_vehicle r index = some r' := by
  obtain ⟨r', h, -⟩ := applyCall_bounded r (RegistryCall.remove index) hvc
  exact ⟨r', h⟩

/-- With `vehicle_count ≤ 4` the registry update of the confirmation always returns. -/
theorem updateDatabase_total (s : Controller) (hvc : s.reg.vehicle_count ≤ 4) :
    ∃ reg : Registry, updateDatabase s = some reg := by
  unfold updateDatabase
  split_ifs
  · exact ⟨_, rfl⟩
  · obtain ⟨idx, hidx⟩ := find_total s.reg s.current_uid hvc
    obtain ⟨r', hr'⟩ := remove_vehicle_total s.reg idx hvc
    exact ⟨r', by simp only [remove_found, hidx, hr']⟩
  · exact ⟨_, rfl⟩

/-- Stage 1 with the matching sensor occluded ends with the flag armed. -/
theorem passageStage1_of_match (s : Controller) (i : Inputs)
    (hm : matchingSensorBlocked s.current_direction i.entry1 i.exit1 = true) :
    passageStage1 s i = { s with vehicle_is_passing := true } := by
  rcases Bool.eq_false_or_eq_true s.vehicle_is_passing with e | e
  · rw [passageStage1_armed s i e]
    cases s
    simp only at e
    simp [e]
  · exact passageStage1_arms s i e hm

/-- The cycle never clears the flag in `STATE_OPEN_WAITING_PASSAGE`: armed after stage 1,
armed at the end of the cycle. -/
theorem poll_openWaiting_flag (s : Controller) (i : Inputs) (s' : Controller)
    (ev : List Event) (hst : s.currentState = STATE_OPEN_WAITING_PASSAGE)
    (hp : poll s i = some (s', ev)) :
    s'.vehicle_is_passing = (passageStage1 s i).vehicle_is_passing := by
  obtain ⟨s2, h2, rfl⟩ := poll_openWaiting_inv s i s' ev hst hp
  obtain ⟨-, -, hf2, -⟩ := passageStage2_frame _ i s2 h2
  obtain ⟨-, -, -, -, hf3, -⟩ := passageTimeout_frame s2 i
  rw [hf3, hf2]

/-- An armed controller in `STATE_OPEN_WAITING_PASSAGE` is left unchanged by a cycle in
which a sensor is occluded. -/
theorem poll_armed_occluded (s : Controller) (i : Inputs)
    (hst : s.currentState = STATE_OPEN_WAITING_PASSAGE)
    (hflag : s.vehicle_is_passing = true) (hocc : Occluded i) :
    poll s i =
      some (s, displayEvents s.reg.vehicle_count ++ [Event.LCD_Write "Please pass...  "] ++
              [Event.delay_ms 50]) := by
  have h2 : passageStage2 (passageStage1 s i) i = some s := by
    rw [passageStage1_armed s i hflag]
    exact passageStage2_skip s i (Or.inr hocc.1)
  have hp := poll_openWaiting s i s hst h2
  rw [passageTimeout_hold s i (Or.inr hocc.2)] at hp
  exact hp

theorem run_armed_occluded (mids : List Inputs) (s : Controller)
    (hst : s.currentState = STATE_OPEN_WAITING_PASSAGE)
    (hflag : s.vehicle_is_passing = true) (hocc : ∀ i ∈ mids, Occluded i) :
    run s mids = some s := by
  induction mids with
  | nil => rfl
  | cons i rest ih =>
    have hp := poll_armed_occluded s i hst hflag (hocc i (List.mem_cons_self i rest))
    simp only [run, hp]
    exact ih (fun j hj => hocc j (List.mem_cons_of_mem i hj))

theorem run_append (xs ys : List Inputs) :
    ∀ s s1 : Controller, run s xs = some s1 → run s (xs ++ ys) = run s1 ys := by
  induction xs with
  | nil =>
    intro s s1 h
    cases h
    rfl
  | cons i rest ih =>
    intro s s1 h
    unfold run at h
    split at h
    · cases h
    · rename_i s2 ev2 hp
      simp only [List.cons_append, run, hp]
      exact ih s2 s1 h

/-! ### Writes of the timestamp -/

/-- One cycle either keeps `state_change_timestamp`, or sets it to the tick read while
changing the state: from `STATE_CLOSED` into `STATE_AUTHORIZED_WAITING_VEHICLE`, from
`STATE_OPENING` into `STATE_OPEN_WAITING_PASSAGE`, or from `STATE_OPEN_WAITING_PASSAGE`
into `STATE_WAIT_BEFORE_CLOSING` (and on to `STATE_CLOSING` in the same cycle only if the
second clock read is more than `PASSAGE_TIMEOUT` after the first). -/
theorem poll_timestamp (s : Controller) (i : Inputs) (hb : NoClobber i) (s' : Controller)
    (ev : List Event) (hp : poll s i = some (s', ev)) :
    s'.state_change_timestamp = s.state_change_timestamp ∨
    (s'.state_change_timestamp = u32 i.tick1 ∧
      ((s.currentState = STATE_CLOSED ∧
          s'.currentState = STATE_AUTHORIZED_WAITING_VEHICLE) ∨
       (s.currentState = STATE_OPENING ∧ s'.currentState = STATE_OPEN_WAITING_PASSAGE) ∨
       (s.currentState = STATE_OPEN_WAITING_PASSAGE ∧
          (s'.currentState = STATE_WAIT_BEFORE_CLOSING ∨
            (s'.currentState = STATE_CLOSING ∧
              u32sub i.tick2 (u32 i.tick1) > PASSAGE_TIMEOUT))))) := by
  cases hst : s.currentState with
  | STATE_CLOSED =>
    obtain ⟨ev0, hsw, -⟩ := switch_of_poll s i s' ev hp
    rw [switchState_closed s i hst] at hsw
    rcases caseClosed_intent s i hb s' ev0 hsw with ⟨-, -, h3⟩ | ⟨h1, -, h3⟩
    · exact Or.inl h3
    · exact Or.inr ⟨h3, Or.inl ⟨rfl, h1⟩⟩
  | STATE_AUTHORIZED_WAITING_VEHICLE =>
    rw [poll_authorized s i hst] at hp
    cases hp
    exact Or.inl (caseAuthorized_frame s i).2.2.1
  | STATE_OPENING =>
    rw [poll_opening s i hst] at hp
    cases hp
    exact Or.inr ⟨rfl, Or.inr (Or.inl ⟨rfl, rfl⟩)⟩
  | STATE_OPEN_WAITING_PASSAGE =>
    obtain ⟨s2, h2, rfl⟩ := poll_openWaiting_inv s i s' ev hst hp
    obtain ⟨-, -, -, hs1, ht1⟩ := passageStage1_frame s i
    obtain ⟨-, -, -, hs2⟩ := passageStage2_frame _ i s2 h2
    obtain ⟨-, -, -, ht3, -, hs3⟩ := passageTimeout_frame s2 i
    rcases hs2 with e | ⟨e1, e2⟩
    · left
      rw [ht3, e, ht1]
    · right
      refine ⟨by rw [ht3, e2], Or.inr (Or.inr ⟨rfl, ?_⟩)⟩
      by_cases hle : u32sub i.tick2 s2.state_change_timestamp ≤ PASSAGE_TIMEOUT
      · left
        rw [passageTimeout_hold s2 i (Or.inl hle), e1]
      · rcases hs3 with h | h
        · exact Or.inl (by rw [h, e1])
        · exact Or.inr ⟨h, by rw [← e2]; omega⟩
  | STATE_WAIT_BEFORE_CLOSING =>
    rw [poll_waitBeforeClosing s i hst] at hp
    cases hp
    exact Or.inl (caseWaitBeforeClosing_frame s i).2.2.2.1
  | STATE_CLOSING =>
    rw [poll_closing s i hst] at hp
    cases hp
    left
    unfold caseClosing
    split_ifs <;> rfl

/-! ### Arithmetic of the clock and of the LED driver -/

/-- The unsigned difference recovers the elapsed time across a wrap of the counter. -/
theorem u32sub_elapsed (T d : Nat) (hd : d < 4294967296) : u32sub (T + d) (u32 T) = d := by
  unfold u32sub u32
  omega

theorem u32sub_congr (a b t : Nat) (h : u32 a = u32 b) : u32sub a t = u32sub b t := by
  unfold u32sub
  rw [h]

theorem scale8_to_arr_eq (v : Nat) (hv : v < 256) :
    scale8_to_arr v = (v * 999 + 127) / 255 := by
  have h1 : v % 256 = v := Nat.mod_eq_of_lt hv
  have h2 : v * 999 + 127 < 4294967296 := by omega
  have h3 : v % 4294967296 = v := Nat.mod_eq_of_lt (by omega)
  have h4 : (v * 999 + 127) / 255 < 65536 := by omega
  simp only [scale8_to_arr, u32, PWM_ARR, h1, h3, Nat.reduceMod, Nat.mod_eq_of_lt h2,
    Nat.mod_eq_of_lt h4]

/-- Without 32-bit overflow and 16-bit truncation `compute_psc` is the ceiling division
minus one (with truncated subtraction: 0 for a zero clock). -/
theorem compute_psc_eq (timclk_hz fpwm_hz arr : Nat) (hden : 0 < fpwm_hz * (arr + 1))
    (hfit : timclk_hz + fpwm_hz * (arr + 1) < 4294967296)
    (hsmall : timclk_hz ≤ 65536 * (fpwm_hz * (arr + 1))) :
    compute_psc timclk_hz fpwm_hz arr =
      (timclk_hz + fpwm_hz * (arr + 1) - 1) / (fpwm_hz * (arr + 1)) - 1 := by
  have hf : 0 < fpwm_hz := Nat.pos_of_mul_pos_right hden
  have h1 : fpwm_hz ≤ fpwm_hz * (arr + 1) := Nat.le_mul_of_pos_right _ (Nat.succ_pos arr)
  have h2 : arr + 1 ≤ fpwm_hz * (arr + 1) := Nat.le_mul_of_pos_left _ hf
  have e1 : u32 fpwm_hz = fpwm_hz := Nat.mod_eq_of_lt (by omega)
  have e2 : u32 arr = arr := Nat.mod_eq_of_lt (by omega)
  have e3 : u32 (arr + 1) = arr + 1 := Nat.mod_eq_of_lt (by omega)
  have e4 : u32 timclk_hz = timclk_hz := Nat.mod_eq_of_lt (by omega)
  have e5 : u32 (fpwm_hz * (arr + 1)) = fpwm_hz * (arr + 1) := Nat.mod_eq_of_lt (by omega)
  have e6 : u32 (timclk_hz + fpwm_hz * (arr + 1) + 4294967295) =
      timclk_hz + fpwm_hz * (arr + 1) - 1 := by
    unfold u32
    omega
  have hq : (timclk_hz + fpwm_hz * (arr + 1) - 1) / (fpwm_hz * (arr + 1)) < 65537 := by
    rw [Nat.div_lt_iff_lt_mul hden]
    omega
  unfold compute_psc
  simp only [e1, e2, e3, e4, e5, e6, if_neg (Nat.ne_of_gt hden)]
  generalize (timclk_hz + fpwm_hz * (arr + 1) - 1) / (fpwm_hz * (arr + 1)) = q at hq ⊢
  by_cases hq0 : q = 0
  · simp [hq0, u32]
  · simp only [hq0, if_false, u32]
    omega

theorem ceil_div_of_dvd (t D : Nat) (hD : 0 < D) (hdvd : D ∣ t) :
    (t + D - 1) / D = t / D := by
  obtain ⟨k, rfl⟩ := hdvd
  rw [Nat.mul_div_cancel_left k hD]
  apply Nat.div_eq_of_lt_le
  · rw [Nat.mul_comm k D]
    omega
  · rw [Nat.succ_mul, Nat.mul_comm k D]
    omega

theorem ceil_div_of_not_dvd (t D : Nat) (hD : 0 < D) (hdvd : ¬ D ∣ t) :
    (t + D - 1) / D = t / D + 1 := by
  have hmod : 0 < t % D := Nat.pos_of_ne_zero (fun h => hdvd (Nat.dvd_of_mod_eq_zero h))
  have hlt : t % D < D := Nat.mod_lt t hD
  have hdm : D * (t / D) + t % D = t := Nat.div_add_mod t D
  apply Nat.div_eq_of_lt_le
  · rw [Nat.add_mul, Nat.one_mul, Nat.mul_comm (t / D) D]
    omega
  · rw [Nat.succ_mul, Nat.add_mul, Nat.one_mul, Nat.mul_comm (t / D) D]
    omega

/-! ## The claims -/

/-- C1: for every sequence of `add_vehicle` and `remove_vehicle` calls, with any
identifiers and any indices (negative and out-of-range ones included), applied to the
initially empty registry, every call returns (no access outside the array) and
`vehicle_count` is within `0..MAX_VEHICLES_INSIDE` after every call, that is, after every
prefix of the sequence. The count is a natural number decremented modulo 256, so the
upper bound also excludes a wrap-around below zero. -/
theorem C1_vehicle_count_within_capacity (calls : List RegistryCall) (n : Nat) :
    ∃ r : Registry, applyCalls Registry.init (calls.take n) = some r ∧
      0 ≤ r.vehicle_count ∧ r.vehicle_count ≤ MAX_VEHICLES_INSIDE := by
  obtain ⟨r, hr, hb⟩ := applyCalls_bounded (calls.take n) Registry.init (Nat.zero_le 4)
  exact ⟨r, hr, Nat.zero_le _, hb⟩

/-- C2: in any poll cycle the actuator is commanded to the closed angle only if the state
at the start of the cycle is `STATE_CLOSING` and both sensors read clear in that cycle,
and then the cycle ends in `STATE_CLOSED`; a cycle that goes from `STATE_CLOSING` to
`STATE_CLOSED` has read both sensors clear; if the state is `STATE_CLOSING` and either
sensor reads occluded, the cycle issues no actuator command and leaves every global
(state, intent and registry among them) unchanged; and with both sensors clear the close
command is issued. -/
theorem C2_close_only_when_clear (s : Controller) (i : Inputs) :
    (∀ (s' : Controller) (ev : List Event), poll s i = some (s', ev) →
      Event.Servo_SetAngle BARRIER_CLOSED_ANGLE ∈ ev →
      s.currentState = STATE_CLOSING ∧ i.entry1 = false ∧ i.exit1 = false ∧
        s'.currentState = STATE_CLOSED) ∧
    (∀ (s' : Controller) (ev : List Event), poll s i = some (s', ev) →
      s.currentState = STATE_CLOSING → s'.currentState = STATE_CLOSED →
      i.entry1 = false ∧ i.exit1 = false) ∧
    (s.currentState = STATE_CLOSING → (i.entry1 = true ∨ i.exit1 = true) →
      ∃ ev : List Event, poll s i = some (s, ev) ∧ ∀ d : Nat, Event.Servo_SetAngle d ∉ ev) ∧
    (s.currentState = STATE_CLOSING → i.entry1 = false → i.exit1 = false →
      ∃ (s' : Controller) (ev : List Event), poll s i = some (s', ev) ∧
        Event.Servo_SetAngle BARRIER_CLOSED_ANGLE ∈ ev ∧
        s'.currentState = STATE_CLOSED ∧ s'.current_direction = DIR_NONE ∧
        s'.reg = s.reg) := by
  have hblocked : s.currentState = STATE_CLOSING → (i.entry1 = true ∨ i.exit1 = true) →
      poll s i = some (s, displayEvents s.reg.vehicle_count ++ [] ++ [Event.delay_ms 50]) := by
    intro hst hb
    apply poll_of_switch
    rw [switchState_closing s i hst, caseClosing_blocked s i hb]
  have hclear : s.currentState = STATE_CLOSING → i.entry1 = false → i.exit1 = false →
      poll s i =
        some ({ s with current_direction := DIR_NONE, currentState := STATE_CLOSED },
              displayEvents s.reg.vehicle_count ++
                [Event.LCD_Write "Gate Closing... ",
                 Event.Servo_SetAngle BARRIER_CLOSED_ANGLE, Event.delay_ms 500] ++
                [Event.delay_ms 50]) := by
    intro hst he hx
    apply poll_of_switch
    rw [switchState_closing s i hst, caseClosing_clear s i he hx]
  refine ⟨?_, ?_, ?_, ?_⟩
  · intro s' ev hp hmem
    have hsw : ∃ ev0, switchState s i = some (s', ev0) ∧
        ev = displayEvents s.reg.vehicle_count ++ ev0 ++ [Event.delay_ms 50] := by
      unfold poll at hp
      split at hp
      · cases hp
      · rename_i s1 ev1 heq
        cases hp
        exact ⟨ev1, heq, rfl⟩
    obtain ⟨ev0, hsw, rfl⟩ := hsw
    have hmem0 : Event.Servo_SetAngle BARRIER_CLOSED_ANGLE ∈ ev0 := by
      simp only [List.mem_append, List.mem_singleton] at hmem
      rcases hmem with (hd | h0) | hl
      · exact absurd hd (displayEvents_no_servo _ _)
      · exact h0
      · cases hl
    obtain ⟨hst, he, hx⟩ := switch_close_command s i s' ev0 hsw hmem0
    refine ⟨hst, he, hx, ?_⟩
    have h1 := switchState_closing s i hst
    rw [caseClosing_clear s i he hx, hsw] at h1
    rw [(Prod.mk.inj (Option.some.inj h1)).1]
  · intro s' ev hp hst hst'
    by_cases hb : i.entry1 = true ∨ i.exit1 = true
    · rw [hblocked hst hb] at hp
      cases hp
      rw [hst] at hst'
      cases hst'
    · simpa using hb
  · intro hst hb
    refine ⟨_, hblocked hst hb, ?_⟩
    intro d hmem
    simp only [List.append_nil, List.mem_append, List.mem_singleton] at hmem
    rcases hmem with hd | hl
    · exact displayEvents_no_servo _ _ hd
    · cases hl
  · intro hst he hx
    exact ⟨_, _, hclear hst he hx, by simp, rfl, rfl, rfl⟩

/-- C3: `add_vehicle` returns true iff `vehicle_count < 4` before the call; on success the
identifier is stored at index `vehicle_count`, `vehicle_count` grows by exactly 1 and every
other slot is unchanged; on failure the registry is unchanged. From the empty registry
four successive adds (of any identifiers, distinct ones in particular) return true and a
fifth returns false with the count still 4. -/
theorem C3_add_vehicle_contract (r : Registry) (uid : UID) :
    ((add_vehicle r uid).2 = true ↔ r.vehicle_count < 4) ∧
    ((add_vehicle r uid).2 = true →
      ∃ h : r.vehicle_count < 4,
        (add_vehicle r uid).1.vehicles_inside_db ⟨r.vehicle_count, h⟩ = uid ∧
        (add_vehicle r uid).1.vehicle_count = r.vehicle_count + 1 ∧
        ∀ j : Fin 4, j.val ≠ r.vehicle_count →
          (add_vehicle r uid).1.vehicles_inside_db j = r.vehicles_inside_db j) ∧
    ((add_vehicle r uid).2 = false → (add_vehicle r uid).1 = r) ∧
    (∀ u1 u2 u3 u4 u5 : UID,
      (add_vehicle Registry.init u1).2 = true ∧
      (add_vehicle (add_vehicle Registry.init u1).1 u2).2 = true ∧
      (add_vehicle (add_vehicle (add_vehicle Registry.init u1).1 u2).1 u3).2 = true ∧
      (add_vehicle (add_vehicle (add_vehicle (add_vehicle Registry.init u1).1 u2).1 u3).1
        u4).2 = true ∧
      add_vehicle (add_vehicle (add_vehicle (add_vehicle (add_vehicle Registry.init u1).1
        u2).1 u3).1 u4).1 u5 =
        ((add_vehicle (add_vehicle (add_vehicle (add_vehicle Registry.init u1).1 u2).1
          u3).1 u4).1, false) ∧
      (add_vehicle (add_vehicle (add_vehicle (add_vehicle Registry.init u1).1 u2).1 u3).1
        u4).1.vehicle_count = 4) := by
  by_cases hroom : r.vehicle_count < 4
  · rw [add_vehicle_room r uid hroom]
    refine ⟨by simp [hroom], fun _ => ⟨hroom, by simp, rfl, ?_⟩, by simp, ?_⟩
    · intro j hj
      have : j ≠ ⟨r.vehicle_count, hroom⟩ := fun h => hj (by rw [h])
      simp [Function.update, this]
    · intro u1 u2 u3 u4 u5
      simp [add_vehicle, Registry.init, MAX_VEHICLES_INSIDE]
  · rw [add_vehicle_full r uid (by simp only [MAX_VEHICLES_INSIDE]; omega)]
    refine ⟨by simp [hroom], by simp, by simp, ?_⟩
    intro u1 u2 u3 u4 u5
    simp [add_vehicle, Registry.init, MAX_VEHICLES_INSIDE]

/-- C4: when `vehicle_count ≤ 4` and `uid` is not among the first `vehicle_count`
entries, `find_vehicle_index(uid)` returns `-1` and `remove_vehicle(find_vehicle_index(uid))`
returns with `vehicle_count` and every stored entry unchanged; and for every registry
state, `remove_vehicle(index)` is a no-op for every `index < 0` or
`index ≥ vehicle_count`. -/
theorem C4_remove_absent_is_noop (r : Registry) (uid : UID)
    (hwf : r.vehicle_count ≤ MAX_VEHICLES_INSIDE)
    (habsent : ∀ j : Fin 4, j.val < r.vehicle_count → r.vehicles_inside_db j ≠ uid) :
    find_vehicle_index r uid = some (-1) ∧
    remove_found r uid = some r ∧
    ∀ (r' : Registry) (index : Int), index < 0 ∨ index ≥ (r'.vehicle_count : Int) →
      remove_vehicle r' index = some r' := by
  have hnm : ¬ Member r uid := fun ⟨j, hj1, hj2⟩ => habsent j hj1 hj2
  have hfind := find_of_not_member r uid hwf hnm
  refine ⟨hfind, ?_, remove_vehicle_out_of_range⟩
  simp only [remove_found, hfind]
  exact remove_vehicle_out_of_range r (-1) (Or.inl (by omega))

/-- Instance of C4: `cardC` is removed from a registry that holds `cardA` and `cardB`. -/
theorem C4_remove_absent_is_noop_witness :
    regAB.vehicle_count ≤ MAX_VEHICLES_INSIDE ∧
    (∀ j : Fin 4, j.val < regAB.vehicle_count → regAB.vehicles_inside_db j ≠ cardC) ∧
    find_vehicle_index regAB cardC = some (-1) ∧
    remove_found regAB cardC = some regAB :=
  have h := C4_remove_absent_is_noop regAB cardC (by decide) (by decide)
  ⟨by decide, by decide, h.1, h.2.1⟩

/-- C5: in a registry with `vehicle_count ≤ 4` and no duplicate entries that contains `a`,
`remove_vehicle(find_vehicle_index(a))` returns; afterwards `vehicle_count` is one less,
`find_vehicle_index(a)` is `-1`, and every identifier `b` different from `a` is a member
afterwards iff it was a member before (also in terms of `find_vehicle_index` returning
`-1` or not). -/
theorem C5_remove_present (r : Registry) (a : UID)
    (hwf : r.vehicle_count ≤ MAX_VEHICLES_INSIDE) (hnd : NoDuplicate r) (hmem : Member r a) :
    ∃ r' : Registry, remove_found r a = some r' ∧
      r'.vehicle_count + 1 = r.vehicle_count ∧
      find_vehicle_index r' a = some (-1) ∧
      ∀ b : UID, b ≠ a →
        ((Member r' b ↔ Member r b) ∧
         (find_vehicle_index r' b = some (-1) ↔ find_vehicle_index r b = some (-1))) := by
  have hwf4 : r.vehicle_count ≤ 4 := hwf
  obtain ⟨j, hl, hj1, hj2, hrem⟩ := remove_found_member r a hwf4 hmem
  refine ⟨_, hrem, ?_, ?_, ?_⟩
  · show r.vehicle_count - 1 + 1 = r.vehicle_count
    omega
  · apply find_of_not_member _ a (by show r.vehicle_count - 1 ≤ 4; omega)
    have := not_member_swap_remove r j hl hj1 hnd
    rwa [hj2] at this
  · intro b hb
    have hiff := member_swap_remove_iff r j hl hj1 b (by rw [hj2]; exact hb)
    refine ⟨hiff, ?_⟩
    rw [find_eq_neg_one_iff _ b (by show r.vehicle_count - 1 ≤ 4; omega),
      find_eq_neg_one_iff r b hwf4, hiff]

/-- Instance of C5: `cardA` is removed from a registry that holds `cardA` and `cardB`. -/
theorem C5_remove_present_witness :
    regAB.vehicle_count ≤ MAX_VEHICLES_INSIDE ∧ NoDuplicate regAB ∧ Member regAB cardA ∧
    ∃ r' : Registry, remove_found regAB cardA = some r' ∧
      r'.vehicle_count + 1 = regAB.vehicle_count ∧
      find_vehicle_index r' cardA = some (-1) ∧
      ∀ b : UID, b ≠ cardA →
        ((Member r' b ↔ Member regAB b) ∧
         (find_vehicle_index r' b = some (-1) ↔ find_vehicle_index regAB b = some (-1))) :=
  have hnd : NoDuplicate regAB := by
    unfold NoDuplicate
    decide
  have hm : Member regAB cardA := ⟨0, by decide, rfl⟩
  ⟨by decide, hnd, hm, C5_remove_present regAB cardA (by decide) hnd hm⟩

/-- C6: with `vehicle_count ≤ 4`, `find_vehicle_index(uid)` returns `-1` iff none of the
first `vehicle_count` entries equals `uid` on all four bytes; otherwise it returns the
smallest index below `vehicle_count` whose entry equals `uid`; and the result does not
depend on the entries at indices `≥ vehicle_count`. -/
theorem C6_find_vehicle_index_spec (r : Registry) (uid : UID)
    (hwf : r.vehicle_count ≤ MAX_VEHICLES_INSIDE) :
    (find_vehicle_index r uid = some (-1) ↔
      ∀ j : Fin 4, j.val < r.vehicle_count → ∃ b : Fin 4, r.vehicles_inside_db j b ≠ uid b) ∧
    (find_vehicle_index r uid = some (-1) ∨
      ∃ j : Fin 4, find_vehicle_index r uid = some (j.val : Int) ∧
        j.val < r.vehicle_count ∧ (∀ b : Fin 4, r.vehicles_inside_db j b = uid b) ∧
        ∀ m : Fin 4, m.val < j.val → ∃ b : Fin 4, r.vehicles_inside_db m b ≠ uid b) ∧
    (∀ r2 : Registry, r2.vehicle_count = r.vehicle_count →
      (∀ j : Fin 4, j.val < r.vehicle_count →
        r2.vehicles_inside_db j = r.vehicles_inside_db j) →
      find_vehicle_index r2 uid = find_vehicle_index r uid) := by
  have hne : ∀ a : UID, a ≠ uid ↔ ∃ b : Fin 4, a b ≠ uid b := by
    intro a
    rw [Ne, funext_iff]
    push_neg
    rfl
  have hwf4 : r.vehicle_count ≤ 4 := hwf
  refine ⟨?_, ?_, ?_⟩
  · rw [find_eq_neg_one_iff r uid hwf]
    simp only [Member, not_exists, not_and, ← hne]
  · by_cases hm : Member r uid
    · obtain ⟨j, hj1, hj2, hj3, hj4⟩ := find_of_member r uid hm
      exact Or.inr ⟨j, hj4, hj1, fun b => by rw [hj2], fun m hmj => (hne _).1 (hj3 m hmj)⟩
    · exact Or.inl (find_of_not_member r uid hwf hm)
  · intro r2 hvc hsame
    by_cases hm : Member r uid
    · obtain ⟨j, hj1, hj2, hj3, hj4⟩ := find_of_member r uid hm
      have hm2 : Member r2 uid := ⟨j, by omega, by rw [hsame j hj1, hj2]⟩
      obtain ⟨k, hk1, hk2, hk3, hk4⟩ := find_of_member r2 uid hm2
      have hjk : j = k := by
        apply Fin.ext
        rcases Nat.lt_trichotomy j.val k.val with hlt | heq | hgt
        · exact absurd (by rw [hsame j hj1, hj2]) (hk3 j hlt)
        · exact heq
        · exact absurd (by rw [← hsame k (by omega), hk2]) (hj3 k hgt)
      rw [hj4, hk4, hjk]
    · have hm2 : ¬ Member r2 uid := by
        rintro ⟨j, hj1, hj2⟩
        exact hm ⟨j, by omega, by rw [← hsame j (by omega), hj2]⟩
      rw [find_of_not_member r uid hwf hm, find_of_not_member r2 uid (by omega) hm2]

/-- Instance of C6: the search for `cardB` in a registry that holds `cardA` and `cardB`
returns index 1, the search for `cardC` returns `-1`. -/
theorem C6_find_vehicle_index_spec_witness :
    regAB.vehicle_count ≤ MAX_VEHICLES_INSIDE ∧
    find_vehicle_index regAB cardB = some 1 ∧
    (find_vehicle_index regAB cardC = some (-1) ↔
      ∀ j : Fin 4, j.val < regAB.vehicle_count →
        ∃ b : Fin 4, regAB.vehicles_inside_db j b ≠ cardC b) :=
  ⟨by decide, by decide, (C6_find_vehicle_index_spec regAB cardC (by decide)).1⟩

/-- C7: `is_card_authorized(uid)` returns true iff `uid` equals, byte for byte, one of the
four rows of the constant table `VALID_UIDS` (D3 A7 B1 28, 23 B8 16 2D, 93 71 8D 0C,
23 A2 5C FA). The function has no argument but `uid` and reads only the constant table. -/
theorem C7_is_card_authorized_iff (uid : UID) :
    is_card_authorized uid = true ↔
      (uid = mkUID 0xD3 0xA7 0xB1 0x28 ∨ uid = mkUID 0x23 0xB8 0x16 0x2D ∨
       uid = mkUID 0x93 0x71 0x8D 0x0C ∨ uid = mkUID 0x23 0xA2 0x5C 0xFA) := by
  have h0 : VALID_UIDS ⟨0, by omega⟩ = mkUID 0xD3 0xA7 0xB1 0x28 := rfl
  have h1 : VALID_UIDS ⟨1, by omega⟩ = mkUID 0x23 0xB8 0x16 0x2D := rfl
  have h2 : VALID_UIDS ⟨2, by omega⟩ = mkUID 0x93 0x71 0x8D 0x0C := rfl
  have h3 : VALID_UIDS ⟨3, by omega⟩ = mkUID 0x23 0xA2 0x5C 0xFA := rfl
  have hN : NUM_VALID_UIDS = 4 := rfl
  simp only [is_card_authorized, hN, is_card_authorized_loop, memcmp4_eq_zero_iff]
  simp only [show (0 : Nat) < 4 by omega, show (0 + 1 : Nat) < 4 by omega,
    show (0 + 1 + 1 : Nat) < 4 by omega, show (0 + 1 + 1 + 1 : Nat) < 4 by omega, dite_true]
  simp only [show (⟨0 + 1, by omega⟩ : Fin 4) = ⟨1, by omega⟩ from rfl,
    show (⟨0 + 1 + 1, by omega⟩ : Fin 4) = ⟨2, by omega⟩ from rfl,
    show (⟨0 + 1 + 1 + 1, by omega⟩ : Fin 4) = ⟨3, by omega⟩ from rfl, h0, h1, h2, h3]
  by_cases e0 : uid = mkUID 0xD3 0xA7 0xB1 0x28
  · simp [e0]
  · by_cases e1 : uid = mkUID 0x23 0xB8 0x16 0x2D
    · simp [e0, e1]
    · by_cases e2 : uid = mkUID 0x93 0x71 0x8D 0x0C
      · simp [e0, e1, e2]
      · by_cases e3 : uid = mkUID 0x23 0xA2 0x5C 0xFA
        · simp [e0, e1, e2, e3]
        · simp [e0, e1, e2, e3]

/-- While no reader call changes a global other than `current_uid`, the poll loop started
from the initial globals keeps running (no access outside the array) and the first
`vehicle_count` entries of `vehicles_inside_db` of the state it reaches are pairwise
distinct; `add_vehicle` itself performs no duplicate check (adding the same identifier
twice stores it twice). -/
theorem no_duplicate_no_clobber (inputs : List Inputs) (hb : ∀ i ∈ inputs, NoClobber i) :
    (∃ s : Controller, run Controller.init inputs = some s ∧ Reachable s ∧
      NoDuplicate s.reg) ∧
    ¬ NoDuplicate (add_vehicle (add_vehicle Registry.init cardA).1 cardA).1 := by
  constructor
  · obtain ⟨s, hrun, hinv⟩ := run_inv inputs hb Controller.init inv_init
    exact ⟨s, hrun, ⟨inputs, hrun⟩, hinv.2.1⟩
  · intro hnd
    have h01 := hnd 0 1 (by decide) (by decide) (by decide)
    exact absurd h01 (by decide)

theorem noClobber_quiet (tick : Nat) : NoClobber (quiet tick) :=
  ⟨fun _ => rfl, fun _ => rfl⟩

theorem noClobber_scan (uid : UID) (tick : Nat) : NoClobber (scan uid tick) :=
  ⟨fun _ => rfl, fun _ => rfl⟩

theorem noClobber_sense (e x : Bool) (tick : Nat) : NoClobber (sense e x tick) :=
  ⟨fun _ => rfl, fun _ => rfl⟩

/-- The runs `armEntryRun` and `armExitRun`, in which every extra reply byte lands in
unused storage, reach the open barrier with the flag armed. -/
theorem armed_reachable_no_clobber :
    ReachableNoClobber openArmedEntry ∧ ReachableNoClobber openArmedExit := by
  constructor
  · refine ⟨armEntryRun, ?_, rfl⟩
    intro i hi
    simp only [armEntryRun, List.mem_cons, List.mem_singleton, List.not_mem_nil,
      or_false] at hi
    rcases hi with rfl | rfl | rfl | rfl
    · exact noClobber_scan _ _
    · exact noClobber_sense _ _ _
    · exact noClobber_quiet _
    · exact noClobber_sense _ _ _
  · refine ⟨armExitRun, ?_, rfl⟩
    intro i hi
    simp only [armExitRun, entryRun, List.cons_append, List.nil_append, List.mem_cons,
      List.mem_singleton, List.not_mem_nil, or_false] at hi
    rcases hi with rfl | rfl | rfl | rfl | rfl | rfl | rfl | rfl | rfl | rfl | rfl
    · exact noClobber_scan _ _
    · exact noClobber_sense _ _ _
    · exact noClobber_quiet _
    · exact noClobber_sense _ _ _
    · exact noClobber_sense _ _ _
    · exact noClobber_quiet _
    · exact noClobber_quiet _
    · exact noClobber_scan _ _
    · exact noClobber_sense _ _ _
    · exact noClobber_quiet _
    · exact noClobber_sense _ _ _

/-- A poll cycle that starts in `STATE_CLOSED` and reads an authorized card, the reader
calls leaving the other globals alone, ends in
`STATE_AUTHORIZED_WAITING_VEHICLE` with intent entry when the identifier is not in the
registry and `vehicle_count < 4`, and with intent exit when the identifier is in the
registry, whatever `vehicle_count` is; in both cases the registry is unchanged and
`state_change_timestamp` is the tick read in the cycle. -/
theorem authorized_scan_no_clobber (s : Controller) (i : Inputs) (hb : NoClobber i)
    (hst : s.currentState = STATE_CLOSED) (hreq : i.request_ok = true)
    (hac : i.anticoll_ok = true) (hauth : is_card_authorized i.anticoll_buf = true) :
    (¬ Member s.reg i.anticoll_buf → s.reg.vehicle_count < MAX_VEHICLES_INSIDE →
      ∃ (s' : Controller) (ev : List Event), poll s i = some (s', ev) ∧
        s'.currentState = STATE_AUTHORIZED_WAITING_VEHICLE ∧
        s'.current_direction = DIR_ENTRY ∧ s'.reg = s.reg ∧
        s'.state_change_timestamp = u32 i.tick1) ∧
    (Member s.reg i.anticoll_buf →
      ∃ (s' : Controller) (ev : List Event), poll s i = some (s', ev) ∧
        s'.currentState = STATE_AUTHORIZED_WAITING_VEHICLE ∧
        s'.current_direction = DIR_EXIT ∧ s'.reg = s.reg ∧
        s'.state_change_timestamp = u32 i.tick1) := by
  constructor
  · intro hnm hroom
    have hsw := caseClosed_entry s i hb hreq hac hauth hnm hroom
    rw [← switchState_closed s i hst] at hsw
    exact ⟨_, _, poll_of_switch s i _ _ hsw, rfl, rfl, rfl, rfl⟩
  · intro hm
    have hsw := caseClosed_exit s i hb hreq hac hauth hm
    rw [← switchState_closed s i hst] at hsw
    exact ⟨_, _, poll_of_switch s i _ _ hsw, rfl, rfl, rfl, rfl⟩

/-- A poll cycle that starts in `STATE_CLOSED` with `vehicle_count = 4` and reads, the
reader calls leaving the other globals alone, an
authorized card whose identifier is not in the registry ends in `STATE_CLOSED` with the
intent, `vehicle_count`, the stored entries, the timestamp and the passage flag
unchanged (only `current_uid` holds the card read); the cycle writes the status line and
the notice "Parking is full!" and waits, and sends no servo command. -/
theorem scan_when_full_no_clobber (s : Controller) (i : Inputs) (hb : NoClobber i)
    (hst : s.currentState = STATE_CLOSED) (hfull : s.reg.vehicle_count = 4)
    (hreq : i.request_ok = true) (hac : i.anticoll_ok = true)
    (hauth : is_card_authorized i.anticoll_buf = true)
    (hnm : ¬ Member s.reg i.anticoll_buf) :
    poll s i =
      some ({ s with current_uid := i.anticoll_buf },
            displayEvents s.reg.vehicle_count ++
              [Event.LCD_Write "Gate Closed     ", Event.LCD_Write "Parking is full!",
               Event.delay_ms 1500] ++ [Event.delay_ms 50]) ∧
    ∃ (s' : Controller) (ev : List Event), poll s i = some (s', ev) ∧
      s'.currentState = STATE_CLOSED ∧ s'.current_direction = s.current_direction ∧
      (s.current_direction = DIR_NONE → s'.current_direction = DIR_NONE) ∧
      s'.reg.vehicle_count = 4 ∧ s'.reg = s.reg ∧
      s'.state_change_timestamp = s.state_change_timestamp ∧
      Event.LCD_Write "Parking is full!" ∈ ev ∧
      ∀ d : Nat, Event.Servo_SetAngle d ∉ ev := by
  have hsw := caseClosed_full s i hb hreq hac hauth hnm hfull
  rw [← switchState_closed s i hst] at hsw
  have hp := poll_of_switch s i _ _ hsw
  refine ⟨hp, _, _, hp, hst, rfl, fun h => h, hfull, rfl, rfl, by simp, ?_⟩
  intro d hmem
  have hd : Event.Servo_SetAngle d ∈ displayEvents s.reg.vehicle_count := by
    simpa using hmem
  exact displayEvents_no_servo _ _ hd

/-- A poll cycle that starts in `STATE_CLOSED`, whose reader calls leave the other globals
alone, and that does not yield an authorized card
(the request fails, or the anti-collision step fails, or the identifier read is rejected
by `is_card_authorized`, that is, is not in `VALID_UIDS`) ends in `STATE_CLOSED` with the
intent, `vehicle_count`, the stored entries, `state_change_timestamp` and the passage
flag unchanged, and sends no servo command. -/
theorem no_authorized_card_no_clobber (s : Controller) (i : Inputs) (hb : NoClobber i)
    (hst : s.currentState = STATE_CLOSED)
    (hno : i.request_ok = false ∨ (i.request_ok = true ∧ i.anticoll_ok = false) ∨
      (i.request_ok = true ∧ i.anticoll_ok = true ∧
        is_card_authorized i.anticoll_buf = false)) :
    ∃ (s' : Controller) (ev : List Event), poll s i = some (s', ev) ∧
      s'.currentState = STATE_CLOSED ∧
      s'.current_direction = s.current_direction ∧
      s'.reg.vehicle_count = s.reg.vehicle_count ∧
      s'.reg.vehicles_inside_db = s.reg.vehicles_inside_db ∧
      s'.state_change_timestamp = s.state_change_timestamp ∧
      s'.vehicle_is_passing = s.vehicle_is_passing ∧
      ∀ d : Nat, Event.Servo_SetAngle d ∉ ev := by
  have key : ∀ (uid : UID) (ev0 : List Event),
      caseClosed s i = some ({ s with current_uid := uid }, ev0) →
      ∃ (s' : Controller) (ev : List Event), poll s i = some (s', ev) ∧
        s'.currentState = STATE_CLOSED ∧
        s'.current_direction = s.current_direction ∧
        s'.reg.vehicle_count = s.reg.vehicle_count ∧
        s'.reg.vehicles_inside_db = s.reg.vehicles_inside_db ∧
        s'.state_change_timestamp = s.state_change_timestamp ∧
        s'.vehicle_is_passing = s.vehicle_is_passing ∧
        ∀ d : Nat, Event.Servo_SetAngle d ∉ ev := by
    intro uid ev0 hc
    have hsw : switchState s i = some ({ s with current_uid := uid }, ev0) := by
      rw [switchState_closed s i hst, hc]
    refine ⟨_, _, poll_of_switch s i _ _ hsw, hst, rfl, rfl, rfl, rfl, rfl, ?_⟩
    intro d hmem
    simp only [List.mem_append, List.mem_singleton] at hmem
    rcases hmem with (hd | h0) | hl
    · exact displayEvents_no_servo _ _ hd
    · exact caseClosed_no_servo s i _ ev0 hc d h0
    · cases hl
  rcases hno with hreq | ⟨hreq, hac⟩ | ⟨hreq, hac, hauth⟩
  · exact key _ _ (caseClosed_request_failed s i hb hreq)
  · exact key _ _ (caseClosed_anticoll_failed s i hb hreq hac)
  · exact key _ _ (caseClosed_denied s i hb hreq hac hauth)

/-- C12 (evaluation at the failing input): `cardA` was scanned at tick 0 at the empty lot
(state `STATE_AUTHORIZED_WAITING_VEHICLE`, intent entry); in the cycle at tick 10001 the
entry sensor reads occluded, yet the cycle ends in `STATE_CLOSED` with the intent reset,
not in `STATE_OPENING`: the timeout test that follows the sensor test overwrites the
state. -/
theorem C12_sensor_trip_lost_at_timeout :
    run Controller.init [scan cardA 0] = some awaitingEntry ∧
    awaitingEntry.currentState = STATE_AUTHORIZED_WAITING_VEHICLE ∧
    awaitingEntry.current_direction = DIR_ENTRY ∧
    (sense true false 10001).entry1 = true ∧
    poll awaitingEntry (sense true false 10001) =
      some ({ awaitingEntry with currentState := STATE_CLOSED, current_direction := DIR_NONE },
            [Event.LCD_FreeSlot 4, Event.HC595_DisplayNumber 0, Event.RGB_SetColor 0 255 0,
             Event.delay_ms 50]) ∧
    ¬ ∃ (s' : Controller) (ev : List Event),
        poll awaitingEntry (sense true false 10001) = some (s', ev) ∧
        s'.currentState = STATE_OPENING := by
  have hp : poll awaitingEntry (sense true false 10001) =
      some ({ awaitingEntry with currentState := STATE_CLOSED, current_direction := DIR_NONE },
            [Event.LCD_FreeSlot 4, Event.HC595_DisplayNumber 0, Event.RGB_SetColor 0 255 0,
             Event.delay_ms 50]) := by
    rfl
  refine ⟨rfl, rfl, rfl, rfl, hp, ?_⟩
  rintro ⟨s', ev, hp', hst'⟩
  rw [hp] at hp'
  rw [← (Prod.mk.inj (Option.some.inj hp')).1] at hst'
  cases hst'

/-- C13: a poll cycle that starts in `STATE_AUTHORIZED_WAITING_VEHICLE` with the sensor
matching the intent clear ends in `STATE_CLOSED` with intent none when the elapsed time
since `state_change_timestamp` is greater than `AUTHORIZED_TIMEOUT`, and leaves state and
intent unchanged when it is at most `AUTHORIZED_TIMEOUT`; in both cases the registry is
unchanged. -/
theorem C13_authorization_timeout (s : Controller) (i : Inputs)
    (hst : s.currentState = STATE_AUTHORIZED_WAITING_VEHICLE)
    (hentry : s.current_direction = DIR_ENTRY → i.entry1 = false)
    (hexit : s.current_direction = DIR_EXIT → i.exit1 = false) :
    ∃ (s' : Controller) (ev : List Event), poll s i = some (s', ev) ∧
      s'.reg = s.reg ∧
      (u32sub i.tick1 s.state_change_timestamp > AUTHORIZED_TIMEOUT →
        s'.currentState = STATE_CLOSED ∧ s'.current_direction = DIR_NONE) ∧
      (u32sub i.tick1 s.state_change_timestamp ≤ AUTHORIZED_TIMEOUT →
        s'.currentState = STATE_AUTHORIZED_WAITING_VEHICLE ∧
        s'.current_direction = s.current_direction) := by
  have hm := matchingSensorBlocked_of_clear s.current_direction i.entry1 i.exit1 hentry hexit
  obtain ⟨-, hfire, hhold⟩ := authorized_sensor_trip s i hst
  by_cases ht : u32sub i.tick1 s.state_change_timestamp > AUTHORIZED_TIMEOUT
  · refine ⟨_, _, hfire ht, rfl, fun _ => ⟨rfl, rfl⟩, fun hle => ?_⟩
    omega
  · refine ⟨_, _, hhold hm (by omega), rfl, fun hgt => absurd hgt ht, fun _ => ⟨hst, rfl⟩⟩

/-- Instance of C13: after `cardA` was scanned at tick 0 no vehicle shows up; the cycle at
tick 10001 cancels the request, the cycle at tick 10000 does not. -/
theorem C13_authorization_timeout_witness :
    awaitingEntry.currentState = STATE_AUTHORIZED_WAITING_VEHICLE ∧
    (sense false true 10001).entry1 = false ∧
    u32sub (sense false true 10001).tick1 awaitingEntry.state_change_timestamp >
      AUTHORIZED_TIMEOUT ∧
    (∃ (s' : Controller) (ev : List Event),
      poll awaitingEntry (sense false true 10001) = some (s', ev) ∧
      s'.reg = awaitingEntry.reg ∧
      (u32sub (sense false true 10001).tick1 awaitingEntry.state_change_timestamp >
          AUTHORIZED_TIMEOUT →
        s'.currentState = STATE_CLOSED ∧ s'.current_direction = DIR_NONE) ∧
      (u32sub (sense false true 10001).tick1 awaitingEntry.state_change_timestamp ≤
          AUTHORIZED_TIMEOUT →
        s'.currentState = STATE_AUTHORIZED_WAITING_VEHICLE ∧
        s'.current_direction = awaitingEntry.current_direction)) ∧
    poll awaitingEntry (sense false true 10000) =
      some (awaitingEntry,
            [Event.LCD_FreeSlot 4, Event.HC595_DisplayNumber 0, Event.RGB_SetColor 0 255 0,
             Event.delay_ms 50]) :=
  ⟨rfl, rfl, by decide,
    C13_authorization_timeout awaitingEntry (sense false true 10001) rfl (fun _ => rfl)
      (fun h => by cases h),
    rfl⟩

/-- If `vehicle_count` or a stored registry entry differs after a poll cycle whose reader
calls leave the other globals alone from before it, the cycle started in `STATE_OPEN_WAITING_PASSAGE`, the passage flag was armed
(at the start of the cycle or by stage 1 of this cycle; at the start of the cycle when
each sensor returns the same value at the arming and at the confirmation test), both
sensors read clear in the confirmation test, and the cycle left
`STATE_OPEN_WAITING_PASSAGE`; a cycle that starts in any other state leaves the registry
unchanged. Hence from the empty lot an authorized scan followed by an entry-sensor trip
within `AUTHORIZED_TIMEOUT` reaches, after the opening cycle, `STATE_OPEN_WAITING_PASSAGE`
with the registry still empty. -/
theorem registry_written_only_at_confirmation_no_clobber (s : Controller) (i : Inputs)
    (hb : NoClobber i) (s' : Controller) (ev : List Event) (hp : poll s i = some (s', ev)) :
    ((s'.reg.vehicle_count ≠ s.reg.vehicle_count ∨
        ∃ j b : Fin 4, s'.reg.vehicles_inside_db j b ≠ s.reg.vehicles_inside_db j b) →
      s.currentState = STATE_OPEN_WAITING_PASSAGE ∧
      (s.vehicle_is_passing = true ∨
        matchingSensorBlocked s.current_direction i.entry1 i.exit1 = true) ∧
      i.entry2 = false ∧ i.exit2 = false ∧
      s'.currentState ≠ STATE_OPEN_WAITING_PASSAGE ∧
      (i.entry1 = i.entry2 → i.exit1 = i.exit2 → s.vehicle_is_passing = true)) ∧
    (s.currentState ≠ STATE_OPEN_WAITING_PASSAGE → s'.reg = s.reg) ∧
    (∀ i1 i2 i3 : Inputs, NoClobber i1 → i1.request_ok = true → i1.anticoll_ok = true →
      is_card_authorized i1.anticoll_buf = true → i2.entry1 = true →
      u32sub i2.tick1 (u32 i1.tick1) ≤ AUTHORIZED_TIMEOUT →
      ∃ s3 : Controller, run Controller.init [i1, i2, i3] = some s3 ∧
        s3.currentState = STATE_OPEN_WAITING_PASSAGE ∧ s3.reg = Registry.init) := by
  refine ⟨?_, ?_, ?_⟩
  · intro hdiff
    have hne : s'.reg ≠ s.reg := by
      intro heq
      rcases hdiff with h | ⟨j, b, h⟩
      · exact h (by rw [heq])
      · exact h (by rw [heq])
    obtain ⟨hst, hflag, he, hx, hst'⟩ := poll_reg_changed s i hb s' ev hp hne
    have harm : s.vehicle_is_passing = true ∨
        matchingSensorBlocked s.current_direction i.entry1 i.exit1 = true := by
      rcases Bool.eq_false_or_eq_true s.vehicle_is_passing with e | e
      · exact Or.inl e
      · rcases Bool.eq_false_or_eq_true
          (matchingSensorBlocked s.current_direction i.entry1 i.exit1) with m | m
        · exact Or.inr m
        · rw [passageStage1_idle s i e m, e] at hflag
          cases hflag
    refine ⟨hst, harm, he, hx, ?_, ?_⟩
    · intro h
      rcases hst' with h' | h' <;> rw [h] at h' <;> cases h'
    · intro h1 h2
      rcases harm with e | m
      · exact e
      · rw [h1, h2, he, hx, matchingSensorBlocked_clear] at m
        cases m
  · intro hst
    by_contra hne
    exact hst (poll_reg_changed s i hb s' ev hp hne).1
  · intro i1 i2 i3 hb1 hreq hac hauth htrip ht
    exact ⟨_, scenario_scan_then_trip i1 i2 i3 hb1 hreq hac hauth htrip ht, rfl, rfl⟩

/-- In a state reachable without clobber, in `STATE_OPEN_WAITING_PASSAGE` with intent entry and
the passage flag armed, a poll cycle in which both sensors read clear (and whose second clock
read is within `PASSAGE_TIMEOUT` of the first, as when both return the current tick) ends
in `STATE_WAIT_BEFORE_CLOSING` with the scanned identifier, absent before, now a member
of the registry, `vehicle_count` one greater than before, and `state_change_timestamp`
set to the tick read. -/
theorem entry_passage_confirmed_no_clobber (s : Controller) (i : Inputs)
    (hreach : ReachableNoClobber s)
    (hst : s.currentState = STATE_OPEN_WAITING_PASSAGE)
    (hdir : s.current_direction = DIR_ENTRY) (hflag : s.vehicle_is_passing = true)
    (he : i.entry2 = false) (hx : i.exit2 = false)
    (htick : u32sub i.tick2 (u32 i.tick1) ≤ PASSAGE_TIMEOUT) :
    ∃ (s' : Controller) (ev : List Event), poll s i = some (s', ev) ∧
      s'.currentState = STATE_WAIT_BEFORE_CLOSING ∧
      s'.current_uid = s.current_uid ∧
      ¬ Member s.reg s.current_uid ∧ Member s'.reg s.current_uid ∧
      s'.reg = (add_vehicle s.reg s.current_uid).1 ∧
      (add_vehicle s.reg s.current_uid).2 = true ∧
      s'.reg.vehicle_count = s.reg.vehicle_count + 1 ∧
      s'.state_change_timestamp = u32 i.tick1 := by
  obtain ⟨-, -, hserve⟩ := reachable_inv s hreach
  obtain ⟨hroom, hnm⟩ := (hserve (Or.inr (Or.inr hst))).1 hdir
  have hupd : updateDatabase s = some (add_vehicle s.reg s.current_uid).1 := by
    simp [updateDatabase, hdir]
  have h2 := passageStage2_confirm s i _ hflag he hx hupd
  have hp := poll_openWaiting s i _ hst (by rw [passageStage1_armed s i hflag]; exact h2)
  rw [passageTimeout_hold _ i (Or.inl htick)] at hp
  obtain ⟨hmem, hcount⟩ := member_add s.reg s.current_uid hroom
  refine ⟨_, _, hp, rfl, rfl, hnm, hmem, rfl, ?_, hcount, rfl⟩
  rw [add_vehicle_room s.reg s.current_uid hroom]

/-- In a state reachable without clobber, in `STATE_OPEN_WAITING_PASSAGE` with intent exit and
the passage flag armed, a poll cycle in which both sensors read clear (and whose second clock
read is within `PASSAGE_TIMEOUT` of the first) ends in `STATE_WAIT_BEFORE_CLOSING` with
the scanned identifier, a member before, no longer a member of the registry,
`vehicle_count` one less than before, and every other identifier a member afterwards iff
it was one before. -/
theorem exit_passage_confirmed_no_clobber (s : Controller) (i : Inputs)
    (hreach : ReachableNoClobber s)
    (hst : s.currentState = STATE_OPEN_WAITING_PASSAGE)
    (hdir : s.current_direction = DIR_EXIT) (hflag : s.vehicle_is_passing = true)
    (he : i.entry2 = false) (hx : i.exit2 = false)
    (htick : u32sub i.tick2 (u32 i.tick1) ≤ PASSAGE_TIMEOUT) :
    ∃ (s' : Controller) (ev : List Event), poll s i = some (s', ev) ∧
      s'.currentState = STATE_WAIT_BEFORE_CLOSING ∧
      s'.current_uid = s.current_uid ∧
      Member s.reg s.current_uid ∧ ¬ Member s'.reg s.current_uid ∧
      s'.reg.vehicle_count + 1 = s.reg.vehicle_count ∧
      (∀ b : UID, b ≠ s.current_uid → (Member s'.reg b ↔ Member s.reg b)) ∧
      s'.state_change_timestamp = u32 i.tick1 := by
  obtain ⟨hvc, hnd, hserve⟩ := reachable_inv s hreach
  have hm : Member s.reg s.current_uid := (hserve (Or.inr (Or.inr hst))).2 hdir
  obtain ⟨j, hl, hj1, hj2, hrem⟩ := remove_found_member s.reg s.current_uid hvc hm
  have hupd : updateDatabase s = remove_found s.reg s.current_uid := by
    simp [updateDatabase, hdir]
  rw [hrem] at hupd
  have h2 := passageStage2_confirm s i _ hflag he hx hupd
  have hp := poll_openWaiting s i _ hst (by rw [passageStage1_armed s i hflag]; exact h2)
  rw [passageTimeout_hold _ i (Or.inl htick)] at hp
  refine ⟨_, _, hp, rfl, rfl, hm, ?_, ?_, ?_, rfl⟩
  · have := not_member_swap_remove s.reg j hl hj1 hnd
    rwa [hj2] at this
  · show s.reg.vehicle_count - 1 + 1 = s.reg.vehicle_count
    omega
  · intro b hb
    exact member_swap_remove_iff s.reg j hl hj1 b (by rw [hj2]; exact hb)

/-- The result of `add_vehicle` is discarded (line 323): in globals in
`STATE_OPEN_WAITING_PASSAGE` with intent entry, the flag armed and
both sensors clear, when `add_vehicle` fails (`vehicle_count = 4`) the failure is ignored:
`vehicle_count` and the registry entries are unchanged and the cycle leaves
`STATE_OPEN_WAITING_PASSAGE`, ending in `STATE_WAIT_BEFORE_CLOSING` with the timestamp set
to the tick read (in `STATE_CLOSING` only if the second clock read of the cycle is more
than `PASSAGE_TIMEOUT` after the first). -/
theorem add_failure_ignored (s : Controller) (i : Inputs)
    (hst : s.currentState = STATE_OPEN_WAITING_PASSAGE)
    (hdir : s.current_direction = DIR_ENTRY) (hflag : s.vehicle_is_passing = true)
    (he : i.entry2 = false) (hx : i.exit2 = false) (hfull : s.reg.vehicle_count = 4) :
    (add_vehicle s.reg s.current_uid).2 = false ∧
    ∃ (s' : Controller) (ev : List Event), poll s i = some (s', ev) ∧
      s'.reg = s.reg ∧
      s'.state_change_timestamp = u32 i.tick1 ∧
      (s'.currentState = STATE_WAIT_BEFORE_CLOSING ∨ s'.currentState = STATE_CLOSING) ∧
      (u32sub i.tick2 (u32 i.tick1) ≤ PASSAGE_TIMEOUT →
        s'.currentState = STATE_WAIT_BEFORE_CLOSING) := by
  have hadd : add_vehicle s.reg s.current_uid = (s.reg, false) :=
    add_vehicle_full s.reg s.current_uid (by simp only [MAX_VEHICLES_INSIDE]; omega)
  have hupd : updateDatabase s = some s.reg := by
    simp [updateDatabase, hdir, hadd]
  have h2 := passageStage2_confirm s i _ hflag he hx hupd
  have hp := poll_openWaiting s i _ hst (by rw [passageStage1_armed s i hflag]; exact h2)
  obtain ⟨hreg, -, -, hts, -, hstate⟩ := passageTimeout_frame
    { s with reg := s.reg, currentState := STATE_WAIT_BEFORE_CLOSING,
             state_change_timestamp := u32 i.tick1 } i
  refine ⟨by rw [hadd], _, _, hp, hreg, hts, hstate, ?_⟩
  intro htick
  rw [passageTimeout_hold _ i (Or.inl htick)]

/-- C18 (counterexample): `cardA` is at the open barrier of the empty lot with the flag
armed (timestamp 300); in the cycle at tick 20000, more than `PASSAGE_TIMEOUT` later, both
sensors read clear; the cycle does not end in `STATE_CLOSING` with the registry unchanged:
the passage is confirmed, `cardA` is added and the cycle ends in
`STATE_WAIT_BEFORE_CLOSING`. -/
theorem C18_counterexample :
    Reachable openArmedEntry ∧
    openArmedEntry.currentState = STATE_OPEN_WAITING_PASSAGE ∧
    openArmedEntry.vehicle_is_passing = true ∧
    u32sub 20000 openArmedEntry.state_change_timestamp > PASSAGE_TIMEOUT ∧
    poll openArmedEntry (sense false false 20000) =
      some ({ closingAfterEntry with currentState := STATE_WAIT_BEFORE_CLOSING,
                                     state_change_timestamp := 20000 },
            [Event.LCD_FreeSlot 4, Event.HC595_DisplayNumber 0, Event.RGB_SetColor 0 255 0,
             Event.LCD_Write "Please pass...  ", Event.delay_ms 50]) ∧
    closingAfterEntry.reg.vehicle_count ≠ openArmedEntry.reg.vehicle_count ∧
    ¬ ∃ (s' : Controller) (ev : List Event),
        poll openArmedEntry (sense false false 20000) = some (s', ev) ∧
        s'.currentState = STATE_CLOSING ∧ s'.reg = openArmedEntry.reg := by
  have hp : poll openArmedEntry (sense false false 20000) =
      some ({ closingAfterEntry with currentState := STATE_WAIT_BEFORE_CLOSING,
                                     state_change_timestamp := 20000 },
            [Event.LCD_FreeSlot 4, Event.HC595_DisplayNumber 0, Event.RGB_SetColor 0 255 0,
             Event.LCD_Write "Please pass...  ", Event.delay_ms 50]) := by
    rfl
  refine ⟨⟨armEntryRun, rfl⟩, rfl, rfl, by decide, hp, by decide, ?_⟩
  rintro ⟨s', ev, hp', hst', -⟩
  rw [hp] at hp'
  rw [← (Prod.mk.inj (Option.some.inj hp')).1] at hst'
  cases hst'

/-- C18 (amended): a poll cycle that starts in `STATE_OPEN_WAITING_PASSAGE` with the
passage flag not armed, the elapsed time since `state_change_timestamp` greater than
`PASSAGE_TIMEOUT` and both sensors reading clear ends in `STATE_CLOSING` with
`vehicle_count` and the registry entries unchanged (no passage confirmation, no add or
remove); the flag stays unarmed. -/
theorem C18_passage_timeout_unarmed (s : Controller) (i : Inputs)
    (hst : s.currentState = STATE_OPEN_WAITING_PASSAGE)
    (hflag : s.vehicle_is_passing = false)
    (ht : u32sub i.tick2 s.state_change_timestamp > PASSAGE_TIMEOUT)
    (he1 : i.entry1 = false) (hx1 : i.exit1 = false)
    (he3 : i.entry3 = false) (hx3 : i.exit3 = false) :
    poll s i =
      some ({ s with currentState := STATE_CLOSING },
            displayEvents s.reg.vehicle_count ++ [Event.LCD_Write "Please pass...  "] ++
              [Event.delay_ms 50]) ∧
    ∃ (s' : Controller) (ev : List Event), poll s i = some (s', ev) ∧
      s'.currentState = STATE_CLOSING ∧
      s'.reg.vehicle_count = s.reg.vehicle_count ∧
      s'.reg.vehicles_inside_db = s.reg.vehicles_inside_db ∧
      s'.vehicle_is_passing = false := by
  have h1 : passageStage1 s i = s :=
    passageStage1_idle s i hflag (by rw [he1, hx1, matchingSensorBlocked_clear])
  have h2 : passageStage2 (passageStage1 s i) i = some s := by
    rw [h1]
    exact passageStage2_skip s i (Or.inl hflag)
  have hp := poll_openWaiting s i s hst h2
  rw [passageTimeout_fire s i ht he3 hx3] at hp
  exact ⟨hp, _, _, hp, rfl, rfl, rfl, hflag⟩

/-- Instance of the amended C18: the barrier was opened for `cardA` at tick 300 and no
vehicle ever passed; at tick 20000 both sensors are clear. -/
theorem C18_passage_timeout_unarmed_witness :
    ({ openArmedEntry with vehicle_is_passing := false } : Controller).currentState =
      STATE_OPEN_WAITING_PASSAGE ∧
    u32sub (sense false false 20000).tick2 openArmedEntry.state_change_timestamp >
      PASSAGE_TIMEOUT ∧
    poll { openArmedEntry with vehicle_is_passing := false } (sense false false 20000) =
      some ({ openArmedEntry with vehicle_is_passing := false,
                                  currentState := STATE_CLOSING },
            [Event.LCD_FreeSlot 4, Event.HC595_DisplayNumber 0, Event.RGB_SetColor 0 255 0,
             Event.LCD_Write "Please pass...  ", Event.delay_ms 50]) :=
  ⟨rfl, by decide,
    (C18_passage_timeout_unarmed { openArmedEntry with vehicle_is_passing := false }
      (sense false false 20000) rfl rfl (by decide) rfl rfl rfl rfl).1⟩

/-- C19: a poll cycle that starts in `STATE_OPEN_WAITING_PASSAGE` in which at least one
sensor reads occluded (at the confirmation test and at the timeout test; both hold when
each sensor returns one value throughout the cycle and one of them is occluded) ends in
`STATE_OPEN_WAITING_PASSAGE` with the registry, the intent and `state_change_timestamp`
unchanged and no servo command in its trace, whatever the clock reads: only the passage
flag may change (stage 1). -/
theorem C19_hold_while_occluded (s : Controller) (i : Inputs)
    (hst : s.currentState = STATE_OPEN_WAITING_PASSAGE)
    (h2 : i.entry2 = true ∨ i.exit2 = true) (h3 : i.entry3 = true ∨ i.exit3 = true) :
    poll s i =
      some (passageStage1 s i,
            displayEvents s.reg.vehicle_count ++ [Event.LCD_Write "Please pass...  "] ++
              [Event.delay_ms 50]) ∧
    ∃ (s' : Controller) (ev : List Event), poll s i = some (s', ev) ∧
      s'.currentState = STATE_OPEN_WAITING_PASSAGE ∧
      s'.reg = s.reg ∧
      s'.state_change_timestamp = s.state_change_timestamp ∧
      s'.current_direction = s.current_direction ∧
      ∀ d : Nat, Event.Servo_SetAngle d ∉ ev := by
  obtain ⟨hreg, hdir, -, hstate, hts⟩ := passageStage1_frame s i
  have hs2 : passageStage2 (passageStage1 s i) i = some (passageStage1 s i) :=
    passageStage2_skip _ i (Or.inr h2)
  have hp := poll_openWaiting s i _ hst hs2
  rw [passageTimeout_hold _ i (Or.inr h3)] at hp
  exact ⟨hp, _, _, hp, by rw [hstate, hst], hreg, hts, hdir,
    fun d => plain_trace_no_servo _ d _⟩

/-- Instance of C19: the vehicle stands in the entry sensor long after `PASSAGE_TIMEOUT`
(timestamp 300, tick 99999). -/
theorem C19_hold_while_occluded_witness :
    openArmedEntry.currentState = STATE_OPEN_WAITING_PASSAGE ∧
    u32sub (sense true false 99999).tick2 openArmedEntry.state_change_timestamp >
      PASSAGE_TIMEOUT ∧
    poll openArmedEntry (sense true false 99999) =
      some (openArmedEntry,
            [Event.LCD_FreeSlot 4, Event.HC595_DisplayNumber 0, Event.RGB_SetColor 0 255 0,
             Event.LCD_Write "Please pass...  ", Event.delay_ms 50]) :=
  ⟨rfl, by decide,
    (C19_hold_while_occluded openArmedEntry (sense true false 99999) rfl (Or.inl rfl)
      (Or.inl rfl)).1⟩

/-- C20: a poll cycle that starts in `STATE_WAIT_BEFORE_CLOSING` ends in `STATE_CLOSING`
iff the elapsed time since `state_change_timestamp` is greater than
`DELAY_BEFORE_CLOSING`, and otherwise stays in `STATE_WAIT_BEFORE_CLOSING`; intent and
registry are unchanged in either case; the outcome is the same for all inputs that agree
on the clock read, whatever the sensors read. -/
theorem C20_settle_delay (s : Controller) (i : Inputs)
    (hst : s.currentState = STATE_WAIT_BEFORE_CLOSING) :
    ∃ (s' : Controller) (ev : List Event), poll s i = some (s', ev) ∧
      (s'.currentState = STATE_CLOSING ↔
        u32sub i.tick1 s.state_change_timestamp > DELAY_BEFORE_CLOSING) ∧
      (u32sub i.tick1 s.state_change_timestamp ≤ DELAY_BEFORE_CLOSING →
        s'.currentState = STATE_WAIT_BEFORE_CLOSING) ∧
      s'.current_direction = s.current_direction ∧ s'.reg = s.reg ∧
      ∀ j : Inputs, j.tick1 = i.tick1 → poll s j = poll s i := by
  obtain ⟨hreg, hdir, -, -, -⟩ := caseWaitBeforeClosing_frame s i
  refine ⟨_, _, poll_waitBeforeClosing s i hst, ?_, ?_, hdir, hreg, ?_⟩
  · rw [caseWaitBeforeClosing_eq]
    by_cases ht : u32sub i.tick1 s.state_change_timestamp > DELAY_BEFORE_CLOSING
    · simp [ht]
    · simp [ht, hst]
  · intro hle
    rw [caseWaitBeforeClosing_eq, if_neg (by omega)]
    exact hst
  · intro j hj
    rw [poll_waitBeforeClosing s i hst, poll_waitBeforeClosing s j hst,
      caseWaitBeforeClosing_eq, caseWaitBeforeClosing_eq, hj]

/-- Instance of C20: the settle delay started at tick 700; at tick 2701 the cycle ends in
`STATE_CLOSING` although both sensors are occluded, at tick 2700 it does not. -/
theorem C20_settle_delay_witness :
    settling.currentState = STATE_WAIT_BEFORE_CLOSING ∧
    poll settling (sense true true 2701) =
      some ({ settling with currentState := STATE_CLOSING },
            [Event.LCD_FreeSlot 2, Event.HC595_DisplayNumber 2, Event.RGB_SetColor 0 0 255,
             Event.LCD_Write "Vehicle passed! ", Event.delay_ms 50]) ∧
    poll settling (sense false false 2700) =
      some (settling,
            [Event.LCD_FreeSlot 2, Event.HC595_DisplayNumber 2, Event.RGB_SetColor 0 0 255,
             Event.LCD_Write "Vehicle passed! ", Event.delay_ms 50]) ∧
    ∃ (s' : Controller) (ev : List Event), poll settling (sense true true 2701) = some (s', ev) ∧
      (s'.currentState = STATE_CLOSING ↔
        u32sub (sense true true 2701).tick1 settling.state_change_timestamp >
          DELAY_BEFORE_CLOSING) ∧
      (u32sub (sense true true 2701).tick1 settling.state_change_timestamp ≤
          DELAY_BEFORE_CLOSING →
        s'.currentState = STATE_WAIT_BEFORE_CLOSING) ∧
      s'.current_direction = settling.current_direction ∧ s'.reg = settling.reg ∧
      ∀ j : Inputs, j.tick1 = (sense true true 2701).tick1 →
        poll settling j = poll settling (sense true true 2701) :=
  ⟨rfl, rfl, rfl, C20_settle_delay settling (sense true true 2701) rfl⟩

/-- Under any sequence of inputs in which no reader call changes a global other than
`current_uid`, the loop started from the initial globals reaches a
state that is `STATE_CLOSED` iff the intent is `DIR_NONE`, so that every state other than
`STATE_CLOSED` carries intent entry or exit; and every cycle that goes from another state
into `STATE_CLOSED` (authorization timeout, completed close) ends with the intent reset to
`DIR_NONE`. -/
theorem closed_iff_no_intent_no_clobber (inputs : List Inputs)
    (hb : ∀ i ∈ inputs, NoClobber i) :
    (∃ s : Controller, run Controller.init inputs = some s ∧ Reachable s ∧
      (s.currentState = STATE_CLOSED ↔ s.current_direction = DIR_NONE) ∧
      (s.currentState ≠ STATE_CLOSED →
        s.current_direction = DIR_ENTRY ∨ s.current_direction = DIR_EXIT)) ∧
    (∀ (s : Controller) (i : Inputs) (s' : Controller) (ev : List Event), NoClobber i →
      poll s i = some (s', ev) → s.currentState ≠ STATE_CLOSED →
      s'.currentState = STATE_CLOSED → s'.current_direction = DIR_NONE) := by
  constructor
  · obtain ⟨s, hrun, -⟩ := run_inv inputs hb Controller.init inv_init
    have hiff : ClosedIffNoIntent s :=
      run_closedIffNoIntent inputs hb Controller.init s hrun ⟨fun _ => rfl, fun _ => rfl⟩
    refine ⟨s, hrun, ⟨inputs, hrun⟩, hiff, ?_⟩
    intro hne
    cases hd : s.current_direction with
    | DIR_NONE => exact absurd (hiff.2 hd) hne
    | DIR_ENTRY => exact Or.inl rfl
    | DIR_EXIT => exact Or.inr rfl
  · intro s i s' ev hbi hp hne hcl
    rcases poll_intent s i hbi s' ev hp with ⟨h1, -⟩ | ⟨-, h2⟩ | ⟨h0, -, -⟩ | ⟨-, h1, -⟩
    · rw [hcl] at h1
      exact absurd h1.symm hne
    · exact h2
    · exact absurd h0 hne
    · exact absurd hcl h1

/-- C22: a poll cycle that starts in `STATE_OPEN_WAITING_PASSAGE` with the passage flag
not armed, the sensor matching the intent reading clear and the elapsed time at most
`PASSAGE_TIMEOUT` leaves every global unchanged: it ends in
`STATE_OPEN_WAITING_PASSAGE` with the flag still not armed and the registry unchanged,
whatever the non-matching sensor reads at any of its calls. -/
theorem C22_unarmed_waits (s : Controller) (i : Inputs)
    (hst : s.currentState = STATE_OPEN_WAITING_PASSAGE)
    (hflag : s.vehicle_is_passing = false)
    (hentry : s.current_direction = DIR_ENTRY → i.entry1 = false)
    (hexit : s.current_direction = DIR_EXIT → i.exit1 = false)
    (ht : u32sub i.tick2 s.state_change_timestamp ≤ PASSAGE_TIMEOUT) :
    poll s i =
      some (s, displayEvents s.reg.vehicle_count ++ [Event.LCD_Write "Please pass...  "] ++
              [Event.delay_ms 50]) ∧
    ∃ (s' : Controller) (ev : List Event), poll s i = some (s', ev) ∧
      s'.currentState = STATE_OPEN_WAITING_PASSAGE ∧ s'.vehicle_is_passing = false ∧
      s'.reg = s.reg := by
  have h1 : passageStage1 s i = s :=
    passageStage1_idle s i hflag
      (matchingSensorBlocked_of_clear s.current_direction i.entry1 i.exit1 hentry hexit)
  have h2 : passageStage2 (passageStage1 s i) i = some s := by
    rw [h1]
    exact passageStage2_skip s i (Or.inl hflag)
  have hp := poll_openWaiting s i s hst h2
  rw [passageTimeout_hold s i (Or.inl ht)] at hp
  exact ⟨hp, _, _, hp, hst, hflag, rfl⟩

/-- Instance of C22: the barrier is open for the entry of `cardA`, flag not armed; the
exit sensor alone is occluded at tick 400. -/
theorem C22_unarmed_waits_witness :
    openUnarmedEntry.currentState = STATE_OPEN_WAITING_PASSAGE ∧
    openUnarmedEntry.vehicle_is_passing = false ∧
    openUnarmedEntry.current_direction = DIR_ENTRY ∧
    (sense false true 400).entry1 = false ∧ (sense false true 400).exit1 = true ∧
    u32sub (sense false true 400).tick2 openUnarmedEntry.state_change_timestamp ≤
      PASSAGE_TIMEOUT ∧
    poll openUnarmedEntry (sense false true 400) =
      some (openUnarmedEntry,
            [Event.LCD_FreeSlot 4, Event.HC595_DisplayNumber 0, Event.RGB_SetColor 0 255 0,
             Event.LCD_Write "Please pass...  ", Event.delay_ms 50]) :=
  ⟨rfl, rfl, rfl, rfl, rfl, by decide,
    (C22_unarmed_waits openUnarmedEntry (sense false true 400) rfl rfl (fun _ => rfl)
      (fun h => by cases h) (by decide)).1⟩

/-- C23: in `STATE_OPEN_WAITING_PASSAGE` (with `vehicle_count ≤ 4`) a cycle in which the
sensor matching the intent reads occluded ends with the passage flag armed, whatever the
other sensor reads; a cycle that starts with the flag armed ends with it armed; and after
an arming cycle and any number of cycles in each of which a sensor is occluded, the state
is still `STATE_OPEN_WAITING_PASSAGE` with the flag armed, and a cycle in which both
sensors read clear then confirms the passage, whichever sensors were occluded in
between: the state is `STATE_WAIT_BEFORE_CLOSING` and the registry is updated. With
intent entry the new registry is that of `add_vehicle(current_uid)`: when
`vehicle_count < 4` the identifier is a member and `vehicle_count` is one greater. With
intent exit and the identifier in the registry, `vehicle_count` is one less, every other
identifier is a member iff it was one before, and the identifier is no longer a member
when it was stored once. -/
theorem C23_arming_then_confirmation (s : Controller) (i1 : Inputs) (mids : List Inputs)
    (ilast : Inputs) (hst : s.currentState = STATE_OPEN_WAITING_PASSAGE)
    (hvc : s.reg.vehicle_count ≤ 4)
    (hmatch : (s.current_direction = DIR_ENTRY ∧ i1.entry1 = true) ∨
      (s.current_direction = DIR_EXIT ∧ i1.exit1 = true))
    (hocc1 : Occluded i1) (hmids : ∀ i ∈ mids, Occluded i)
    (he : ilast.entry2 = false) (hx : ilast.exit2 = false)
    (htick : u32sub ilast.tick2 (u32 ilast.tick1) ≤ PASSAGE_TIMEOUT) :
    (∃ (s' : Controller) (ev : List Event), poll s i1 = some (s', ev)) ∧
    (∀ (s' : Controller) (ev : List Event), poll s i1 = some (s', ev) →
      s'.vehicle_is_passing = true) ∧
    (∀ (t : Controller) (i : Inputs) (t' : Controller) (ev : List Event),
      t.currentState = STATE_OPEN_WAITING_PASSAGE → t.vehicle_is_passing = true →
      poll t i = some (t', ev) → t'.vehicle_is_passing = true) ∧
    run s (i1 :: mids) = some { s with vehicle_is_passing := true } ∧
    ∃ reg : Registry, updateDatabase s = some reg ∧
      run s (i1 :: mids ++ [ilast]) =
        some { s with vehicle_is_passing := true,
                      reg := reg,
                      currentState := STATE_WAIT_BEFORE_CLOSING,
                      state_change_timestamp := u32 ilast.tick1 } ∧
      (s.current_direction = DIR_ENTRY →
        reg = (add_vehicle s.reg s.current_uid).1 ∧
        (s.reg.vehicle_count < MAX_VEHICLES_INSIDE →
          Member reg s.current_uid ∧ reg.vehicle_count = s.reg.vehicle_count + 1)) ∧
      (s.current_direction = DIR_EXIT → Member s.reg s.current_uid →
        reg.vehicle_count + 1 = s.reg.vehicle_count ∧
        (NoDuplicate s.reg → ¬ Member reg s.current_uid) ∧
        ∀ b : UID, b ≠ s.current_uid → (Member reg b ↔ Member s.reg b)) := by
  have hm : matchingSensorBlocked s.current_direction i1.entry1 i1.exit1 = true := by
    rcases hmatch with ⟨hd, h⟩ | ⟨hd, h⟩ <;> simp [matchingSensorBlocked, hd, h]
  have h1 := passageStage1_of_match s i1 hm
  -- the arming cycle
  have h2 : passageStage2 (passageStage1 s i1) i1 = some { s with vehicle_is_passing := true } := by
    rw [h1]
    exact passageStage2_skip _ i1 (Or.inr hocc1.1)
  have hp1 := poll_openWaiting s i1 _ hst h2
  rw [passageTimeout_hold _ i1 (Or.inr hocc1.2)] at hp1
  -- the cycles in between
  have hrun : run s (i1 :: mids) = some { s with vehicle_is_passing := true } := by
    simp only [run, hp1]
    exact run_armed_occluded mids _ hst rfl hmids
  -- the confirmation
  obtain ⟨reg, hupd⟩ := updateDatabase_total s hvc
  have hupd' : updateDatabase { s with vehicle_is_passing := true } = some reg := hupd
  have h3 := passageStage2_confirm { s with vehicle_is_passing := true } ilast reg rfl he hx hupd'
  have hp3 := poll_openWaiting { s with vehicle_is_passing := true } ilast _ hst
    (by rw [passageStage1_armed _ ilast rfl]; exact h3)
  rw [passageTimeout_hold _ ilast (Or.inl htick)] at hp3
  refine ⟨⟨_, _, hp1⟩, ?_, ?_, hrun, reg, hupd, ?_, ?_, ?_⟩
  · intro s' ev hp
    rw [poll_openWaiting_flag s i1 s' ev hst hp, h1]
  · intro t i t' ev htst htflag hp
    rw [poll_openWaiting_flag t i t' ev htst hp, passageStage1_armed t i htflag, htflag]
  · have happ := run_append (i1 :: mids) [ilast] s _ hrun
    rw [happ]
    simp only [run, hp3]
  · intro hd
    have hreg : reg = (add_vehicle s.reg s.current_uid).1 := by
      have h : updateDatabase s = some (add_vehicle s.reg s.current_uid).1 := by
        simp [updateDatabase, hd]
      rw [h] at hupd
      exact (Option.some.inj hupd).symm
    refine ⟨hreg, fun hroom => ?_⟩
    rw [hreg]
    exact member_add s.reg s.current_uid hroom
  · intro hd hmem
    obtain ⟨j, hl, hj1, hj2, hrem⟩ := remove_found_member s.reg s.current_uid hvc hmem
    have h : updateDatabase s = remove_found s.reg s.current_uid := by
      simp [updateDatabase, hd]
    rw [h, hrem] at hupd
    have hreg := (Option.some.inj hupd).symm
    rw [hreg]
    refine ⟨?_, ?_, ?_⟩
    · show s.reg.vehicle_count - 1 + 1 = s.reg.vehicle_count
      omega
    · intro hnd
      have := not_member_swap_remove s.reg j hl hj1 hnd
      rwa [hj2] at this
    · intro b hb
      exact member_swap_remove_iff s.reg j hl hj1 b (by rw [hj2]; exact hb)

/-- Instances of C23. Entry (Scenario 6): the entry of `cardA` is armed while the exit
sensor is occluded too, the sensors stay occluded in turn for two cycles, then both read
clear: `cardA` is added and the state is `STATE_WAIT_BEFORE_CLOSING`. Exit: the exit of
`cardA`, stored once, is armed by the exit sensor, both sensors are occluded for one
cycle, then both read clear: `cardA` is removed, `vehicle_count` goes from 1 to 0 and the
state is `STATE_WAIT_BEFORE_CLOSING`. -/
theorem C23_arming_then_confirmation_witness :
    (openUnarmedEntry.currentState = STATE_OPEN_WAITING_PASSAGE ∧
     openUnarmedEntry.current_direction = DIR_ENTRY ∧
     (sense true true 400).entry1 = true ∧ (sense true true 400).exit1 = true ∧
     run openUnarmedEntry [sense true true 400, sense false true 500, sense true false 600] =
       some openArmedEntry ∧
     run openUnarmedEntry
         [sense true true 400, sense false true 500, sense true false 600,
          sense false false 700] =
       some { closingAfterEntry with currentState := STATE_WAIT_BEFORE_CLOSING } ∧
     Member closingAfterEntry.reg cardA ∧
     ∃ reg : Registry, updateDatabase openUnarmedEntry = some reg ∧
       run openUnarmedEntry
           (sense true true 400 :: [sense false true 500, sense true false 600] ++
             [sense false false 700]) =
         some { openUnarmedEntry with vehicle_is_passing := true,
                                      reg := reg,
                                      currentState := STATE_WAIT_BEFORE_CLOSING,
                                      state_change_timestamp :=
                                        u32 (sense false false 700).tick1 } ∧
       reg = (add_vehicle openUnarmedEntry.reg openUnarmedEntry.current_uid).1 ∧
       Member reg openUnarmedEntry.current_uid ∧
       reg.vehicle_count = openUnarmedEntry.reg.vehicle_count + 1) ∧
    (openUnarmedExit.currentState = STATE_OPEN_WAITING_PASSAGE ∧
     openUnarmedExit.current_direction = DIR_EXIT ∧
     openUnarmedExit.current_uid = cardA ∧
     openUnarmedExit.reg.vehicle_count = 1 ∧
     Member openUnarmedExit.reg openUnarmedExit.current_uid ∧
     NoDuplicate openUnarmedExit.reg ∧
     (sense false true 3300).exit1 = true ∧
     (∃ s' : Controller,
       run openUnarmedExit
           [sense false true 3300, sense true true 3400, sense false false 3600] =
         some s' ∧
       s'.currentState = STATE_WAIT_BEFORE_CLOSING ∧ s'.reg.vehicle_count = 0) ∧
     ∃ reg : Registry, updateDatabase openUnarmedExit = some reg ∧
       run openUnarmedExit
           (sense false true 3300 :: [sense true true 3400] ++ [sense false false 3600]) =
         some { openUnarmedExit with vehicle_is_passing := true,
                                     reg := reg,
                                     currentState := STATE_WAIT_BEFORE_CLOSING,
                                     state_change_timestamp :=
                                       u32 (sense false false 3600).tick1 } ∧
       reg.vehicle_count + 1 = openUnarmedExit.reg.vehicle_count ∧
       ¬ Member reg openUnarmedExit.current_uid ∧
       ∀ b : UID, b ≠ openUnarmedExit.current_uid →
         (Member reg b ↔ Member openUnarmedExit.reg b)) := by
  have hmem : Member openUnarmedExit.reg openUnarmedExit.current_uid := ⟨0, by decide, rfl⟩
  have hnd : NoDuplicate openUnarmedExit.reg := by
    intro a b ha hb _
    have ha' : a.val < 1 := ha
    have hb' : b.val < 1 := hb
    exact Fin.ext (by omega)
  obtain ⟨reg, hupd, hrun, hentry, -⟩ :=
    (C23_arming_then_confirmation openUnarmedEntry (sense true true 400)
      [sense false true 500, sense true false 600] (sense false false 700) rfl (by decide)
      (Or.inl ⟨rfl, rfl⟩) ⟨Or.inl rfl, Or.inl rfl⟩
      (by
        intro i hi
        simp only [List.mem_cons, List.mem_singleton, List.not_mem_nil, or_false] at hi
        rcases hi with rfl | rfl
        · exact ⟨Or.inr rfl, Or.inr rfl⟩
        · exact ⟨Or.inl rfl, Or.inl rfl⟩)
      rfl rfl (by decide)).2.2.2.2
  obtain ⟨reg2, hupd2, hrun2, -, hexit⟩ :=
    (C23_arming_then_confirmation openUnarmedExit (sense false true 3300)
      [sense true true 3400] (sense false false 3600) rfl (by decide)
      (Or.inr ⟨rfl, rfl⟩) ⟨Or.inr rfl, Or.inr rfl⟩
      (by
        intro i hi
        simp only [List.mem_singleton] at hi
        rw [hi]
        exact ⟨Or.inl rfl, Or.inl rfl⟩)
      rfl rfl (by decide)).2.2.2.2
  obtain ⟨hcount, hgone, hothers⟩ := hexit rfl hmem
  exact ⟨⟨rfl, rfl, rfl, rfl, rfl, rfl, ⟨0, by decide, rfl⟩, reg, hupd, hrun,
      (hentry rfl).1, ((hentry rfl).2 (by decide)).1, ((hentry rfl).2 (by decide)).2⟩,
    ⟨rfl, rfl, rfl, rfl, hmem, hnd, rfl, ⟨_, rfl, rfl, rfl⟩, reg2, hupd2, hrun2, hcount,
      hgone hnd, hothers⟩⟩

/-- For every poll cycle whose reader calls leave the other globals alone and whose state
after the cycle equals its state before the
cycle, `state_change_timestamp` is unchanged; a cycle that changes the timestamp sets it
to the tick read and is a transition from `STATE_CLOSED` into
`STATE_AUTHORIZED_WAITING_VEHICLE`, from `STATE_OPENING` into
`STATE_OPEN_WAITING_PASSAGE`, or from `STATE_OPEN_WAITING_PASSAGE` into
`STATE_WAIT_BEFORE_CLOSING` (the last one followed by `STATE_CLOSING` within the same
cycle only if the second clock read is more than `PASSAGE_TIMEOUT` after the first). -/
theorem timestamp_written_on_entry_only_no_clobber (s : Controller) (i : Inputs)
    (hb : NoClobber i) (s' : Controller) (ev : List Event) (hp : poll s i = some (s', ev)) :
    (s'.currentState = s.currentState →
      s'.state_change_timestamp = s.state_change_timestamp) ∧
    (s'.state_change_timestamp ≠ s.state_change_timestamp →
      s'.currentState ≠ s.currentState ∧ s'.state_change_timestamp = u32 i.tick1 ∧
      ((s.currentState = STATE_CLOSED ∧
          s'.currentState = STATE_AUTHORIZED_WAITING_VEHICLE) ∨
       (s.currentState = STATE_OPENING ∧ s'.currentState = STATE_OPEN_WAITING_PASSAGE) ∨
       (s.currentState = STATE_OPEN_WAITING_PASSAGE ∧
          (s'.currentState = STATE_WAIT_BEFORE_CLOSING ∨
            (s'.currentState = STATE_CLOSING ∧
              u32sub i.tick2 (u32 i.tick1) > PASSAGE_TIMEOUT))))) := by
  have key := poll_timestamp s i hb s' ev hp
  have hchange : ∀ (a b : BarrierState_t),
      ((s.currentState = STATE_CLOSED ∧ s'.currentState = STATE_AUTHORIZED_WAITING_VEHICLE) ∨
       (s.currentState = STATE_OPENING ∧ s'.currentState = STATE_OPEN_WAITING_PASSAGE) ∨
       (s.currentState = STATE_OPEN_WAITING_PASSAGE ∧
          (s'.currentState = STATE_WAIT_BEFORE_CLOSING ∨
            (s'.currentState = STATE_CLOSING ∧
              u32sub i.tick2 (u32 i.tick1) > PASSAGE_TIMEOUT)))) →
      s.currentState = a → s'.currentState = b → a ≠ b := by
    intro a b h ha hb hab
    rcases h with ⟨h1, h2⟩ | ⟨h1, h2⟩ | ⟨h1, h2 | ⟨h2, -⟩⟩ <;>
      · rw [ha] at h1
        rw [hb, ← hab, h1] at h2
        cases h2
  constructor
  · intro hsame
    rcases key with h | ⟨-, h⟩
    · exact h
    · exact absurd hsame.symm (hchange _ _ h rfl rfl)
  · intro hne
    rcases key with h | ⟨h1, h2⟩
    · exact absurd h hne
    · exact ⟨fun hsame => hchange _ _ h2 rfl rfl hsame.symm, h1, h2⟩

/-- C25 (counterexample): the barrier is open for the entry of `cardA`, flag not armed.
The inputs `sense true false 400` and `tornEntry` agree on the first reading of each
sensor (entry occluded, exit clear) and on the clock, and differ in the second reading of
the entry sensor only; the first cycle ends in `STATE_OPEN_WAITING_PASSAGE` with the
registry empty, the second confirms the passage (`cardA` added,
`STATE_WAIT_BEFORE_CLOSING`): the confirmation test does not see the value the arming
test saw. -/
theorem C25_counterexample :
    Reachable openUnarmedEntry ∧
    tornEntry.entry1 = (sense true false 400).entry1 ∧
    tornEntry.exit1 = (sense true false 400).exit1 ∧
    tornEntry.exit2 = (sense true false 400).exit2 ∧
    tornEntry.exit3 = (sense true false 400).exit3 ∧
    tornEntry.tick1 = (sense true false 400).tick1 ∧
    tornEntry.tick2 = (sense true false 400).tick2 ∧
    poll openUnarmedEntry (sense true false 400) =
      some (openArmedEntry,
            [Event.LCD_FreeSlot 4, Event.HC595_DisplayNumber 0, Event.RGB_SetColor 0 255 0,
             Event.LCD_Write "Please pass...  ", Event.delay_ms 50]) ∧
    poll openUnarmedEntry tornEntry =
      some ({ closingAfterEntry with currentState := STATE_WAIT_BEFORE_CLOSING,
                                     state_change_timestamp := 400 },
            [Event.LCD_FreeSlot 4, Event.HC595_DisplayNumber 0, Event.RGB_SetColor 0 255 0,
             Event.LCD_Write "Please pass...  ", Event.delay_ms 50]) ∧
    openArmedEntry.currentState ≠ STATE_WAIT_BEFORE_CLOSING ∧
    openArmedEntry.reg.vehicle_count ≠ closingAfterEntry.reg.vehicle_count ∧
    poll openUnarmedEntry tornEntry ≠ poll openUnarmedEntry (sense true false 400) := by
  have hA : poll openUnarmedEntry (sense true false 400) =
      some (openArmedEntry,
            [Event.LCD_FreeSlot 4, Event.HC595_DisplayNumber 0, Event.RGB_SetColor 0 255 0,
             Event.LCD_Write "Please pass...  ", Event.delay_ms 50]) := rfl
  have hB : poll openUnarmedEntry tornEntry =
      some ({ closingAfterEntry with currentState := STATE_WAIT_BEFORE_CLOSING,
                                     state_change_timestamp := 400 },
            [Event.LCD_FreeSlot 4, Event.HC595_DisplayNumber 0, Event.RGB_SetColor 0 255 0,
             Event.LCD_Write "Please pass...  ", Event.delay_ms 50]) := rfl
  refine ⟨⟨[scan cardA 100, sense true false 200, quiet 300], rfl⟩, rfl, rfl, rfl, rfl, rfl,
    rfl, hA, hB, by decide, by decide, ?_⟩
  rw [hA, hB]
  intro h
  have hst := congrArg Controller.currentState (Prod.mk.inj (Option.some.inj h)).1
  cases hst

/-- C25 (amended): a poll cycle that starts in a state other than
`STATE_OPEN_WAITING_PASSAGE` reads each presence sensor at most once, and its outcome
(the globals and the trace) depends only on that reading, the card read (status, buffer
and stores beyond the buffer of the two reader calls) and the first clock read; a cycle that starts in `STATE_OPEN_WAITING_PASSAGE` reads the sensors anew at
the arming test, at the confirmation test and at the timeout test, and its outcome is
determined by the readings at the three tests and the two clock reads. -/
theorem C25_outcome_depends_on_each_reading (s : Controller) (i j : Inputs) :
    (s.currentState ≠ STATE_OPEN_WAITING_PASSAGE →
      j.request_ok = i.request_ok → j.request_buf = i.request_buf →
      j.request_overrun = i.request_overrun →
      j.anticoll_ok = i.anticoll_ok → j.anticoll_buf = i.anticoll_buf →
      j.anticoll_overrun = i.anticoll_overrun →
      j.entry1 = i.entry1 → j.exit1 = i.exit1 → j.tick1 = i.tick1 →
      poll s j = poll s i) ∧
    (s.currentState = STATE_OPEN_WAITING_PASSAGE →
      j.entry1 = i.entry1 → j.exit1 = i.exit1 → j.entry2 = i.entry2 → j.exit2 = i.exit2 →
      j.entry3 = i.entry3 → j.exit3 = i.exit3 → j.tick1 = i.tick1 → j.tick2 = i.tick2 →
      poll s j = poll s i) := by
  constructor
  · intro hne h1 h2 ho1 h3 h4 ho2 h5 h6 h7
    cases hst : s.currentState with
    | STATE_CLOSED =>
      unfold poll
      rw [switchState_closed s i hst, switchState_closed s j hst]
      unfold caseClosed
      simp only [h1, h2, h3, h4, h7, ho1, ho2]
    | STATE_AUTHORIZED_WAITING_VEHICLE =>
      rw [poll_authorized s i hst, poll_authorized s j hst, caseAuthorized_eq,
        caseAuthorized_eq, h5, h6, h7]
    | STATE_OPENING =>
      rw [poll_opening s i hst, poll_opening s j hst]
      unfold caseOpening
      rw [h7]
    | STATE_OPEN_WAITING_PASSAGE => exact absurd hst hne
    | STATE_WAIT_BEFORE_CLOSING =>
      rw [poll_waitBeforeClosing s i hst, poll_waitBeforeClosing s j hst,
        caseWaitBeforeClosing_eq, caseWaitBeforeClosing_eq, h7]
    | STATE_CLOSING =>
      rw [poll_closing s i hst, poll_closing s j hst]
      unfold caseClosing
      rw [h5, h6]
  · intro hst h1 h2 h3 h4 h5 h6 h7 h8
    unfold poll
    rw [switchState_openWaiting s i hst, switchState_openWaiting s j hst]
    unfold caseOpenWaiting passageTimeout passageStage2 passageStage1
    simp only [h1, h2, h3, h4, h5, h6, h7, h8]

/-- In every state reachable without clobber, in `STATE_AUTHORIZED_WAITING_VEHICLE`,
`STATE_OPENING` or `STATE_OPEN_WAITING_PASSAGE`, intent entry implies `vehicle_count < 4` and `current_uid`
not in the registry, so that `add_vehicle(current_uid)` returns true; intent exit implies
`current_uid` in the registry, so that `find_vehicle_index(current_uid)` returns an index
in `0..vehicle_count-1`, never `-1`, and `remove_vehicle` of it returns. -/
theorem serving_invariant_no_clobber (s : Controller) (hreach : ReachableNoClobber s)
    (hserv : s.currentState = STATE_AUTHORIZED_WAITING_VEHICLE ∨
      s.currentState = STATE_OPENING ∨ s.currentState = STATE_OPEN_WAITING_PASSAGE) :
    (s.current_direction = DIR_ENTRY →
      s.reg.vehicle_count < MAX_VEHICLES_INSIDE ∧ ¬ Member s.reg s.current_uid ∧
      (add_vehicle s.reg s.current_uid).2 = true) ∧
    (s.current_direction = DIR_EXIT →
      Member s.reg s.current_uid ∧
      ∃ idx : Int, find_vehicle_index s.reg s.current_uid = some idx ∧ idx ≠ -1 ∧
        0 ≤ idx ∧ idx < (s.reg.vehicle_count : Int) ∧
        ∃ r' : Registry, remove_vehicle s.reg idx = some r') := by
  obtain ⟨hvc, -, hserve⟩ := reachable_inv s hreach
  obtain ⟨hentry, hexit⟩ := hserve hserv
  constructor
  · intro hd
    obtain ⟨hroom, hnm⟩ := hentry hd
    refine ⟨hroom, hnm, ?_⟩
    rw [add_vehicle_room s.reg s.current_uid hroom]
  · intro hd
    have hm := hexit hd
    obtain ⟨j, hj1, -, -, hfind⟩ := find_of_member s.reg s.current_uid hm
    obtain ⟨r', hr'⟩ := remove_vehicle_total s.reg (j.val : Int) hvc
    exact ⟨hm, _, hfind, by omega, by omega, by omega, r', hr'⟩

/-- C27: the three timeout tests compute the elapsed time as the unsigned 32-bit
difference of the clock read (taken as `uint32_t`, like the variable it is stored in) and
`state_change_timestamp`: if the timestamp was recorded at true time `T` (stored as
`T mod 2^32`) and the test reads the clock at true time `T + d` with `d < 2^32`, the
difference is `d`, whether or not the counter wrapped in between, and each of the three
tests fires iff `d` is greater than its timeout. -/
theorem C27_elapsed_time_wraps (T d : Nat) (hd : d < 4294967296) :
    u32sub (T + d) (Get_Ms_Ticks T) = d ∧
    (∀ (s : Controller) (i : Inputs), s.state_change_timestamp = Get_Ms_Ticks T →
      Get_Ms_Ticks i.tick1 = Get_Ms_Ticks (T + d) → s.currentState = STATE_AUTHORIZED_WAITING_VEHICLE →
      ((caseAuthorized s i).1.currentState = STATE_CLOSED ↔ d > AUTHORIZED_TIMEOUT)) ∧
    (∀ (s : Controller) (i : Inputs), s.state_change_timestamp = Get_Ms_Ticks T →
      Get_Ms_Ticks i.tick2 = Get_Ms_Ticks (T + d) → s.currentState = STATE_OPEN_WAITING_PASSAGE →
      i.entry3 = false → i.exit3 = false →
      ((passageTimeout s i).currentState = STATE_CLOSING ↔ d > PASSAGE_TIMEOUT)) ∧
    (∀ (s : Controller) (i : Inputs), s.state_change_timestamp = Get_Ms_Ticks T →
      Get_Ms_Ticks i.tick1 = Get_Ms_Ticks (T + d) → s.currentState = STATE_WAIT_BEFORE_CLOSING →
      ((caseWaitBeforeClosing s i).1.currentState = STATE_CLOSING ↔
        d > DELAY_BEFORE_CLOSING)) := by
  have hel : u32sub (T + d) (Get_Ms_Ticks T) = d := u32sub_elapsed T d hd
  refine ⟨hel, ?_, ?_, ?_⟩
  · intro s i hts htick hst
    have he : u32sub i.tick1 s.state_change_timestamp = d := by
      rw [hts, u32sub_congr i.tick1 (T + d) _ htick, hel]
    rw [caseAuthorized_eq, he]
    by_cases hgt : d > AUTHORIZED_TIMEOUT
    · simp [hgt]
    · simp only [hgt, if_false, iff_false]
      split_ifs
      · simp
      · rw [hst]
        simp
  · intro s i hts htick hst he3 hx3
    have he : u32sub i.tick2 s.state_change_timestamp = d := by
      rw [hts, u32sub_congr i.tick2 (T + d) _ htick, hel]
    by_cases hgt : d > PASSAGE_TIMEOUT
    · rw [passageTimeout_fire s i (by rw [he]; exact hgt) he3 hx3]
      simp [hgt]
    · rw [passageTimeout_hold s i (Or.inl (by rw [he]; omega)), hst]
      simp [hgt]
  · intro s i hts htick hst
    have he : u32sub i.tick1 s.state_change_timestamp = d := by
      rw [hts, u32sub_congr i.tick1 (T + d) _ htick, hel]
    rw [caseWaitBeforeClosing_eq, he]
    by_cases hgt : d > DELAY_BEFORE_CLOSING
    · simp [hgt]
    · simp [hgt, hst]

/-- Instance of C27: the timestamp was recorded 5 ms before the counter wrapped and the
clock is read 10001 ms later, when the counter reads 9996, less than the timestamp. -/
theorem C27_elapsed_time_wraps_witness :
    (10001 : Nat) < 4294967296 ∧
    u32 (4294967291 + 10001) = 9996 ∧ u32 (4294967291 + 10001) < u32 4294967291 ∧
    u32sub (4294967291 + 10001) (u32 4294967291) = 10001 ∧
    (caseAuthorized { awaitingEntry with state_change_timestamp := 4294967291 }
      (quiet 9996)).1.currentState = STATE_CLOSED ∧
    (caseAuthorized { awaitingEntry with state_change_timestamp := 4294967291 }
      (quiet 9995)).1.currentState = STATE_AUTHORIZED_WAITING_VEHICLE :=
  have h := C27_elapsed_time_wraps 4294967291 10001 (by decide)
  ⟨by decide, by decide, by decide, h.1,
    (h.2.1 { awaitingEntry with state_change_timestamp := 4294967291 } (quiet 9996)
      (by decide) (by decide) rfl).2 (by decide),
    by decide⟩

/-- C28: for every 8-bit colour value `v`, `scale8_to_arr(v)` is the integer nearest to
`v * 999 / 255`: its distance to `v * 999 / 255` is less than one half (so no tie occurs)
and every other integer is strictly farther; it maps 0 to 0 and 255 to `PWM_ARR = 999`,
never exceeds 999, and is non-decreasing in `v`. -/
theorem C28_scale8_to_arr_nearest (v : Nat) (hv : v < 256) :
    2 * |(999 * (v : Int)) - 255 * (scale8_to_arr v : Int)| < 255 ∧
    (∀ n : Int, n ≠ (scale8_to_arr v : Int) →
      |(999 * (v : Int)) - 255 * (scale8_to_arr v : Int)| < |(999 * (v : Int)) - 255 * n|) ∧
    scale8_to_arr 0 = 0 ∧ scale8_to_arr 255 = PWM_ARR ∧
    scale8_to_arr v ≤ PWM_ARR ∧
    (∀ w : Nat, w < 256 → v ≤ w → scale8_to_arr v ≤ scale8_to_arr w) ∧
    RGB_SetColor 255 0 0 = (999, 0, 0) := by
  have hr := scale8_to_arr_eq v hv
  have hlo : 255 * scale8_to_arr v ≤ 999 * v + 127 := by
    rw [hr]
    omega
  have hhi : 999 * v + 127 < 255 * scale8_to_arr v + 255 := by
    rw [hr]
    omega
  refine ⟨?_, ?_, by decide, by decide, ?_, ?_, by decide⟩
  · rcases abs_cases ((999 * (v : Int)) - 255 * (scale8_to_arr v : Int)) with ⟨h, _⟩ | ⟨h, _⟩ <;>
      · rw [h]
        omega
  · intro n hn
    rcases abs_cases ((999 * (v : Int)) - 255 * (scale8_to_arr v : Int)) with ⟨h, _⟩ | ⟨h, _⟩ <;>
      rcases abs_cases ((999 * (v : Int)) - 255 * n) with ⟨h', _⟩ | ⟨h', _⟩ <;>
      · rw [h, h']
        omega
  · rw [hr]
    simp only [PWM_ARR]
    omega
  · intro w hw hvw
    rw [hr, scale8_to_arr_eq w hw]
    omega

/-- Instance of C28: the colour value 128 is scaled to 501 (128 * 999 / 255 = 501.46). -/
theorem C28_scale8_to_arr_nearest_witness :
    (128 : Nat) < 256 ∧ scale8_to_arr 128 = 501 ∧
    2 * |(999 * ((128 : Nat) : Int)) - 255 * (scale8_to_arr 128 : Int)| < 255 :=
  ⟨by decide, by decide, (C28_scale8_to_arr_nearest 128 (by decide)).1⟩

/-- C29 (counterexample): for a 16.5 MHz timer clock, a 1 kHz PWM and `arr = 999` the
formula of the comment with integer division gives `16500000 / 1000000 - 1 = 15`, and
`compute_psc` returns 16. -/
theorem C29_counterexample :
    compute_psc 16500000 1000 999 = 16 ∧
    compute_psc_comment_formula 16500000 1000 999 = 15 ∧
    (compute_psc 16500000 1000 999 : Int) ≠ compute_psc_comment_formula 16500000 1000 999 := by
  decide

/-- C29 (amended): for every `timclk_hz`, `fpwm_hz` and `arr` with
`fpwm_hz * (arr + 1) > 0`, without 32-bit overflow (`timclk_hz + fpwm_hz * (arr + 1) < 2^32`)
and without 16-bit truncation (`timclk_hz ≤ 65536 * fpwm_hz * (arr + 1)`), `compute_psc`
returns the ceiling of `timclk_hz / (fpwm_hz * (arr + 1))` minus one (0 for a zero clock);
this is the formula of the comment read with integer division when `fpwm_hz * (arr + 1)`
divides `timclk_hz > 0`, as at the one call site (`168000000 / (1000 * 1000) - 1 = 167`),
and one more than that formula when it does not divide. -/
theorem C29_compute_psc_ceiling (timclk_hz fpwm_hz arr : Nat)
    (hden : 0 < fpwm_hz * (arr + 1))
    (hfit : timclk_hz + fpwm_hz * (arr + 1) < 4294967296)
    (hsmall : timclk_hz ≤ 65536 * (fpwm_hz * (arr + 1))) :
    compute_psc timclk_hz fpwm_hz arr =
      (timclk_hz + fpwm_hz * (arr + 1) - 1) / (fpwm_hz * (arr + 1)) - 1 ∧
    (fpwm_hz * (arr + 1) ∣ timclk_hz → 0 < timclk_hz →
      (compute_psc timclk_hz fpwm_hz arr : Int) =
        compute_psc_comment_formula timclk_hz fpwm_hz arr) ∧
    (¬ fpwm_hz * (arr + 1) ∣ timclk_hz →
      (compute_psc timclk_hz fpwm_hz arr : Int) =
        compute_psc_comment_formula timclk_hz fpwm_hz arr + 1) ∧
    RGB_Init_PSC = 167 ∧
    (RGB_Init_PSC : Int) = compute_psc_comment_formula 168000000 PWM_TARGET_HZ PWM_ARR := by
  have heq := compute_psc_eq timclk_hz fpwm_hz arr hden hfit hsmall
  refine ⟨heq, ?_, ?_, by decide, by decide⟩
  · intro hdvd hpos
    have hge : 1 ≤ timclk_hz / (fpwm_hz * (arr + 1)) :=
      (Nat.one_le_div_iff hden).2 (Nat.le_of_dvd hpos hdvd)
    rw [heq, ceil_div_of_dvd _ _ hden hdvd]
    unfold compute_psc_comment_formula
    clear heq
    generalize timclk_hz / (fpwm_hz * (arr + 1)) = q at hge ⊢
    omega
  · intro hndvd
    rw [heq, ceil_div_of_not_dvd _ _ hden hndvd]
    unfold compute_psc_comment_formula
    clear heq
    generalize timclk_hz / (fpwm_hz * (arr + 1)) = q
    omega

/-- Instance of the amended C29: the call of `RGB_Init` and a clock of 16.5 MHz. -/
theorem C29_compute_psc_ceiling_witness :
    0 < PWM_TARGET_HZ * (PWM_ARR + 1) ∧
    168000000 + PWM_TARGET_HZ * (PWM_ARR + 1) < 4294967296 ∧
    168000000 ≤ 65536 * (PWM_TARGET_HZ * (PWM_ARR + 1)) ∧
    compute_psc 168000000 PWM_TARGET_HZ PWM_ARR =
      (168000000 + PWM_TARGET_HZ * (PWM_ARR + 1) - 1) / (PWM_TARGET_HZ * (PWM_ARR + 1)) - 1 ∧
    compute_psc 168000000 PWM_TARGET_HZ PWM_ARR = 167 :=
  ⟨by decide, by decide, by decide,
    (C29_compute_psc_ceiling 168000000 PWM_TARGET_HZ PWM_ARR (by decide) (by decide)
      (by decide)).1,
    by decide⟩

end ParkingLot
